import Mathlib

/-!
Verification of the Spritz stream-cipher/hash engine (`src/lib.rs`).

The Rust source is shallowly embedded: the engine struct `Spritz` holds the
256-cell byte table `S` as a `List Nat` together with the six one-byte
registers `i j k z a w` as `Nat`s, and every `wrapping_add`/`wrapping_sub`
of the source becomes explicit `% 256` arithmetic.  Table indexing is total
(`List.getD`, default 0); a separate `Option`-valued variant of every
internal operation models Rust's panicking bounds check, and is proved to
succeed on well-formed states.
-/

set_option maxRecDepth 1000000
set_option maxHeartbeats 2000000

namespace Spritz

/-- `const N: usize = 256` -/
def N : Nat := 256

/-- The engine state: the byte table `S: [u8; 256]` and the one-byte
registers `i, j, k, z, a, w` of `struct Spritz`. -/
structure Spritz where
  S : List Nat
  i : Nat
  j : Nat
  k : Nat
  z : Nat
  a : Nat
  w : Nat
deriving DecidableEq

/-- Total read of the table: `self.S[idx as usize]` (the index is always a
`u8` cast in the source, so reads are in bounds; out-of-range reads of the
embedding default to 0). -/
def sget (S : List Nat) (idx : Nat) : Nat := S.getD idx 0

/-- `self.S.swap(x, y)`: exchange the cells at positions `x` and `y`. -/
def sswap (S : List Nat) (x y : Nat) : List Nat :=
  (S.set x (sget S y)).set y (sget S x)

/-- `u8::wrapping_sub` on byte values. -/
def wsub (x y : Nat) : Nat := (x + (256 - y % 256)) % 256

/-- `initialize_state()`: identity table, `i = j = k = z = a = 0`, `w = 1`. -/
def initialize_state : Spritz :=
  { S := List.range 256, i := 0, j := 0, k := 0, z := 0, a := 0, w := 1 }

/-- `update()`: `i += w`; `j = k + S[j + S[i]]`; `k = i + k + S[j]`;
swap `S[i]` and `S[j]` (all additions wrapping mod 256). -/
def update (sp : Spritz) : Spritz :=
  let i := (sp.i + sp.w) % 256
  let idx := (sp.j + sget sp.S i) % 256
  let j := (sp.k + sget sp.S idx) % 256
  let k := (i + sp.k + sget sp.S j) % 256
  { sp with i := i, j := j, k := k, S := sswap sp.S i j }

/-- The `for _ in 0..r { self.update(); }` loop of `whip`. -/
def whipLoop : Nat → Spritz → Spritz
  | 0, sp => sp
  | n + 1, sp => whipLoop n (update sp)

/-- `whip(r)`: `r` updates, then `w = w.wrapping_add(2)`. -/
def whip (sp : Spritz) (r : Nat) : Spritz :=
  let sp := whipLoop r sp
  { sp with w := (sp.w + 2) % 256 }

/-- The `for v in 0..N/2` loop of `crush`, with `fuel` iterations left and
current loop counter `v`: `idx = (N-1).wrapping_sub(v)`; if
`S[v] > S[idx]`, swap the two cells. -/
def crushFrom (S : List Nat) (v : Nat) : Nat → List Nat
  | 0 => S
  | fuel + 1 =>
    let idx := wsub (N - 1) v
    let S' := if sget S idx < sget S v then sswap S v idx else S
    crushFrom S' (v + 1) fuel

/-- `crush()`: one compare-and-swap pass over the pairs `(v, N-1-v)`. -/
def crush (sp : Spritz) : Spritz :=
  { sp with S := crushFrom sp.S 0 (N / 2) }

/-- `shuffle()`: `whip(2N); crush(); whip(2N); crush(); whip(2N); a = 0`. -/
def shuffle (sp : Spritz) : Spritz :=
  let sp := whip sp (2 * N)
  let sp := crush sp
  let sp := whip sp (2 * N)
  let sp := crush sp
  let sp := whip sp (2 * N)
  { sp with a := 0 }

/-- `absorb_nibble(x)`: shuffle when `a == N/2`, then swap `S[a]` with
`S[x.wrapping_add(N/2)]` and increment `a`. -/
def absorb_nibble (sp : Spritz) (x : Nat) : Spritz :=
  let sp := if sp.a = N / 2 then shuffle sp else sp
  let sp := { sp with S := sswap sp.S sp.a ((x + N / 2) % 256) }
  { sp with a := (sp.a + 1) % 256 }

/-- `absorb_byte(b)`: low nibble `b & 0xf` first, then high nibble `b >> 4`. -/
def absorb_byte (sp : Spritz) (b : Nat) : Spritz :=
  absorb_nibble (absorb_nibble sp (b &&& 0xf)) (b >>> 4)

/-- `absorb(I)`: absorb each byte of `I` in order. -/
def absorb (sp : Spritz) (I : List Nat) : Spritz :=
  I.foldl absorb_byte sp

/-- `absorb_stop()`: shuffle when `a == N/2`, then increment `a`. -/
def absorb_stop (sp : Spritz) : Spritz :=
  let sp := if sp.a = N / 2 then shuffle sp else sp
  { sp with a := (sp.a + 1) % 256 }

/-- `Spritz::new(key)`: initialize, then absorb the key. -/
def new (key : List Nat) : Spritz :=
  absorb initialize_state key

/-- `output()`: `t0 = S[z + k]`; `t1 = S[i + t0]`; `z = S[j + t1]`;
returns the new `z` together with the updated state. -/
def output (sp : Spritz) : Nat × Spritz :=
  let t0 := sget sp.S ((sp.z + sp.k) % 256)
  let t1 := sget sp.S ((sp.i + t0) % 256)
  let z := sget sp.S ((sp.j + t1) % 256)
  (z, { sp with z := z })

/-- `drip()`: shuffle if `a > 0`, then `update()` and `output()`. -/
def drip (sp : Spritz) : Nat × Spritz :=
  let sp := if 0 < sp.a then shuffle sp else sp
  output (update sp)

/-- `r` successive `drip()` calls, collecting the produced bytes in order
(the loop body of `squeeze`, and the shape of repeated public `drip` use). -/
def dripN (sp : Spritz) : Nat → List Nat × Spritz
  | 0 => ([], sp)
  | r + 1 =>
    let d := drip sp
    let rest := dripN d.2 r
    (d.1 :: rest.1, rest.2)

/-- `squeeze(r)`: shuffle if `a > 0`, then produce `r` bytes by `r` drips. -/
def squeeze (sp : Spritz) (r : Nat) : List Nat × Spritz :=
  let sp := if 0 < sp.a then shuffle sp else sp
  dripN sp r

/-- The `for (i, v) in src.iter().enumerate() { dst[i] = v ^ self.drip(); }`
loop of `xor_key_stream`: returns the written bytes in order and the final
engine state. -/
def xorLoop (sp : Spritz) : List Nat → List Nat × Spritz
  | [] => ([], sp)
  | v :: rest =>
    let d := drip sp
    let r := xorLoop d.2 rest
    ((v ^^^ d.1) :: r.1, r.2)

/-- `xor_key_stream(dst, src)`: the `assert!(dst.len() == src.len())` is
modelled as `none` (the assert fires before any byte is processed); on
equal lengths the whole destination is overwritten with `src[i] ^ drip()`. -/
def xor_key_stream (sp : Spritz) (dst src : List Nat) : Option (List Nat × Spritz) :=
  if dst.length = src.length then some (xorLoop sp src) else none

/-- `hash256(msg)`: initialize, absorb the message, absorb-stop, absorb the
single length byte 32, then squeeze 32 bytes. -/
def hash256 (msg : List Nat) : List Nat :=
  (squeeze (absorb (absorb_stop (absorb initialize_state msg)) [32]) 32).1

/-- For C2 — `update` as the spec sentence literally reads:
`i += w`; `j = k + S[i]`; `k = i + k + S[j]`; swap `S[i]` and `S[j]`. -/
def update_spec (sp : Spritz) : Spritz :=
  let i := (sp.i + sp.w) % 256
  let j := (sp.k + sget sp.S i) % 256
  let k := (i + sp.k + sget sp.S j) % 256
  { sp with i := i, j := j, k := k, S := sswap sp.S i j }

/-- A concrete engine state on which `update` and the spec's sentence about
it disagree (identity table, `j = 5`). -/
def cexC2 : Spritz :=
  { S := List.range 256, i := 0, j := 5, k := 0, z := 0, a := 0, w := 1 }

/-! ### Well-formedness

`Wf` states exactly what the Rust types guarantee: the table has 256 cells,
every cell holds a byte, and the absorption counter `a` is a byte (it is the
only register used directly as a table index; all other indices are reduced
mod 256 where they are formed). -/

/-- The state really is a `[u8; 256]` table plus a `u8` counter `a`. -/
def Wf (sp : Spritz) : Prop :=
  sp.S.length = 256 ∧ (∀ b ∈ sp.S, b < 256) ∧ sp.a < 256

/-! ### Packed evaluator

For the known-answer vectors the engine has to be run concretely for
thousands of `update` steps.  To keep those computations cheap, the table is
also represented packed into a single natural number (cell `t` is the base-256
digit `t`), with one packed operation mirroring each engine operation, and
the packed run is proved to simulate the list-based one on well-formed
states. -/

/-- The engine state with the table packed into one natural number. -/
structure PState where
  P : Nat
  i : Nat
  j : Nat
  k : Nat
  z : Nat
  a : Nat
  w : Nat
deriving DecidableEq

/-- Base-256 packing of a byte table. -/
def pack : List Nat → Nat
  | [] => 0
  | b :: t => b + 256 * pack t

/-- Read the base-256 digit `idx` of `P` (mirrors `sget`). -/
def pget (P idx : Nat) : Nat := (P / 256 ^ idx) % 256

/-- Replace the base-256 digit `idx` of `P` by `v` (mirrors `List.set`). -/
def pset (P idx v : Nat) : Nat :=
  P % 256 ^ idx + v * 256 ^ idx + P / 256 ^ (idx + 1) * 256 ^ (idx + 1)

/-- Swap the digits `x` and `y` of `P` (mirrors `sswap`). -/
def pswap (P x y : Nat) : Nat := pset (pset P x (pget P y)) y (pget P x)

/-- The packed view of an engine state. -/
def absP (sp : Spritz) : PState :=
  ⟨pack sp.S, sp.i, sp.j, sp.k, sp.z, sp.a, sp.w⟩

/-- Packed `initialize_state`. -/
def initializeP : PState :=
  ⟨pack (List.range 256), 0, 0, 0, 0, 0, 1⟩

/-- Packed `update`. -/
def updateP (sp : PState) : PState :=
  let i := (sp.i + sp.w) % 256
  let idx := (sp.j + pget sp.P i) % 256
  let j := (sp.k + pget sp.P idx) % 256
  let k := (i + sp.k + pget sp.P j) % 256
  { sp with i := i, j := j, k := k, P := pswap sp.P i j }

/-- Packed `whipLoop`. -/
def whipLoopP : Nat → PState → PState
  | 0, sp => sp
  | n + 1, sp => whipLoopP n (updateP sp)

/-- Packed `whip`. -/
def whipP (sp : PState) (r : Nat) : PState :=
  let sp := whipLoopP r sp
  { sp with w := (sp.w + 2) % 256 }

/-- Packed `crushFrom`. -/
def crushFromP (P v : Nat) : Nat → Nat
  | 0 => P
  | fuel + 1 =>
    let idx := wsub (N - 1) v
    let P' := if pget P idx < pget P v then pswap P v idx else P
    crushFromP P' (v + 1) fuel

/-- Packed `crush`. -/
def crushP (sp : PState) : PState :=
  { sp with P := crushFromP sp.P 0 (N / 2) }

/-- Packed `shuffle`. -/
def shuffleP (sp : PState) : PState :=
  let sp := whipP sp (2 * N)
  let sp := crushP sp
  let sp := whipP sp (2 * N)
  let sp := crushP sp
  let sp := whipP sp (2 * N)
  { sp with a := 0 }

/-- Packed `absorb_nibble`. -/
def absorb_nibbleP (sp : PState) (x : Nat) : PState :=
  let sp := if sp.a = N / 2 then shuffleP sp else sp
  let sp := { sp with P := pswap sp.P sp.a ((x + N / 2) % 256) }
  { sp with a := (sp.a + 1) % 256 }

/-- Packed `absorb_byte`. -/
def absorb_byteP (sp : PState) (b : Nat) : PState :=
  absorb_nibbleP (absorb_nibbleP sp (b &&& 0xf)) (b >>> 4)

/-- Packed `absorb`. -/
def absorbP (sp : PState) (I : List Nat) : PState :=
  I.foldl absorb_byteP sp

/-- Packed `absorb_stop`. -/
def absorb_stopP (sp : PState) : PState :=
  let sp := if sp.a = N / 2 then shuffleP sp else sp
  { sp with a := (sp.a + 1) % 256 }

/-- Packed `new`. -/
def newP (key : List Nat) : PState :=
  absorbP initializeP key

/-- Packed `output`. -/
def outputP (sp : PState) : Nat × PState :=
  let t0 := pget sp.P ((sp.z + sp.k) % 256)
  let t1 := pget sp.P ((sp.i + t0) % 256)
  let z := pget sp.P ((sp.j + t1) % 256)
  (z, { sp with z := z })

/-- Packed `drip`. -/
def dripP (sp : PState) : Nat × PState :=
  let sp := if 0 < sp.a then shuffleP sp else sp
  outputP (updateP sp)

/-- Packed `dripN`. -/
def dripNP (sp : PState) : Nat → List Nat × PState
  | 0 => ([], sp)
  | r + 1 =>
    let d := dripP sp
    let rest := dripNP d.2 r
    (d.1 :: rest.1, rest.2)

/-- Packed `squeeze`. -/
def squeezeP (sp : PState) (r : Nat) : List Nat × PState :=
  let sp := if 0 < sp.a then shuffleP sp else sp
  dripNP sp r

/-- The shuffle-free tail of `absorb_nibble`: swap `S[a]` with `S[x + N/2]`
and increment `a`. -/
def absorb_nibble_tail (sp : Spritz) (x : Nat) : Spritz :=
  let sp := { sp with S := sswap sp.S sp.a ((x + N / 2) % 256) }
  { sp with a := (sp.a + 1) % 256 }

/-- Packed version of `absorb_nibble_tail`. -/
def absorb_nibble_tailP (sp : PState) (x : Nat) : PState :=
  let sp := { sp with P := pswap sp.P sp.a ((x + N / 2) % 256) }
  { sp with a := (sp.a + 1) % 256 }


/-! ### Reachable engine states (for the permutation and odd-`w` invariants) -/

/-- States reachable by any sequence of the public and internal operations:
construction, absorption, stop marker, and output extraction. -/
inductive Reachable : Spritz → Prop where
  | init : Reachable initialize_state
  | ofNew (key : List Nat) : Reachable (new key)
  | ofAbsorb {sp : Spritz} (I : List Nat) : Reachable sp → Reachable (absorb sp I)
  | ofStop {sp : Spritz} : Reachable sp → Reachable (absorb_stop sp)
  | ofDrip {sp : Spritz} : Reachable sp → Reachable (drip sp).2
  | ofSqueeze {sp : Spritz} (r : Nat) : Reachable sp → Reachable (squeeze sp r).2
  | ofXor {sp sp' : Spritz} {out : List Nat} (dst src : List Nat) : Reachable sp →
      xor_key_stream sp dst src = some (out, sp') → Reachable sp'

/-- The run-time invariant of the engine: the table is a permutation of
`0..255`, the absorption counter is a byte, and the stride `w` is odd. -/
def Inv (sp : Spritz) : Prop :=
  sp.S.Perm (List.range 256) ∧ sp.a < 256 ∧ sp.w % 2 = 1

/-! ### Option-valued (bounds-checked) variants of the internal operations

Rust's indexing `self.S[idx]` and `self.S.swap(x, y)` panic when out of
bounds.  The `...C` variants below model every table access as fallible
(`none` = the panicking branch); C8 proves they never fail on well-formed
states. -/

/-- Bounds-checked `S.swap(x, y)`. -/
def sswapC (S : List Nat) (x y : Nat) : Option (List Nat) :=
  (S[x]?).bind fun vx =>
    (S[y]?).bind fun vy =>
      some ((S.set x vy).set y vx)

/-- Bounds-checked `update`. -/
def updateC (sp : Spritz) : Option Spritz :=
  let i := (sp.i + sp.w) % 256
  (sp.S[i]?).bind fun s1 =>
    let idx := (sp.j + s1) % 256
    (sp.S[idx]?).bind fun s2 =>
      let j := (sp.k + s2) % 256
      (sp.S[j]?).bind fun s3 =>
        let k := (i + sp.k + s3) % 256
        (sswapC sp.S i j).bind fun S =>
          some { sp with i := i, j := j, k := k, S := S }

/-- Bounds-checked `whip` loop. -/
def whipLoopC : Nat → Spritz → Option Spritz
  | 0, sp => some sp
  | n + 1, sp => (updateC sp).bind fun sp => whipLoopC n sp

/-- Bounds-checked `whip`. -/
def whipC (sp : Spritz) (r : Nat) : Option Spritz :=
  (whipLoopC r sp).bind fun sp =>
    some { sp with w := (sp.w + 2) % 256 }

/-- Bounds-checked `crush` loop. -/
def crushFromC (S : List Nat) (v : Nat) : Nat → Option (List Nat)
  | 0 => some S
  | fuel + 1 =>
    let idx := wsub (N - 1) v
    (S[v]?).bind fun a =>
      (S[idx]?).bind fun b =>
        (if b < a then sswapC S v idx else some S).bind fun S =>
          crushFromC S (v + 1) fuel

/-- Bounds-checked `crush`. -/
def crushC (sp : Spritz) : Option Spritz :=
  (crushFromC sp.S 0 (N / 2)).bind fun S =>
    some { sp with S := S }

/-- Bounds-checked `shuffle`. -/
def shuffleC (sp : Spritz) : Option Spritz :=
  (whipC sp (2 * N)).bind fun sp =>
    (crushC sp).bind fun sp =>
      (whipC sp (2 * N)).bind fun sp =>
        (crushC sp).bind fun sp =>
          (whipC sp (2 * N)).bind fun sp =>
            some { sp with a := 0 }

/-- Bounds-checked `absorb_nibble`. -/
def absorb_nibbleC (sp : Spritz) (x : Nat) : Option Spritz :=
  (if sp.a = N / 2 then shuffleC sp else some sp).bind fun sp =>
    (sswapC sp.S sp.a ((x + N / 2) % 256)).bind fun S =>
      some { sp with S := S, a := (sp.a + 1) % 256 }

/-- Bounds-checked `absorb_byte`. -/
def absorb_byteC (sp : Spritz) (b : Nat) : Option Spritz :=
  (absorb_nibbleC sp (b &&& 0xf)).bind fun sp =>
    absorb_nibbleC sp (b >>> 4)

/-- Bounds-checked `absorb`. -/
def absorbC : Spritz → List Nat → Option Spritz
  | sp, [] => some sp
  | sp, b :: I => (absorb_byteC sp b).bind fun sp => absorbC sp I

/-- Bounds-checked `absorb_stop`. -/
def absorb_stopC (sp : Spritz) : Option Spritz :=
  (if sp.a = N / 2 then shuffleC sp else some sp).bind fun sp =>
    some { sp with a := (sp.a + 1) % 256 }

/-- Bounds-checked `output`. -/
def outputC (sp : Spritz) : Option (Nat × Spritz) :=
  (sp.S[(sp.z + sp.k) % 256]?).bind fun t0 =>
    (sp.S[(sp.i + t0) % 256]?).bind fun t1 =>
      (sp.S[(sp.j + t1) % 256]?).bind fun z =>
        some (z, { sp with z := z })

/-- Bounds-checked `drip`. -/
def dripC (sp : Spritz) : Option (Nat × Spritz) :=
  (if 0 < sp.a then shuffleC sp else some sp).bind fun sp =>
    (updateC sp).bind fun sp =>
      outputC sp

/-- Bounds-checked `dripN`. -/
def dripNC : Spritz → Nat → Option (List Nat × Spritz)
  | sp, 0 => some ([], sp)
  | sp, r + 1 =>
    (dripC sp).bind fun d =>
      (dripNC d.2 r).bind fun rest =>
        some (d.1 :: rest.1, rest.2)

/-- Bounds-checked `squeeze`. -/
def squeezeC (sp : Spritz) (r : Nat) : Option (List Nat × Spritz) :=
  (if 0 < sp.a then shuffleC sp else some sp).bind fun sp =>
    dripNC sp r

/-! ### Basic facts about table reads, writes and well-formedness -/

theorem sget_lt {S : List Nat} (hS : ∀ b ∈ S, b < 256) (idx : Nat) : sget S idx < 256 := by
  unfold sget
  rcases Nat.lt_or_ge idx S.length with h | h
  · rw [List.getD_eq_getElem?_getD, List.getElem?_eq_getElem h]
    exact hS _ (List.getElem_mem h)
  · rw [List.getD_eq_getElem?_getD, List.getElem?_eq_none h]
    norm_num

theorem mem_set_lt {S : List Nat} (hS : ∀ b ∈ S, b < 256) {v : Nat} (hv : v < 256)
    (n : Nat) : ∀ b ∈ S.set n v, b < 256 := by
  intro b hb
  rcases List.mem_or_eq_of_mem_set hb with h | h
  · exact hS b h
  · omega

theorem sswap_length (S : List Nat) (x y : Nat) : (sswap S x y).length = S.length := by
  simp [sswap]

theorem sswap_bytes {S : List Nat} (hS : ∀ b ∈ S, b < 256) (x y : Nat) :
    ∀ b ∈ sswap S x y, b < 256 :=
  mem_set_lt (mem_set_lt hS (sget_lt hS y) x) (sget_lt hS x) y

/-! ### The packed table simulates the list table -/

theorem pget_pack {S : List Nat} (hS : ∀ b ∈ S, b < 256) (idx : Nat) :
    pget (pack S) idx = sget S idx := by
  induction S generalizing idx with
  | nil => simp [pack, pget, sget]
  | cons b t ih =>
    have hb : b < 256 := hS b (List.mem_cons_self b t)
    have ht : ∀ x ∈ t, x < 256 := fun x hx => hS x (List.mem_cons_of_mem _ hx)
    cases idx with
    | zero =>
      show (b + 256 * pack t) / 256 ^ 0 % 256 = sget (b :: t) 0
      rw [Nat.pow_zero, Nat.div_one, Nat.add_mul_mod_self_left, Nat.mod_eq_of_lt hb]
      rfl
    | succ n =>
      show (b + 256 * pack t) / 256 ^ (n + 1) % 256 = sget (b :: t) (n + 1)
      have h1 : (b + 256 * pack t) / 256 ^ (n + 1) = pack t / 256 ^ n := by
        have e : (256 : Nat) ^ (n + 1) = 256 * 256 ^ n := by
          rw [Nat.pow_succ, Nat.mul_comm]
        rw [e, ← Nat.div_div_eq_div_mul, Nat.mul_comm 256 (pack t),
          Nat.add_mul_div_right _ _ (by norm_num : (0 : Nat) < 256),
          Nat.div_eq_of_lt hb, Nat.zero_add]
      rw [h1]
      exact ih ht n

theorem pset_pack {S : List Nat} (hS : ∀ b ∈ S, b < 256) :
    ∀ idx v, idx < S.length → pset (pack S) idx v = pack (S.set idx v) := by
  induction S with
  | nil => intro idx v h; simp at h
  | cons b t ih =>
    intro idx v h
    have hb : b < 256 := hS b (List.mem_cons_self b t)
    have ht : ∀ x ∈ t, x < 256 := fun x hx => hS x (List.mem_cons_of_mem _ hx)
    have hdiv : (b + 256 * pack t) / 256 = pack t := by
      rw [Nat.mul_comm 256 (pack t), Nat.add_mul_div_right _ _
        (by norm_num : (0 : Nat) < 256), Nat.div_eq_of_lt hb, Nat.zero_add]
    cases idx with
    | zero =>
      show pack (b :: t) % 256 ^ 0 + v * 256 ^ 0 +
        pack (b :: t) / 256 ^ 1 * 256 ^ 1 = pack (v :: t)
      show (b + 256 * pack t) % 1 + v * 1 + (b + 256 * pack t) / 256 ^ 1 * 256 ^ 1
        = v + 256 * pack t
      rw [Nat.mod_one, Nat.pow_one, hdiv]
      ring
    | succ n =>
      have hn : n < t.length := by simpa using h
      show (b + 256 * pack t) % 256 ^ (n + 1) + v * 256 ^ (n + 1) +
        (b + 256 * pack t) / 256 ^ (n + 2) * 256 ^ (n + 2) = pack (b :: t.set n v)
      have e1 : (256 : Nat) ^ (n + 1) = 256 * 256 ^ n := by
        rw [Nat.pow_succ, Nat.mul_comm]
      have e2 : (256 : Nat) ^ (n + 2) = 256 * 256 ^ (n + 1) := by
        rw [Nat.pow_succ 256 (n + 1), Nat.mul_comm]
      have hmod : (b + 256 * pack t) % 256 ^ (n + 1) = b + 256 * (pack t % 256 ^ n) := by
        rw [e1, Nat.mod_mul, Nat.add_mul_mod_self_left, Nat.mod_eq_of_lt hb, hdiv]
      have hdiv2 : (b + 256 * pack t) / 256 ^ (n + 2) = pack t / 256 ^ (n + 1) := by
        rw [e2, ← Nat.div_div_eq_div_mul, hdiv]
      rw [hmod, hdiv2]
      show _ = b + 256 * pack (t.set n v)
      rw [← ih ht n v hn]
      show _ = b + 256 * (pack t % 256 ^ n + v * 256 ^ n + pack t / 256 ^ (n + 1) * 256 ^ (n + 1))
      rw [e1, e2]
      ring

theorem pswap_pack {S : List Nat} (hS : ∀ b ∈ S, b < 256) {x y : Nat}
    (hx : x < S.length) (hy : y < S.length) :
    pswap (pack S) x y = pack (sswap S x y) := by
  unfold pswap sswap
  rw [pget_pack hS, pget_pack hS, pset_pack hS x _ hx]
  exact pset_pack (mem_set_lt hS (sget_lt hS y) x) y _ (by simpa using hy)

/-! ### State-level simulation and preservation of well-formedness -/

theorem wf_initialize_state : Wf initialize_state := by
  refine ⟨by simp [initialize_state], ?_, by simp [initialize_state]⟩
  intro b hb
  simpa [initialize_state] using List.mem_range.1 (by simpa [initialize_state] using hb)

theorem wf_update {sp : Spritz} (h : Wf sp) : Wf (update sp) := by
  obtain ⟨hlen, hbytes, ha⟩ := h
  exact ⟨by simp only [update]; rw [sswap_length, hlen],
    by simp only [update]; exact sswap_bytes hbytes _ _,
    by simp only [update]; exact ha⟩

theorem updateP_absP {sp : Spritz} (h : Wf sp) : updateP (absP sp) = absP (update sp) := by
  obtain ⟨hlen, hbytes, -⟩ := h
  have hidx : ∀ x : Nat, x % 256 < sp.S.length := fun x => by
    rw [hlen]; exact Nat.mod_lt _ (by norm_num)
  simp only [updateP, update, absP, pget_pack hbytes]
  rw [pswap_pack hbytes (hidx _) (hidx _)]

theorem wf_whipLoop : ∀ (r : Nat) {sp : Spritz}, Wf sp → Wf (whipLoop r sp)
  | 0, _, h => h
  | r + 1, _, h => wf_whipLoop r (wf_update h)

theorem whipLoopP_absP : ∀ (r : Nat) {sp : Spritz}, Wf sp →
    whipLoopP r (absP sp) = absP (whipLoop r sp)
  | 0, _, _ => rfl
  | r + 1, sp, h => by
    show whipLoopP r (updateP (absP sp)) = absP (whipLoop r (update sp))
    rw [updateP_absP h]
    exact whipLoopP_absP r (wf_update h)

theorem wf_whip {sp : Spritz} (r : Nat) (h : Wf sp) : Wf (whip sp r) := by
  obtain ⟨hlen, hbytes, ha⟩ := wf_whipLoop r h
  exact ⟨hlen, hbytes, ha⟩

theorem whipP_absP {sp : Spritz} (r : Nat) (h : Wf sp) :
    whipP (absP sp) r = absP (whip sp r) := by
  show { whipLoopP r (absP sp) with w := ((whipLoopP r (absP sp)).w + 2) % 256 } =
    absP { whipLoop r sp with w := ((whipLoop r sp).w + 2) % 256 }
  rw [whipLoopP_absP r h]
  rfl

theorem crushFrom_length : ∀ (fuel v : Nat) (S : List Nat),
    (crushFrom S v fuel).length = S.length
  | 0, _, _ => rfl
  | fuel + 1, v, S => by
    show (crushFrom (if sget S (wsub (N - 1) v) < sget S v
      then sswap S v (wsub (N - 1) v) else S) (v + 1) fuel).length = S.length
    rw [crushFrom_length fuel]
    split <;> simp [sswap_length]

theorem crushFrom_bytes : ∀ (fuel v : Nat) {S : List Nat}, (∀ b ∈ S, b < 256) →
    ∀ b ∈ crushFrom S v fuel, b < 256
  | 0, _, _, hS => hS
  | fuel + 1, v, S, hS => by
    show ∀ b ∈ crushFrom (if sget S (wsub (N - 1) v) < sget S v
      then sswap S v (wsub (N - 1) v) else S) (v + 1) fuel, b < 256
    apply crushFrom_bytes fuel (v + 1)
    split
    · exact sswap_bytes hS _ _
    · exact hS

theorem crushFromP_pack : ∀ (fuel v : Nat) {S : List Nat}, (∀ b ∈ S, b < 256) →
    S.length = 256 → v + fuel ≤ 256 →
    crushFromP (pack S) v fuel = pack (crushFrom S v fuel)
  | 0, _, _, _, _, _ => rfl
  | fuel + 1, v, S, hS, hlen, hv => by
    have hvlt : v < S.length := by omega
    have hidx : wsub (N - 1) v < S.length := by
      rw [hlen]; exact Nat.mod_lt _ (by norm_num)
    show crushFromP (if pget (pack S) (wsub (N - 1) v) < pget (pack S) v
        then pswap (pack S) v (wsub (N - 1) v) else pack S) (v + 1) fuel = _
    rw [pget_pack hS, pget_pack hS]
    have hrhs : crushFrom S v (fuel + 1) = crushFrom (if sget S (wsub (N - 1) v) < sget S v
        then sswap S v (wsub (N - 1) v) else S) (v + 1) fuel := rfl
    rw [hrhs]
    by_cases hc : sget S (wsub (N - 1) v) < sget S v
    · rw [if_pos hc, if_pos hc, pswap_pack hS hvlt hidx]
      exact crushFromP_pack fuel (v + 1)
        (sswap_bytes hS _ _) (by rw [sswap_length, hlen]) (by omega)
    · rw [if_neg hc, if_neg hc]
      exact crushFromP_pack fuel (v + 1) hS hlen (by omega)

theorem wf_crush {sp : Spritz} (h : Wf sp) : Wf (crush sp) := by
  obtain ⟨hlen, hbytes, ha⟩ := h
  exact ⟨by simp only [crush]; rw [crushFrom_length, hlen],
    by simp only [crush]; exact crushFrom_bytes _ _ hbytes,
    by simp only [crush]; exact ha⟩

theorem crushP_absP {sp : Spritz} (h : Wf sp) : crushP (absP sp) = absP (crush sp) := by
  obtain ⟨hlen, hbytes, -⟩ := h
  simp only [crushP, crush, absP]
  rw [crushFromP_pack (N / 2) 0 hbytes hlen (by norm_num [N])]

theorem absP_seta (x : Spritz) (n : Nat) : absP { x with a := n } = { absP x with a := n } := rfl

theorem wf_seta {sp : Spritz} {n : Nat} (hn : n < 256) (h : Wf sp) : Wf { sp with a := n } :=
  ⟨h.1, h.2.1, hn⟩

theorem wf_shuffle {sp : Spritz} (h : Wf sp) : Wf (shuffle sp) := by
  simp only [shuffle]
  exact wf_seta (by norm_num)
    (wf_whip _ (wf_crush (wf_whip _ (wf_crush (wf_whip _ h)))))

theorem shuffleP_absP {sp : Spritz} (h : Wf sp) : shuffleP (absP sp) = absP (shuffle sp) := by
  simp only [shuffleP, shuffle]
  rw [whipP_absP (2 * N) h, crushP_absP (wf_whip _ h),
    whipP_absP (2 * N) (wf_crush (wf_whip _ h)),
    crushP_absP (wf_whip _ (wf_crush (wf_whip _ h))),
    whipP_absP (2 * N) (wf_crush (wf_whip _ (wf_crush (wf_whip _ h))))]
  conv_rhs => rw [absP_seta]

theorem absP_a (t : Spritz) : (absP t).a = t.a := rfl

theorem absP_inca (t : Spritz) :
    absP { t with a := (t.a + 1) % 256 } = { absP t with a := ((absP t).a + 1) % 256 } := rfl

theorem wf_inca {t : Spritz} (h : Wf t) : Wf { t with a := (t.a + 1) % 256 } :=
  ⟨h.1, h.2.1, Nat.mod_lt _ (by norm_num)⟩

theorem absorb_nibble_eq_tail (sp : Spritz) (x : Nat) :
    absorb_nibble sp x = absorb_nibble_tail (if sp.a = N / 2 then shuffle sp else sp) x := rfl

theorem absorb_nibbleP_eq_tail (sp : PState) (x : Nat) :
    absorb_nibbleP sp x = absorb_nibble_tailP (if sp.a = N / 2 then shuffleP sp else sp) x := rfl

theorem wf_nibble_tail {t : Spritz} (h : Wf t) (x : Nat) : Wf (absorb_nibble_tail t x) := by
  obtain ⟨hlen, hbytes, ha⟩ := h
  exact ⟨by simp only [absorb_nibble_tail]; rw [sswap_length, hlen],
    by simp only [absorb_nibble_tail]; exact sswap_bytes hbytes _ _,
    by simp only [absorb_nibble_tail]; exact Nat.mod_lt _ (by norm_num)⟩

theorem nibble_tailP_absP {t : Spritz} (h : Wf t) (x : Nat) :
    absorb_nibble_tailP (absP t) x = absP (absorb_nibble_tail t x) := by
  obtain ⟨hlen, hbytes, ha⟩ := h
  simp only [absorb_nibble_tailP, absorb_nibble_tail, absP]
  rw [pswap_pack hbytes (by omega) (by rw [hlen]; exact Nat.mod_lt _ (by norm_num))]

theorem wf_absorb_nibble {sp : Spritz} (h : Wf sp) (x : Nat) : Wf (absorb_nibble sp x) := by
  rw [absorb_nibble_eq_tail]
  by_cases hc : sp.a = N / 2
  · rw [if_pos hc]; exact wf_nibble_tail (wf_shuffle h) x
  · rw [if_neg hc]; exact wf_nibble_tail h x

theorem absorb_nibbleP_absP {sp : Spritz} (h : Wf sp) (x : Nat) :
    absorb_nibbleP (absP sp) x = absP (absorb_nibble sp x) := by
  rw [absorb_nibbleP_eq_tail, absorb_nibble_eq_tail, absP_a]
  by_cases hc : sp.a = N / 2
  · rw [if_pos hc, if_pos hc, shuffleP_absP h]
    exact nibble_tailP_absP (wf_shuffle h) x
  · rw [if_neg hc, if_neg hc]
    exact nibble_tailP_absP h x

theorem wf_absorb_byte {sp : Spritz} (h : Wf sp) (b : Nat) : Wf (absorb_byte sp b) :=
  wf_absorb_nibble (wf_absorb_nibble h _) _

theorem absorb_byteP_absP {sp : Spritz} (h : Wf sp) (b : Nat) :
    absorb_byteP (absP sp) b = absP (absorb_byte sp b) := by
  show absorb_nibbleP (absorb_nibbleP (absP sp) (b &&& 0xf)) (b >>> 4) =
    absP (absorb_nibble (absorb_nibble sp (b &&& 0xf)) (b >>> 4))
  rw [absorb_nibbleP_absP h, absorb_nibbleP_absP (wf_absorb_nibble h _)]

theorem wf_absorb : ∀ (I : List Nat) {sp : Spritz}, Wf sp → Wf (absorb sp I)
  | [], _, h => h
  | b :: I, sp, h => by
    show Wf (absorb (absorb_byte sp b) I)
    exact wf_absorb I (wf_absorb_byte h b)

theorem absorbP_absP : ∀ (I : List Nat) {sp : Spritz}, Wf sp →
    absorbP (absP sp) I = absP (absorb sp I)
  | [], _, _ => rfl
  | b :: I, sp, h => by
    show absorbP (absorb_byteP (absP sp) b) I = absP (absorb (absorb_byte sp b) I)
    rw [absorb_byteP_absP h b]
    exact absorbP_absP I (wf_absorb_byte h b)

theorem wf_absorb_stop {sp : Spritz} (h : Wf sp) : Wf (absorb_stop sp) := by
  simp only [absorb_stop]
  by_cases hc : sp.a = N / 2
  · rw [if_pos hc]; exact wf_inca (wf_shuffle h)
  · rw [if_neg hc]; exact wf_inca h

theorem absorb_stopP_absP {sp : Spritz} (h : Wf sp) :
    absorb_stopP (absP sp) = absP (absorb_stop sp) := by
  simp only [absorb_stopP, absorb_stop, absP_a]
  by_cases hc : sp.a = N / 2
  · rw [if_pos hc, if_pos hc, shuffleP_absP h]
    conv_rhs => rw [absP_inca]
  · rw [if_neg hc, if_neg hc]
    conv_rhs => rw [absP_inca]

theorem wf_new (key : List Nat) : Wf (new key) :=
  wf_absorb key wf_initialize_state

theorem newP_absP (key : List Nat) : newP key = absP (new key) := by
  show absorbP initializeP key = absP (absorb initialize_state key)
  have e : initializeP = absP initialize_state := rfl
  rw [e]
  exact absorbP_absP key wf_initialize_state

theorem wf_output {t : Spritz} (h : Wf t) : Wf (output t).2 :=
  ⟨h.1, h.2.1, h.2.2⟩

theorem outputP_absP {t : Spritz} (h : Wf t) :
    outputP (absP t) = ((output t).1, absP (output t).2) := by
  obtain ⟨-, hbytes, -⟩ := h
  simp only [outputP, output, absP, pget_pack hbytes]

theorem wf_drip {sp : Spritz} (h : Wf sp) : Wf (drip sp).2 := by
  simp only [drip]
  by_cases hc : 0 < sp.a
  · rw [if_pos hc]; exact wf_output (wf_update (wf_shuffle h))
  · rw [if_neg hc]; exact wf_output (wf_update h)

theorem dripP_absP {sp : Spritz} (h : Wf sp) :
    dripP (absP sp) = ((drip sp).1, absP (drip sp).2) := by
  simp only [dripP, drip, absP_a]
  by_cases hc : 0 < sp.a
  · rw [if_pos hc, if_pos hc, shuffleP_absP h, updateP_absP (wf_shuffle h)]
    exact outputP_absP (wf_update (wf_shuffle h))
  · rw [if_neg hc, if_neg hc, updateP_absP h]
    exact outputP_absP (wf_update h)

theorem dripN_succ (sp : Spritz) (r : Nat) :
    dripN sp (r + 1) =
      ((drip sp).1 :: (dripN (drip sp).2 r).1, (dripN (drip sp).2 r).2) := rfl

theorem dripNP_succ (sp : PState) (r : Nat) :
    dripNP sp (r + 1) =
      ((dripP sp).1 :: (dripNP (dripP sp).2 r).1, (dripNP (dripP sp).2 r).2) := rfl

theorem wf_dripN : ∀ (r : Nat) {sp : Spritz}, Wf sp → Wf (dripN sp r).2
  | 0, _, h => h
  | r + 1, sp, h => by
    rw [dripN_succ]
    exact wf_dripN r (wf_drip h)

theorem dripNP_absP : ∀ (r : Nat) {sp : Spritz}, Wf sp →
    dripNP (absP sp) r = ((dripN sp r).1, absP (dripN sp r).2)
  | 0, _, _ => rfl
  | r + 1, sp, h => by
    rw [dripNP_succ, dripN_succ, dripP_absP h]
    dsimp only
    rw [dripNP_absP r (wf_drip h)]

theorem wf_squeeze {sp : Spritz} (h : Wf sp) (r : Nat) : Wf (squeeze sp r).2 := by
  simp only [squeeze]
  by_cases hc : 0 < sp.a
  · rw [if_pos hc]; exact wf_dripN r (wf_shuffle h)
  · rw [if_neg hc]; exact wf_dripN r h

theorem squeezeP_absP {sp : Spritz} (h : Wf sp) (r : Nat) :
    squeezeP (absP sp) r = ((squeeze sp r).1, absP (squeeze sp r).2) := by
  simp only [squeezeP, squeeze, absP_a]
  by_cases hc : 0 < sp.a
  · rw [if_pos hc, if_pos hc, shuffleP_absP h]
    exact dripNP_absP r (wf_shuffle h)
  · rw [if_neg hc, if_neg hc]
    exact dripNP_absP r h

/-- Keystream bytes can be computed on the packed evaluator. -/
theorem dripN_bytes_packed (key : List Nat) (r : Nat) :
    (dripN (new key) r).1 = (dripNP (newP key) r).1 := by
  rw [newP_absP, dripNP_absP r (wf_new key)]

/-- Squeeze bytes can be computed on the packed evaluator. -/
theorem squeeze_bytes_packed {sp : Spritz} (h : Wf sp) (r : Nat) :
    (squeeze sp r).1 = (squeezeP (absP sp) r).1 := by
  rw [squeezeP_absP h r]

/-! ### Unfolding helpers for running the packed evaluator in chunks -/

theorem whipLoopP_succ (n : Nat) (sp : PState) :
    whipLoopP (n + 1) sp = whipLoopP n (updateP sp) := rfl

theorem whipLoopP_add (m n : Nat) (sp : PState) :
    whipLoopP (m + n) sp = whipLoopP n (whipLoopP m sp) := by
  induction m generalizing sp with
  | zero => rw [Nat.zero_add]; rfl
  | succ m ih => rw [Nat.succ_add, whipLoopP_succ, whipLoopP_succ, ih]

theorem whipLoopP_chunk {sp m1 m2 : PState} (m n : Nat) (h1 : whipLoopP m sp = m1)
    (h2 : whipLoopP n m1 = m2) : whipLoopP (m + n) sp = m2 := by
  rw [whipLoopP_add, h1, h2]

theorem whipP_eq (sp : PState) (r : Nat) :
    whipP sp r = { whipLoopP r sp with w := ((whipLoopP r sp).w + 2) % 256 } := rfl

theorem shuffleP_eq (sp : PState) :
    shuffleP sp =
      { whipP (crushP (whipP (crushP (whipP sp (2 * N))) (2 * N))) (2 * N) with a := 0 } := rfl

theorem dripP_of_pos (sp : PState) (h : 0 < sp.a) :
    dripP sp = outputP (updateP (shuffleP sp)) := by
  show outputP (updateP (if 0 < sp.a then shuffleP sp else sp)) = _
  rw [if_pos h]

theorem squeezeP_of_pos (sp : PState) (r : Nat) (h : 0 < sp.a) :
    squeezeP sp r = dripNP (shuffleP sp) r := by
  show dripNP (if 0 < sp.a then shuffleP sp else sp) r = _
  rw [if_pos h]

theorem hash256_def (msg : List Nat) :
    hash256 msg = (squeeze (absorb (absorb_stop (absorb initialize_state msg)) [32]) 32).1 := rfl

theorem sABC_newP : newP [65, 66, 67] = (PState.mk 32316509077753586139510713445660514514047171580093496865901477602143224540557412340472969236184020377745408638077439397456141948699754273791418869985027499602243785773646750786158629119897527698459159582903277348091197804306308450975276589715725867107713970624879795449576651053772645338545136289030884732000078153995905785379016127266906503989468674852104810601634583739540212157849975227043600330815497725709226415068681714016171984811889354826753727336180600816042057343558680318098633616524394754809393983744102337020242970278498749141794553346037185365501678803670300948952526313307985227891685831554094682244225 0 0 0 0 6 1) := by decide

theorem sABC_w1 : whipP (PState.mk 32316509077753586139510713445660514514047171580093496865901477602143224540557412340472969236184020377745408638077439397456141948699754273791418869985027499602243785773646750786158629119897527698459159582903277348091197804306308450975276589715725867107713970624879795449576651053772645338545136289030884732000078153995905785379016127266906503989468674852104810601634583739540212157849975227043600330815497725709226415068681714016171984811889354826753727336180600816042057343558680318098633616524394754809393983744102337020242970278498749141794553346037185365501678803670300948952526313307985227891685831554094682244225 0 0 0 0 6 1) (2 * N) = (PState.mk 20792180581725513202999025498195762731483433034790048942493020170081996070480838998875547497080288965511945694272934243197927850303937696562369694355325581703846543700749815929216157958115696588040112171543855080888889750257986305564495863865604273420884806368926950092009536703185281236445138912335265983987091927575238773380854465310302060633028830069501469353028175713323310714591799541687537162122266186190102817400004568509378003150837111382088905849614140799643868438572826006761008838549581066631718994756412537624068898514830478584115097127361349607329708159056479463643100344181242923395403788662093978105195 0 48 139 0 6 3) := by
  have h1 : whipLoopP 128 (PState.mk 32316509077753586139510713445660514514047171580093496865901477602143224540557412340472969236184020377745408638077439397456141948699754273791418869985027499602243785773646750786158629119897527698459159582903277348091197804306308450975276589715725867107713970624879795449576651053772645338545136289030884732000078153995905785379016127266906503989468674852104810601634583739540212157849975227043600330815497725709226415068681714016171984811889354826753727336180600816042057343558680318098633616524394754809393983744102337020242970278498749141794553346037185365501678803670300948952526313307985227891685831554094682244225 0 0 0 0 6 1) = (PState.mk 32316507379945583815198832846244421813584930760980640626920066995836717042925943335162203982690887876629329765803079148618806561644419043916441199279957247326642342627066011695133359287888641520827051592196283627278988424044899049806169375356201338955532774905023089676246979359132669467665139891731801515661200075702389617103068719209835950301146300423881537695837595604187923234864260948012818879562399960946756393495959997012536727658801098357347679404223397910205396864621919821533551110641966215328092426697377519632917459693755846192893489279666916633145773274872729378927953319542137724156681533666351784133505 128 90 62 0 6 1) := by decide
  have h2 : whipLoopP 128 (PState.mk 32316507379945583815198832846244421813584930760980640626920066995836717042925943335162203982690887876629329765803079148618806561644419043916441199279957247326642342627066011695133359287888641520827051592196283627278988424044899049806169375356201338955532774905023089676246979359132669467665139891731801515661200075702389617103068719209835950301146300423881537695837595604187923234864260948012818879562399960946756393495959997012536727658801098357347679404223397910205396864621919821533551110641966215328092426697377519632917459693755846192893489279666916633145773274872729378927953319542137724156681533666351784133505 128 90 62 0 6 1) = (PState.mk 10417757670451669389780948098017169835718637945695965782014239318740883668499485066062284622797081258805785466975865205006056250060340171635570523818739039360008055884207108717637993247748963794042704730394878236964808169234368303648361116912374434449987261384186219852115446434858305550550985264637951948062962672780893131776639223275422631940439930625139924814017943147675364826090080511718885418483587805892162838735715969409797578066206030260334075776013985299590891111256799370752027400151547948887599339988016379665951328448222112723820381494785533227849943738550383164883515274385686730919535049030569544385325 0 160 162 0 6 1) := by decide
  have h3 : whipLoopP 128 (PState.mk 10417757670451669389780948098017169835718637945695965782014239318740883668499485066062284622797081258805785466975865205006056250060340171635570523818739039360008055884207108717637993247748963794042704730394878236964808169234368303648361116912374434449987261384186219852115446434858305550550985264637951948062962672780893131776639223275422631940439930625139924814017943147675364826090080511718885418483587805892162838735715969409797578066206030260334075776013985299590891111256799370752027400151547948887599339988016379665951328448222112723820381494785533227849943738550383164883515274385686730919535049030569544385325 0 160 162 0 6 1) = (PState.mk 23712722280568580514650363268533510123136945707197875211035381803258995339368692287611910667862548582885167750259335592041615578634129617306594834357479875684468581930303649173372280700979047934443962173140438523441459736177573738637197618564769442409443548884136246874631684287726256469891252360421703810894400074353030686005198203018030556556300478843951595303061544403421048754465488842744587443184637942600508057580264074418522566774510059079642911601986833148844570004810425848914458108314360442793105746624270581464115173311892209486584635925828224534941016801460807128028404088462150192854753434923492967281965 128 148 231 0 6 1) := by decide
  have h4 : whipLoopP 128 (PState.mk 23712722280568580514650363268533510123136945707197875211035381803258995339368692287611910667862548582885167750259335592041615578634129617306594834357479875684468581930303649173372280700979047934443962173140438523441459736177573738637197618564769442409443548884136246874631684287726256469891252360421703810894400074353030686005198203018030556556300478843951595303061544403421048754465488842744587443184637942600508057580264074418522566774510059079642911601986833148844570004810425848914458108314360442793105746624270581464115173311892209486584635925828224534941016801460807128028404088462150192854753434923492967281965 128 148 231 0 6 1) = (PState.mk 20792180581725513202999025498195762731483433034790048942493020170081996070480838998875547497080288965511945694272934243197927850303937696562369694355325581703846543700749815929216157958115696588040112171543855080888889750257986305564495863865604273420884806368926950092009536703185281236445138912335265983987091927575238773380854465310302060633028830069501469353028175713323310714591799541687537162122266186190102817400004568509378003150837111382088905849614140799643868438572826006761008838549581066631718994756412537624068898514830478584115097127361349607329708159056479463643100344181242923395403788662093978105195 0 48 139 0 6 1) := by decide
  have h : whipLoopP (2 * N) (PState.mk 32316509077753586139510713445660514514047171580093496865901477602143224540557412340472969236184020377745408638077439397456141948699754273791418869985027499602243785773646750786158629119897527698459159582903277348091197804306308450975276589715725867107713970624879795449576651053772645338545136289030884732000078153995905785379016127266906503989468674852104810601634583739540212157849975227043600330815497725709226415068681714016171984811889354826753727336180600816042057343558680318098633616524394754809393983744102337020242970278498749141794553346037185365501678803670300948952526313307985227891685831554094682244225 0 0 0 0 6 1) = (PState.mk 20792180581725513202999025498195762731483433034790048942493020170081996070480838998875547497080288965511945694272934243197927850303937696562369694355325581703846543700749815929216157958115696588040112171543855080888889750257986305564495863865604273420884806368926950092009536703185281236445138912335265983987091927575238773380854465310302060633028830069501469353028175713323310714591799541687537162122266186190102817400004568509378003150837111382088905849614140799643868438572826006761008838549581066631718994756412537624068898514830478584115097127361349607329708159056479463643100344181242923395403788662093978105195 0 48 139 0 6 1) :=
    whipLoopP_chunk 384 128 (whipLoopP_chunk 256 128 (whipLoopP_chunk 128 128 h1 h2) h3) h4
  rw [whipP_eq, h]
  decide

theorem sABC_c1 : crushP (PState.mk 20792180581725513202999025498195762731483433034790048942493020170081996070480838998875547497080288965511945694272934243197927850303937696562369694355325581703846543700749815929216157958115696588040112171543855080888889750257986305564495863865604273420884806368926950092009536703185281236445138912335265983987091927575238773380854465310302060633028830069501469353028175713323310714591799541687537162122266186190102817400004568509378003150837111382088905849614140799643868438572826006761008838549581066631718994756412537624068898514830478584115097127361349607329708159056479463643100344181242923395403788662093978105195 0 48 139 0 6 3) = (PState.mk 20792180582813022597562799413078685237395156050655058074312299318537061591611737763278103933084318107554511919337845580290713579277602976145272087328894322748882223788780078566255773172401826741283275423132318056394516707078956024258281286660746026812948169449420724490975984884003568712646694169078563044733565975003767762010758898709408847903662003512007255087912553362364055431919149158941252286247309279538849239093142655266246416760390458645398593901282387573517837978798978149295138460834196218313345105013421460653994187545455807361704812856722632145358933230431135448539494372667077878693010073697971411449195 0 48 139 0 6 3) := by decide

theorem sABC_w2 : whipP (PState.mk 20792180582813022597562799413078685237395156050655058074312299318537061591611737763278103933084318107554511919337845580290713579277602976145272087328894322748882223788780078566255773172401826741283275423132318056394516707078956024258281286660746026812948169449420724490975984884003568712646694169078563044733565975003767762010758898709408847903662003512007255087912553362364055431919149158941252286247309279538849239093142655266246416760390458645398593901282387573517837978798978149295138460834196218313345105013421460653994187545455807361704812856722632145358933230431135448539494372667077878693010073697971411449195 0 48 139 0 6 3) (2 * N) = (PState.mk 23271344439012451706048358549019060542892829910759826194224600582658021916274140886664761482203888815192124168114759052104428660280006065358213447505576189316837282869199940655998836012450088093804387600950633027565571906339385354550505904368903225969192018089440893848421316639572996582677964294518661803268690584995099991108397273724245148693089354664262257490040464255540749365516921625610144506480464146086913667905760960321897930718578314628785997583865355742143884082074542512508010510968862526921194748758817078943712653527397807042276139772967733042875547740233205453166251935533926577044260362405269712431520 0 147 131 0 6 5) := by
  have h1 : whipLoopP 128 (PState.mk 20792180582813022597562799413078685237395156050655058074312299318537061591611737763278103933084318107554511919337845580290713579277602976145272087328894322748882223788780078566255773172401826741283275423132318056394516707078956024258281286660746026812948169449420724490975984884003568712646694169078563044733565975003767762010758898709408847903662003512007255087912553362364055431919149158941252286247309279538849239093142655266246416760390458645398593901282387573517837978798978149295138460834196218313345105013421460653994187545455807361704812856722632145358933230431135448539494372667077878693010073697971411449195 0 48 139 0 6 3) = (PState.mk 25967951852233712814777865131571441412709764404165247191548375806061959537387202282215784189455064108576469213327087529470421492238976068407574105859634768625301990363910554196489720802569953149360835775108484286859541037390978555102927977560269711782497297428902601583164097651718700046211419865175589120179303754899828539763345184526299751453205867294113302734307210006470243901238896569780801666214900753781544413073013715212201256246180905619680128951338110546519988716264168312717687983305274018576519187717206514976060495346638214929491801644871191321119692301657720455456578496304086141426710526977870266135915 128 121 59 0 6 3) := by decide
  have h2 : whipLoopP 128 (PState.mk 25967951852233712814777865131571441412709764404165247191548375806061959537387202282215784189455064108576469213327087529470421492238976068407574105859634768625301990363910554196489720802569953149360835775108484286859541037390978555102927977560269711782497297428902601583164097651718700046211419865175589120179303754899828539763345184526299751453205867294113302734307210006470243901238896569780801666214900753781544413073013715212201256246180905619680128951338110546519988716264168312717687983305274018576519187717206514976060495346638214929491801644871191321119692301657720455456578496304086141426710526977870266135915 128 121 59 0 6 3) = (PState.mk 25920685981417064368783529256700878086161774512347146108143038317317223015353262960610635166236471197458389465164331813504068231010272675142569075073949011502307419143009387058123530264997098820485854738836854254572059559544447709282132219653015751780913279204301836770166020747996751365689368028128307280669711833085169469173199345303706353814947487618747484829559408414357994707899707267272123877394698997414224022364576490964424684941344472808538963811778952987452241714701762375574873616738627118769713852876674510225113346571086026599768200790055281062424861409015186722613109983152201343824298030310845853551505 0 176 117 0 6 3) := by decide
  have h3 : whipLoopP 128 (PState.mk 25920685981417064368783529256700878086161774512347146108143038317317223015353262960610635166236471197458389465164331813504068231010272675142569075073949011502307419143009387058123530264997098820485854738836854254572059559544447709282132219653015751780913279204301836770166020747996751365689368028128307280669711833085169469173199345303706353814947487618747484829559408414357994707899707267272123877394698997414224022364576490964424684941344472808538963811778952987452241714701762375574873616738627118769713852876674510225113346571086026599768200790055281062424861409015186722613109983152201343824298030310845853551505 0 176 117 0 6 3) = (PState.mk 23269680508666577161702305805378846132942832380452720630123241275271680999594192758870172366151548718518878625846023612058937177273477300480825879698463978506446697403702594996816068030906105613193463413461029134786912987931982251129897414222501044958524233054476007483540627301661115303735660469561090242306685967438872364489690282226521930874849141481228345408656211323169898478904913762829335152821626776461283857623058258185904459319420869764303569445175628557567990863164776350518712101308240041920968773995745504821622253836652793058887651937011159780024647851302079375842333059172000091798948408835603609491420 128 104 177 0 6 3) := by decide
  have h4 : whipLoopP 128 (PState.mk 23269680508666577161702305805378846132942832380452720630123241275271680999594192758870172366151548718518878625846023612058937177273477300480825879698463978506446697403702594996816068030906105613193463413461029134786912987931982251129897414222501044958524233054476007483540627301661115303735660469561090242306685967438872364489690282226521930874849141481228345408656211323169898478904913762829335152821626776461283857623058258185904459319420869764303569445175628557567990863164776350518712101308240041920968773995745504821622253836652793058887651937011159780024647851302079375842333059172000091798948408835603609491420 128 104 177 0 6 3) = (PState.mk 23271344439012451706048358549019060542892829910759826194224600582658021916274140886664761482203888815192124168114759052104428660280006065358213447505576189316837282869199940655998836012450088093804387600950633027565571906339385354550505904368903225969192018089440893848421316639572996582677964294518661803268690584995099991108397273724245148693089354664262257490040464255540749365516921625610144506480464146086913667905760960321897930718578314628785997583865355742143884082074542512508010510968862526921194748758817078943712653527397807042276139772967733042875547740233205453166251935533926577044260362405269712431520 0 147 131 0 6 3) := by decide
  have h : whipLoopP (2 * N) (PState.mk 20792180582813022597562799413078685237395156050655058074312299318537061591611737763278103933084318107554511919337845580290713579277602976145272087328894322748882223788780078566255773172401826741283275423132318056394516707078956024258281286660746026812948169449420724490975984884003568712646694169078563044733565975003767762010758898709408847903662003512007255087912553362364055431919149158941252286247309279538849239093142655266246416760390458645398593901282387573517837978798978149295138460834196218313345105013421460653994187545455807361704812856722632145358933230431135448539494372667077878693010073697971411449195 0 48 139 0 6 3) = (PState.mk 23271344439012451706048358549019060542892829910759826194224600582658021916274140886664761482203888815192124168114759052104428660280006065358213447505576189316837282869199940655998836012450088093804387600950633027565571906339385354550505904368903225969192018089440893848421316639572996582677964294518661803268690584995099991108397273724245148693089354664262257490040464255540749365516921625610144506480464146086913667905760960321897930718578314628785997583865355742143884082074542512508010510968862526921194748758817078943712653527397807042276139772967733042875547740233205453166251935533926577044260362405269712431520 0 147 131 0 6 3) :=
    whipLoopP_chunk 384 128 (whipLoopP_chunk 256 128 (whipLoopP_chunk 128 128 h1 h2) h3) h4
  rw [whipP_eq, h]
  decide

theorem sABC_c2 : crushP (PState.mk 23271344439012451706048358549019060542892829910759826194224600582658021916274140886664761482203888815192124168114759052104428660280006065358213447505576189316837282869199940655998836012450088093804387600950633027565571906339385354550505904368903225969192018089440893848421316639572996582677964294518661803268690584995099991108397273724245148693089354664262257490040464255540749365516921625610144506480464146086913667905760960321897930718578314628785997583865355742143884082074542512508010510968862526921194748758817078943712653527397807042276139772967733042875547740233205453166251935533926577044260362405269712431520 0 147 131 0 6 5) = (PState.mk 23279727453626622825560921557341803786674599483425695542218479522580579911319730569491557718948804158845323325536768856477076498145420660831266898312541648244285545473153797198375279075552072902261085086217033525951206056341889846738676710397482838383159945159281220269274784782594148462476683374004391130732076568763962202705831804510035351209142145883691008083205567081927637856318814913261845920773726659503482630543626291294840200680134746717499832570115139408986756582592376400082432032158360540329319834834322210420421003486996886344944450688373367994455354858593202897357261740362947205636465096429609378928800 0 147 131 0 6 5) := by decide

theorem sABC_w3 : whipP (PState.mk 23279727453626622825560921557341803786674599483425695542218479522580579911319730569491557718948804158845323325536768856477076498145420660831266898312541648244285545473153797198375279075552072902261085086217033525951206056341889846738676710397482838383159945159281220269274784782594148462476683374004391130732076568763962202705831804510035351209142145883691008083205567081927637856318814913261845920773726659503482630543626291294840200680134746717499832570115139408986756582592376400082432032158360540329319834834322210420421003486996886344944450688373367994455354858593202897357261740362947205636465096429609378928800 0 147 131 0 6 5) (2 * N) = (PState.mk 5348644033612487597103976577028803151952058812383101019597578658513308454034567077952729058308123348550281446654259332144494865051458769341458834755249652017514097806587842760837714616951702170089884257602744966369171722926983333156611090072308985026110626024365772778075348097293477722129510388683042070124594241151506825388062720837383915149669340735862609314425081922207503555504433973685580144884587773140360271554287567270252196467341243053587920969650326839396518625278540339485628805350858031833008965161270455151353295494002126073911148043853429922643162505407149679805631122586767708945699398579148362891355 0 93 213 0 6 7) := by
  have h1 : whipLoopP 128 (PState.mk 23279727453626622825560921557341803786674599483425695542218479522580579911319730569491557718948804158845323325536768856477076498145420660831266898312541648244285545473153797198375279075552072902261085086217033525951206056341889846738676710397482838383159945159281220269274784782594148462476683374004391130732076568763962202705831804510035351209142145883691008083205567081927637856318814913261845920773726659503482630543626291294840200680134746717499832570115139408986756582592376400082432032158360540329319834834322210420421003486996886344944450688373367994455354858593202897357261740362947205636465096429609378928800 0 147 131 0 6 5) = (PState.mk 1105180190026518325620678437538637794033782082136950174702554579539706854963018228147085115104082895904017498352892016107551772335424356839864446146079946962633686848536062681653025457442719064239752786180727224348314749500856024440274022564463001196956625886426420318877808351756684105471421499975326847585932708042532799686335084211584918251247612615015381324470462766579936628873645798954557980875970684889569082786094321159408606388652829344083596170637386302535878288159738042237903680756819750178783135271030038006013429628992409184319771170337458072201525353168430715920395406218532738408539180609037601342880 128 200 176 0 6 5) := by decide
  have h2 : whipLoopP 128 (PState.mk 1105180190026518325620678437538637794033782082136950174702554579539706854963018228147085115104082895904017498352892016107551772335424356839864446146079946962633686848536062681653025457442719064239752786180727224348314749500856024440274022564463001196956625886426420318877808351756684105471421499975326847585932708042532799686335084211584918251247612615015381324470462766579936628873645798954557980875970684889569082786094321159408606388652829344083596170637386302535878288159738042237903680756819750178783135271030038006013429628992409184319771170337458072201525353168430715920395406218532738408539180609037601342880 128 200 176 0 6 5) = (PState.mk 9101260525773670074341855246570179593689348774583342484659722621556272085331285311775321204733962277166024056914972335228920705150174794609949811658125724234321812042272371666147692496745366913269583667245754816343994468176386682557583133174447748020204010087274428605051844196143465595205129238231076215224040078388694077634998995569594120092108237409255823336566774210787308221823844563883386738473899699686915803397222001547027211605142626074567660772922751423964940257891084784948931052102846004041071860128822274599737810131589802883942660632651872044764866231610089091106494691193526895663907158075970879908720 0 84 145 0 6 5) := by decide
  have h3 : whipLoopP 128 (PState.mk 9101260525773670074341855246570179593689348774583342484659722621556272085331285311775321204733962277166024056914972335228920705150174794609949811658125724234321812042272371666147692496745366913269583667245754816343994468176386682557583133174447748020204010087274428605051844196143465595205129238231076215224040078388694077634998995569594120092108237409255823336566774210787308221823844563883386738473899699686915803397222001547027211605142626074567660772922751423964940257891084784948931052102846004041071860128822274599737810131589802883942660632651872044764866231610089091106494691193526895663907158075970879908720 0 84 145 0 6 5) = (PState.mk 5368846764412917203438866324936806036969550605557540011889410448654634942205510739733321229648328194912845703505609522946160310611053263138486819802610533787768205988590921664022725239610286478355524407374998236059173270244927786233846974481190633508154908850557359976219821815936560925209607346109349023046885771896422575413430052622109007598296866762225500220406507238846474122808340165299090342357508354116367178312784841980315938539213394655876864406735971457810285648107608145371611176020170581532987584064189226401275756307503068529965727671588820528465816033273505808192846331798077704367641515780754512959600 128 10 237 0 6 5) := by decide
  have h4 : whipLoopP 128 (PState.mk 5368846764412917203438866324936806036969550605557540011889410448654634942205510739733321229648328194912845703505609522946160310611053263138486819802610533787768205988590921664022725239610286478355524407374998236059173270244927786233846974481190633508154908850557359976219821815936560925209607346109349023046885771896422575413430052622109007598296866762225500220406507238846474122808340165299090342357508354116367178312784841980315938539213394655876864406735971457810285648107608145371611176020170581532987584064189226401275756307503068529965727671588820528465816033273505808192846331798077704367641515780754512959600 128 10 237 0 6 5) = (PState.mk 5348644033612487597103976577028803151952058812383101019597578658513308454034567077952729058308123348550281446654259332144494865051458769341458834755249652017514097806587842760837714616951702170089884257602744966369171722926983333156611090072308985026110626024365772778075348097293477722129510388683042070124594241151506825388062720837383915149669340735862609314425081922207503555504433973685580144884587773140360271554287567270252196467341243053587920969650326839396518625278540339485628805350858031833008965161270455151353295494002126073911148043853429922643162505407149679805631122586767708945699398579148362891355 0 93 213 0 6 5) := by decide
  have h : whipLoopP (2 * N) (PState.mk 23279727453626622825560921557341803786674599483425695542218479522580579911319730569491557718948804158845323325536768856477076498145420660831266898312541648244285545473153797198375279075552072902261085086217033525951206056341889846738676710397482838383159945159281220269274784782594148462476683374004391130732076568763962202705831804510035351209142145883691008083205567081927637856318814913261845920773726659503482630543626291294840200680134746717499832570115139408986756582592376400082432032158360540329319834834322210420421003486996886344944450688373367994455354858593202897357261740362947205636465096429609378928800 0 147 131 0 6 5) = (PState.mk 5348644033612487597103976577028803151952058812383101019597578658513308454034567077952729058308123348550281446654259332144494865051458769341458834755249652017514097806587842760837714616951702170089884257602744966369171722926983333156611090072308985026110626024365772778075348097293477722129510388683042070124594241151506825388062720837383915149669340735862609314425081922207503555504433973685580144884587773140360271554287567270252196467341243053587920969650326839396518625278540339485628805350858031833008965161270455151353295494002126073911148043853429922643162505407149679805631122586767708945699398579148362891355 0 93 213 0 6 5) :=
    whipLoopP_chunk 384 128 (whipLoopP_chunk 256 128 (whipLoopP_chunk 128 128 h1 h2) h3) h4
  rw [whipP_eq, h]
  decide

theorem sABC_shuffleP : shuffleP (PState.mk 32316509077753586139510713445660514514047171580093496865901477602143224540557412340472969236184020377745408638077439397456141948699754273791418869985027499602243785773646750786158629119897527698459159582903277348091197804306308450975276589715725867107713970624879795449576651053772645338545136289030884732000078153995905785379016127266906503989468674852104810601634583739540212157849975227043600330815497725709226415068681714016171984811889354826753727336180600816042057343558680318098633616524394754809393983744102337020242970278498749141794553346037185365501678803670300948952526313307985227891685831554094682244225 0 0 0 0 6 1) = (PState.mk 5348644033612487597103976577028803151952058812383101019597578658513308454034567077952729058308123348550281446654259332144494865051458769341458834755249652017514097806587842760837714616951702170089884257602744966369171722926983333156611090072308985026110626024365772778075348097293477722129510388683042070124594241151506825388062720837383915149669340735862609314425081922207503555504433973685580144884587773140360271554287567270252196467341243053587920969650326839396518625278540339485628805350858031833008965161270455151353295494002126073911148043853429922643162505407149679805631122586767708945699398579148362891355 0 93 213 0 0 7) := by
  rw [shuffleP_eq, sABC_w1, sABC_c1, sABC_w2, sABC_c2, sABC_w3]

theorem sABC_drip1 : dripP (PState.mk 32316509077753586139510713445660514514047171580093496865901477602143224540557412340472969236184020377745408638077439397456141948699754273791418869985027499602243785773646750786158629119897527698459159582903277348091197804306308450975276589715725867107713970624879795449576651053772645338545136289030884732000078153995905785379016127266906503989468674852104810601634583739540212157849975227043600330815497725709226415068681714016171984811889354826753727336180600816042057343558680318098633616524394754809393983744102337020242970278498749141794553346037185365501678803670300948952526313307985227891685831554094682244225 0 0 0 0 6 1) = (119, (PState.mk 5348644033612487597103976577028803151952058812383101019597578658513308454034567077952729058308123348550281446654259332144494865051458769341458834755249652017514097806587842760837714616951702170089884257602744966369171722926983333156611090072308985026110626024365772778075348097293477722129510388683042070124594241151506825388062720837383915149669340735862609314425081922207503555504433973685580144884587773140360271554287567270252196467341243053587920969650326839396518625278540339485628805350858031833008965161270455151353295494002126073911148043853429922643162505407149679805630826625846772460528679623717759238235 7 14 166 119 0 7)) := by
  rw [dripP_of_pos (PState.mk 32316509077753586139510713445660514514047171580093496865901477602143224540557412340472969236184020377745408638077439397456141948699754273791418869985027499602243785773646750786158629119897527698459159582903277348091197804306308450975276589715725867107713970624879795449576651053772645338545136289030884732000078153995905785379016127266906503989468674852104810601634583739540212157849975227043600330815497725709226415068681714016171984811889354826753727336180600816042057343558680318098633616524394754809393983744102337020242970278498749141794553346037185365501678803670300948952526313307985227891685831554094682244225 0 0 0 0 6 1) (by decide), sABC_shuffleP]
  decide

theorem sABC_drip8 : (dripNP (PState.mk 32316509077753586139510713445660514514047171580093496865901477602143224540557412340472969236184020377745408638077439397456141948699754273791418869985027499602243785773646750786158629119897527698459159582903277348091197804306308450975276589715725867107713970624879795449576651053772645338545136289030884732000078153995905785379016127266906503989468674852104810601634583739540212157849975227043600330815497725709226415068681714016171984811889354826753727336180600816042057343558680318098633616524394754809393983744102337020242970278498749141794553346037185365501678803670300948952526313307985227891685831554094682244225 0 0 0 0 6 1) 8).1 = [119, 154, 142, 1, 249, 233, 203, 192] := by
  show (dripP (PState.mk 32316509077753586139510713445660514514047171580093496865901477602143224540557412340472969236184020377745408638077439397456141948699754273791418869985027499602243785773646750786158629119897527698459159582903277348091197804306308450975276589715725867107713970624879795449576651053772645338545136289030884732000078153995905785379016127266906503989468674852104810601634583739540212157849975227043600330815497725709226415068681714016171984811889354826753727336180600816042057343558680318098633616524394754809393983744102337020242970278498749141794553346037185365501678803670300948952526313307985227891685831554094682244225 0 0 0 0 6 1)).1 :: (dripNP (dripP (PState.mk 32316509077753586139510713445660514514047171580093496865901477602143224540557412340472969236184020377745408638077439397456141948699754273791418869985027499602243785773646750786158629119897527698459159582903277348091197804306308450975276589715725867107713970624879795449576651053772645338545136289030884732000078153995905785379016127266906503989468674852104810601634583739540212157849975227043600330815497725709226415068681714016171984811889354826753727336180600816042057343558680318098633616524394754809393983744102337020242970278498749141794553346037185365501678803670300948952526313307985227891685831554094682244225 0 0 0 0 6 1)).2 7).1 = [119, 154, 142, 1, 249, 233, 203, 192]
  rw [sABC_drip1]
  decide

theorem sSpam_newP : newP [115, 112, 97, 109] = (PState.mk 32316509077753586139510713445660514514047171580093496865901477602143224540557412340472969236184020377745408638077439397456141948699754273791418869985027499602243785773646750786158629119897527698459159582903277348091197804306308450975276589715725867107713970624879795449576650561541740548716885058158762086544892216649610225386259612728557631324089584429629564796580953596815738250415263306201195741087485005699126594785643303116389941784286240440961262797607507042955863698396615600565460093928732789454585823590558481156627472534706046766537935042182128140653219905279800740326536548828344604762629486927586833500035 0 0 0 0 8 1) := by decide

theorem sSpam_w1 : whipP (PState.mk 32316509077753586139510713445660514514047171580093496865901477602143224540557412340472969236184020377745408638077439397456141948699754273791418869985027499602243785773646750786158629119897527698459159582903277348091197804306308450975276589715725867107713970624879795449576650561541740548716885058158762086544892216649610225386259612728557631324089584429629564796580953596815738250415263306201195741087485005699126594785643303116389941784286240440961262797607507042955863698396615600565460093928732789454585823590558481156627472534706046766537935042182128140653219905279800740326536548828344604762629486927586833500035 0 0 0 0 8 1) (2 * N) = (PState.mk 29960727610150802172458236032562779488006784397496889334241490402956255497121818257218675546598543417633521915688979007053576458457300528447791560530028077220750978665197142602203273495919191666786182251362989749348855476404410831689306607590332923945225040207386354581278153745306256087005639689767514526967295616759801585068979139314712402492970586482053833907108566145637166829515625840456047597777663015405182385242620827347453709592046580705227302983010131004743991943543971154729234871502971315783014312998223917020424069922716904518189677811243465772880797346985490576229229243949729575965276649277052044321155 0 238 222 0 8 3) := by
  have h1 : whipLoopP 128 (PState.mk 32316509077753586139510713445660514514047171580093496865901477602143224540557412340472969236184020377745408638077439397456141948699754273791418869985027499602243785773646750786158629119897527698459159582903277348091197804306308450975276589715725867107713970624879795449576650561541740548716885058158762086544892216649610225386259612728557631324089584429629564796580953596815738250415263306201195741087485005699126594785643303116389941784286240440961262797607507042955863698396615600565460093928732789454585823590558481156627472534706046766537935042182128140653219905279800740326536548828344604762629486927586833500035 0 0 0 0 8 1) = (PState.mk 32233353138619175586297759700297579346704072594733320661113536327703234748419684691373873873939602728972513415852766439195184171487321379232031331756170915185000115221536754414091152567468454717733737700525492094423044826831917539356896329918204753436451478479631480137671974775370710751916510281198284632237254594904898447303912506951544369089076969131151540423510025457467860528866086819059653783473748971525858180468025518630815365001178055873135255807325444996789898080767104268003695190641048993103640899351693173741176171329572655789239410895669091507550727008582185708029923510266386508616488975281827342123395 128 197 221 0 8 1) := by decide
  have h2 : whipLoopP 128 (PState.mk 32233353138619175586297759700297579346704072594733320661113536327703234748419684691373873873939602728972513415852766439195184171487321379232031331756170915185000115221536754414091152567468454717733737700525492094423044826831917539356896329918204753436451478479631480137671974775370710751916510281198284632237254594904898447303912506951544369089076969131151540423510025457467860528866086819059653783473748971525858180468025518630815365001178055873135255807325444996789898080767104268003695190641048993103640899351693173741176171329572655789239410895669091507550727008582185708029923510266386508616488975281827342123395 128 197 221 0 8 1) = (PState.mk 18363010377205636137648230883903564800632061347168379939795041637906623287127446753540354113877106070090261511317947078746001691229302523773733441370484662741016863389643988141467577924596232275475941168376454130101895074081959971100076953530342433599228001707482788563789954810140921463458317438601632575115087142025254945014468964451603142690030414088141470599243429374108140042712883439008829984749873622516969103351875533212049851085028939436279378861628818923142755623766447480834857285327511025212817946218635542405686724775802424849728781152904469950027304829859295286106591126692253513968583820441680767781275 0 216 124 0 8 1) := by decide
  have h3 : whipLoopP 128 (PState.mk 18363010377205636137648230883903564800632061347168379939795041637906623287127446753540354113877106070090261511317947078746001691229302523773733441370484662741016863389643988141467577924596232275475941168376454130101895074081959971100076953530342433599228001707482788563789954810140921463458317438601632575115087142025254945014468964451603142690030414088141470599243429374108140042712883439008829984749873622516969103351875533212049851085028939436279378861628818923142755623766447480834857285327511025212817946218635542405686724775802424849728781152904469950027304829859295286106591126692253513968583820441680767781275 0 216 124 0 8 1) = (PState.mk 26820976810489989932943193644014961860081897904818722047098627295271998979245774904599969183345945127763426476539560988986431542463538545433907842724347775314199829717130551368111769754835738270643408239624608315927208858224111512597121893676280531261426536162515506541917047379843513101092578009740886374955029686175258266886921675089376437528767906684694166460235560908244121553791212333369975416380748504873218772215922696413423836601449587479246468255526270316016611835430718350629617826788014190341059754977147453618999032313830252952569689069209753884387328956016796122383670390358751734385310991042771930456475 128 76 171 0 8 1) := by decide
  have h4 : whipLoopP 128 (PState.mk 26820976810489989932943193644014961860081897904818722047098627295271998979245774904599969183345945127763426476539560988986431542463538545433907842724347775314199829717130551368111769754835738270643408239624608315927208858224111512597121893676280531261426536162515506541917047379843513101092578009740886374955029686175258266886921675089376437528767906684694166460235560908244121553791212333369975416380748504873218772215922696413423836601449587479246468255526270316016611835430718350629617826788014190341059754977147453618999032313830252952569689069209753884387328956016796122383670390358751734385310991042771930456475 128 76 171 0 8 1) = (PState.mk 29960727610150802172458236032562779488006784397496889334241490402956255497121818257218675546598543417633521915688979007053576458457300528447791560530028077220750978665197142602203273495919191666786182251362989749348855476404410831689306607590332923945225040207386354581278153745306256087005639689767514526967295616759801585068979139314712402492970586482053833907108566145637166829515625840456047597777663015405182385242620827347453709592046580705227302983010131004743991943543971154729234871502971315783014312998223917020424069922716904518189677811243465772880797346985490576229229243949729575965276649277052044321155 0 238 222 0 8 1) := by decide
  have h : whipLoopP (2 * N) (PState.mk 32316509077753586139510713445660514514047171580093496865901477602143224540557412340472969236184020377745408638077439397456141948699754273791418869985027499602243785773646750786158629119897527698459159582903277348091197804306308450975276589715725867107713970624879795449576650561541740548716885058158762086544892216649610225386259612728557631324089584429629564796580953596815738250415263306201195741087485005699126594785643303116389941784286240440961262797607507042955863698396615600565460093928732789454585823590558481156627472534706046766537935042182128140653219905279800740326536548828344604762629486927586833500035 0 0 0 0 8 1) = (PState.mk 29960727610150802172458236032562779488006784397496889334241490402956255497121818257218675546598543417633521915688979007053576458457300528447791560530028077220750978665197142602203273495919191666786182251362989749348855476404410831689306607590332923945225040207386354581278153745306256087005639689767514526967295616759801585068979139314712402492970586482053833907108566145637166829515625840456047597777663015405182385242620827347453709592046580705227302983010131004743991943543971154729234871502971315783014312998223917020424069922716904518189677811243465772880797346985490576229229243949729575965276649277052044321155 0 238 222 0 8 1) :=
    whipLoopP_chunk 384 128 (whipLoopP_chunk 256 128 (whipLoopP_chunk 128 128 h1 h2) h3) h4
  rw [whipP_eq, h]
  decide

theorem sSpam_c1 : crushP (PState.mk 29960727610150802172458236032562779488006784397496889334241490402956255497121818257218675546598543417633521915688979007053576458457300528447791560530028077220750978665197142602203273495919191666786182251362989749348855476404410831689306607590332923945225040207386354581278153745306256087005639689767514526967295616759801585068979139314712402492970586482053833907108566145637166829515625840456047597777663015405182385242620827347453709592046580705227302983010131004743991943543971154729234871502971315783014312998223917020424069922716904518189677811243465772880797346985490576229229243949729575965276649277052044321155 0 238 222 0 8 3) = (PState.mk 29960814294565035215764415636091435103488119235927212877118307758294532482703817301667905319366148356127647915089493761752643500436650801108515603842298853234340106587508456186672171919962147763735317719033574518060783678477220823407202078648046163814585752607596022927912809373275741010108008629636904861889509314030932139060396012440250661638848547612999068176117142972413120408693141177970173493271577420576957100319712129402815039850596259178647291631247157446307590704674474617250024585130817499700604488452848382357818275643153093559137261873410595127386044263508942272916615141185199947224278460829685900976515 0 238 222 0 8 3) := by decide

theorem sSpam_w2 : whipP (PState.mk 29960814294565035215764415636091435103488119235927212877118307758294532482703817301667905319366148356127647915089493761752643500436650801108515603842298853234340106587508456186672171919962147763735317719033574518060783678477220823407202078648046163814585752607596022927912809373275741010108008629636904861889509314030932139060396012440250661638848547612999068176117142972413120408693141177970173493271577420576957100319712129402815039850596259178647291631247157446307590704674474617250024585130817499700604488452848382357818275643153093559137261873410595127386044263508942272916615141185199947224278460829685900976515 0 238 222 0 8 3) (2 * N) = (PState.mk 4271548427683223292786393104140874099982081068549264657716454518317977505251683149124924633870755507566144505405649083344369248789550226033163638525988949539409661154621596360587716789891969458073757726676845386297660817302033829031112317871545454332838328885589649151780184753954445014165037871098128750024165335509022139527094908077838844206264815341752137366569852467991106252198764205217276466781083885236986854914786448678571265232471495726480276290685286003832662952941235554734382008655113596299319657274024206179801157932493371565075296677549316627006924926061163050749676434180738794879362735316317928033280 0 121 83 0 8 5) := by
  have h1 : whipLoopP 128 (PState.mk 29960814294565035215764415636091435103488119235927212877118307758294532482703817301667905319366148356127647915089493761752643500436650801108515603842298853234340106587508456186672171919962147763735317719033574518060783678477220823407202078648046163814585752607596022927912809373275741010108008629636904861889509314030932139060396012440250661638848547612999068176117142972413120408693141177970173493271577420576957100319712129402815039850596259178647291631247157446307590704674474617250024585130817499700604488452848382357818275643153093559137261873410595127386044263508942272916615141185199947224278460829685900976515 0 238 222 0 8 3) = (PState.mk 9749720089311545521548320983081957706690294271488746364835461619676066316892734839794948933092258639792507549944023429836006360966800770088209803152302214543839892900476400096576146224668459351312185011136261728298965473139264801405435173191583948977257887235662516023662926470590160546589906543021756025000256661748948771661706099945356012674729526713002257034949061425574560687202395231400561116580755414825485855928495900855260628770071366311805990739234596091236826877253020722725710139807640927094477725279924259044438144921821070741836140350369509020986903776195338380029150506553721988750214075339583999108995 128 183 44 0 8 3) := by decide
  have h2 : whipLoopP 128 (PState.mk 9749720089311545521548320983081957706690294271488746364835461619676066316892734839794948933092258639792507549944023429836006360966800770088209803152302214543839892900476400096576146224668459351312185011136261728298965473139264801405435173191583948977257887235662516023662926470590160546589906543021756025000256661748948771661706099945356012674729526713002257034949061425574560687202395231400561116580755414825485855928495900855260628770071366311805990739234596091236826877253020722725710139807640927094477725279924259044438144921821070741836140350369509020986903776195338380029150506553721988750214075339583999108995 128 183 44 0 8 3) = (PState.mk 14540819735576002198067080554084057031504467551775873211405931907985969699975167317011821399316356678095943797795624202508959319251283549829345100165159345521307861447732615586266158770952257020381673298483972431415797395443211617164445553305046804481847559038662113640378272115414810909433829046893856601546508734003002032398608543065117804858636890867210645973079498636470686774476905292851967780519497473179411579184775542154083518373890143541854712696522486112563098644961608884182721425096046205755806588787525459752607913756328839578175859926547670977724752315154532253792114698317817863162551318833785878012135 0 50 23 0 8 3) := by decide
  have h3 : whipLoopP 128 (PState.mk 14540819735576002198067080554084057031504467551775873211405931907985969699975167317011821399316356678095943797795624202508959319251283549829345100165159345521307861447732615586266158770952257020381673298483972431415797395443211617164445553305046804481847559038662113640378272115414810909433829046893856601546508734003002032398608543065117804858636890867210645973079498636470686774476905292851967780519497473179411579184775542154083518373890143541854712696522486112563098644961608884182721425096046205755806588787525459752607913756328839578175859926547670977724752315154532253792114698317817863162551318833785878012135 0 50 23 0 8 3) = (PState.mk 13830235986226576913894414039194637133265934783508205731931054397251974046594595050799153882257480288505191683219211614239310222175935606093362804560289499429786291274094380088460202629339248017224339771305969605584078525922724133400694825559048250351539568792430757892507579700757210976070457740453569309058346456446251124808881240573231000204554999927316893384995496330388111414678791594990413152419696987570452158083371596644794218643133066969390693144596790433840400339007560125112613765465998011990958357203177974179963148261898697059138285235208472731429833307565741090734797973937855155923070548296177191650390 128 70 222 0 8 3) := by decide
  have h4 : whipLoopP 128 (PState.mk 13830235986226576913894414039194637133265934783508205731931054397251974046594595050799153882257480288505191683219211614239310222175935606093362804560289499429786291274094380088460202629339248017224339771305969605584078525922724133400694825559048250351539568792430757892507579700757210976070457740453569309058346456446251124808881240573231000204554999927316893384995496330388111414678791594990413152419696987570452158083371596644794218643133066969390693144596790433840400339007560125112613765465998011990958357203177974179963148261898697059138285235208472731429833307565741090734797973937855155923070548296177191650390 128 70 222 0 8 3) = (PState.mk 4271548427683223292786393104140874099982081068549264657716454518317977505251683149124924633870755507566144505405649083344369248789550226033163638525988949539409661154621596360587716789891969458073757726676845386297660817302033829031112317871545454332838328885589649151780184753954445014165037871098128750024165335509022139527094908077838844206264815341752137366569852467991106252198764205217276466781083885236986854914786448678571265232471495726480276290685286003832662952941235554734382008655113596299319657274024206179801157932493371565075296677549316627006924926061163050749676434180738794879362735316317928033280 0 121 83 0 8 3) := by decide
  have h : whipLoopP (2 * N) (PState.mk 29960814294565035215764415636091435103488119235927212877118307758294532482703817301667905319366148356127647915089493761752643500436650801108515603842298853234340106587508456186672171919962147763735317719033574518060783678477220823407202078648046163814585752607596022927912809373275741010108008629636904861889509314030932139060396012440250661638848547612999068176117142972413120408693141177970173493271577420576957100319712129402815039850596259178647291631247157446307590704674474617250024585130817499700604488452848382357818275643153093559137261873410595127386044263508942272916615141185199947224278460829685900976515 0 238 222 0 8 3) = (PState.mk 4271548427683223292786393104140874099982081068549264657716454518317977505251683149124924633870755507566144505405649083344369248789550226033163638525988949539409661154621596360587716789891969458073757726676845386297660817302033829031112317871545454332838328885589649151780184753954445014165037871098128750024165335509022139527094908077838844206264815341752137366569852467991106252198764205217276466781083885236986854914786448678571265232471495726480276290685286003832662952941235554734382008655113596299319657274024206179801157932493371565075296677549316627006924926061163050749676434180738794879362735316317928033280 0 121 83 0 8 3) :=
    whipLoopP_chunk 384 128 (whipLoopP_chunk 256 128 (whipLoopP_chunk 128 128 h1 h2) h3) h4
  rw [whipP_eq, h]
  decide

theorem sSpam_c2 : crushP (PState.mk 4271548427683223292786393104140874099982081068549264657716454518317977505251683149124924633870755507566144505405649083344369248789550226033163638525988949539409661154621596360587716789891969458073757726676845386297660817302033829031112317871545454332838328885589649151780184753954445014165037871098128750024165335509022139527094908077838844206264815341752137366569852467991106252198764205217276466781083885236986854914786448678571265232471495726480276290685286003832662952941235554734382008655113596299319657274024206179801157932493371565075296677549316627006924926061163050749676434180738794879362735316317928033280 0 121 83 0 8 5) = (PState.mk 4271604944773422374991336466363384273040937871578899951451301712973862021505028308975951726714898255820822571860259610905049088295863037101289454364953369218901665907794869066164174708748274247246339237251780897762961863414517226984570914459865315577986358347399016819578722032708356014969064145895741179952548885947989664765602771270468607162735107363096581109983240078586574475209745569741839472970276683663104695362845735678056562028760113161405013896817139659173482387578573920708683891282167564475464726889675235098576237892194180806383931681395363947569585660664933186314722600865698622241162797020701866920960 0 121 83 0 8 5) := by decide

theorem sSpam_w3 : whipP (PState.mk 4271604944773422374991336466363384273040937871578899951451301712973862021505028308975951726714898255820822571860259610905049088295863037101289454364953369218901665907794869066164174708748274247246339237251780897762961863414517226984570914459865315577986358347399016819578722032708356014969064145895741179952548885947989664765602771270468607162735107363096581109983240078586574475209745569741839472970276683663104695362845735678056562028760113161405013896817139659173482387578573920708683891282167564475464726889675235098576237892194180806383931681395363947569585660664933186314722600865698622241162797020701866920960 0 121 83 0 8 5) (2 * N) = (PState.mk 5012310879623816770617536167836798119780754994194750801898102347333410587312938649479136802209094389686600396898143169010278810814456229975801864035192538789931557107010463413059974509291637493251008658213552312940053174500106381962121497153723182381143957756125299071298765543841047478091804652018889016376264474109346070136174242866935537422449938207094352569683711652570101573384114808038978125267799641040437913997981169500091044940815143665390101415641185640511360308611293018527456263410016864937668132233066159280901450428461039787480252165200103016262518869949953087218769704894297813752749407047463817089970 0 16 134 0 8 7) := by
  have h1 : whipLoopP 128 (PState.mk 4271604944773422374991336466363384273040937871578899951451301712973862021505028308975951726714898255820822571860259610905049088295863037101289454364953369218901665907794869066164174708748274247246339237251780897762961863414517226984570914459865315577986358347399016819578722032708356014969064145895741179952548885947989664765602771270468607162735107363096581109983240078586574475209745569741839472970276683663104695362845735678056562028760113161405013896817139659173482387578573920708683891282167564475464726889675235098576237892194180806383931681395363947569585660664933186314722600865698622241162797020701866920960 0 121 83 0 8 5) = (PState.mk 30497612568197553717687742135239277325823730111327686724659854472785905587025510968529636801642624512738644269506724998588728595529317265264283938952708376908553282760254183968748590858700301052840627859750341495196592618981902398866189096116519921466434097838512965285184264987822270899796306620101385266120045184209495513672095915184152085337332010076934635576713204297135931921258114706741684410591963863467213746579343376523190853041721497075328669677958833457652131560822100402040542438125386447274309099134280824565824252477143545820936855602146455806638838567464558704292194485350268036968491831488348354115675 128 110 195 0 8 5) := by decide
  have h2 : whipLoopP 128 (PState.mk 30497612568197553717687742135239277325823730111327686724659854472785905587025510968529636801642624512738644269506724998588728595529317265264283938952708376908553282760254183968748590858700301052840627859750341495196592618981902398866189096116519921466434097838512965285184264987822270899796306620101385266120045184209495513672095915184152085337332010076934635576713204297135931921258114706741684410591963863467213746579343376523190853041721497075328669677958833457652131560822100402040542438125386447274309099134280824565824252477143545820936855602146455806638838567464558704292194485350268036968491831488348354115675 128 110 195 0 8 5) = (PState.mk 30497704998604644962045907829773118036373326569899480525393314979843517267492027811894606556659916449218845240521141879353510623964742084665751748384559055807634068217510653493422308242594120725964300826595072030589164529605531172263865819924666657032403919209902128631121689415155264480819041650447878671527981455963087393892787576992581616539261815621858917013697759315784706590827772105904173078003958170158947938562186552930559012776731731234659027794417820907585641544222210148346730794773570004933533375796644992019109762980075428157437741403523528168599917457458084542139837873015386604774337435695598374728645 0 70 68 0 8 5) := by decide
  have h3 : whipLoopP 128 (PState.mk 30497704998604644962045907829773118036373326569899480525393314979843517267492027811894606556659916449218845240521141879353510623964742084665751748384559055807634068217510653493422308242594120725964300826595072030589164529605531172263865819924666657032403919209902128631121689415155264480819041650447878671527981455963087393892787576992581616539261815621858917013697759315784706590827772105904173078003958170158947938562186552930559012776731731234659027794417820907585641544222210148346730794773570004933533375796644992019109762980075428157437741403523528168599917457458084542139837873015386604774337435695598374728645 0 70 68 0 8 5) = (PState.mk 5012361368188582538915916605077262109144636613617411655723950631343926715391208912969479209752350897055167392371797398233764000562806892350236706643440597477242796528618408077145510905993976636710897476207485088821762999547895141808332201009949018728271868137971476657318186017875719617640820865668379362382992266814970496775992007683371640043694695429017016227241965967769315005290349313534346641646414064612838274029882683203200390486989054932653077471919402604836718969609096316994677245482517832883557044953702990637199410519854112087149627637919071282183864186061801055626462683582122760594285806010840643646405 128 242 177 0 8 5) := by decide
  have h4 : whipLoopP 128 (PState.mk 5012361368188582538915916605077262109144636613617411655723950631343926715391208912969479209752350897055167392371797398233764000562806892350236706643440597477242796528618408077145510905993976636710897476207485088821762999547895141808332201009949018728271868137971476657318186017875719617640820865668379362382992266814970496775992007683371640043694695429017016227241965967769315005290349313534346641646414064612838274029882683203200390486989054932653077471919402604836718969609096316994677245482517832883557044953702990637199410519854112087149627637919071282183864186061801055626462683582122760594285806010840643646405 128 242 177 0 8 5) = (PState.mk 5012310879623816770617536167836798119780754994194750801898102347333410587312938649479136802209094389686600396898143169010278810814456229975801864035192538789931557107010463413059974509291637493251008658213552312940053174500106381962121497153723182381143957756125299071298765543841047478091804652018889016376264474109346070136174242866935537422449938207094352569683711652570101573384114808038978125267799641040437913997981169500091044940815143665390101415641185640511360308611293018527456263410016864937668132233066159280901450428461039787480252165200103016262518869949953087218769704894297813752749407047463817089970 0 16 134 0 8 5) := by decide
  have h : whipLoopP (2 * N) (PState.mk 4271604944773422374991336466363384273040937871578899951451301712973862021505028308975951726714898255820822571860259610905049088295863037101289454364953369218901665907794869066164174708748274247246339237251780897762961863414517226984570914459865315577986358347399016819578722032708356014969064145895741179952548885947989664765602771270468607162735107363096581109983240078586574475209745569741839472970276683663104695362845735678056562028760113161405013896817139659173482387578573920708683891282167564475464726889675235098576237892194180806383931681395363947569585660664933186314722600865698622241162797020701866920960 0 121 83 0 8 5) = (PState.mk 5012310879623816770617536167836798119780754994194750801898102347333410587312938649479136802209094389686600396898143169010278810814456229975801864035192538789931557107010463413059974509291637493251008658213552312940053174500106381962121497153723182381143957756125299071298765543841047478091804652018889016376264474109346070136174242866935537422449938207094352569683711652570101573384114808038978125267799641040437913997981169500091044940815143665390101415641185640511360308611293018527456263410016864937668132233066159280901450428461039787480252165200103016262518869949953087218769704894297813752749407047463817089970 0 16 134 0 8 5) :=
    whipLoopP_chunk 384 128 (whipLoopP_chunk 256 128 (whipLoopP_chunk 128 128 h1 h2) h3) h4
  rw [whipP_eq, h]
  decide

theorem sSpam_shuffleP : shuffleP (PState.mk 32316509077753586139510713445660514514047171580093496865901477602143224540557412340472969236184020377745408638077439397456141948699754273791418869985027499602243785773646750786158629119897527698459159582903277348091197804306308450975276589715725867107713970624879795449576650561541740548716885058158762086544892216649610225386259612728557631324089584429629564796580953596815738250415263306201195741087485005699126594785643303116389941784286240440961262797607507042955863698396615600565460093928732789454585823590558481156627472534706046766537935042182128140653219905279800740326536548828344604762629486927586833500035 0 0 0 0 8 1) = (PState.mk 5012310879623816770617536167836798119780754994194750801898102347333410587312938649479136802209094389686600396898143169010278810814456229975801864035192538789931557107010463413059974509291637493251008658213552312940053174500106381962121497153723182381143957756125299071298765543841047478091804652018889016376264474109346070136174242866935537422449938207094352569683711652570101573384114808038978125267799641040437913997981169500091044940815143665390101415641185640511360308611293018527456263410016864937668132233066159280901450428461039787480252165200103016262518869949953087218769704894297813752749407047463817089970 0 16 134 0 0 7) := by
  rw [shuffleP_eq, sSpam_w1, sSpam_c1, sSpam_w2, sSpam_c2, sSpam_w3]

theorem sSpam_drip1 : dripP (PState.mk 32316509077753586139510713445660514514047171580093496865901477602143224540557412340472969236184020377745408638077439397456141948699754273791418869985027499602243785773646750786158629119897527698459159582903277348091197804306308450975276589715725867107713970624879795449576650561541740548716885058158762086544892216649610225386259612728557631324089584429629564796580953596815738250415263306201195741087485005699126594785643303116389941784286240440961262797607507042955863698396615600565460093928732789454585823590558481156627472534706046766537935042182128140653219905279800740326536548828344604762629486927586833500035 0 0 0 0 8 1) = (240, (PState.mk 5012310879623816770617536167836798119780754994194750802624026196928967802023681398395536011074170134478675143001512856201475567102441221146542551781510307112180596261885702805987562782860333747541057533426023767968584201093027573335435415563033102314035082482772544087862285099438030358802389374956083247156931707834785969950212491133501867718564315401519502905325550343548620617223487860006451548678672956909061972473977454549925476254590528368837171501045926653062495539276934125824400160814171461833680555678636562903221976723327611126216913969116108046947615311444575317023397865317398741317124786415340703617970 7 232 176 240 0 7)) := by
  rw [dripP_of_pos (PState.mk 32316509077753586139510713445660514514047171580093496865901477602143224540557412340472969236184020377745408638077439397456141948699754273791418869985027499602243785773646750786158629119897527698459159582903277348091197804306308450975276589715725867107713970624879795449576650561541740548716885058158762086544892216649610225386259612728557631324089584429629564796580953596815738250415263306201195741087485005699126594785643303116389941784286240440961262797607507042955863698396615600565460093928732789454585823590558481156627472534706046766537935042182128140653219905279800740326536548828344604762629486927586833500035 0 0 0 0 8 1) (by decide), sSpam_shuffleP]
  decide

theorem sSpam_drip8 : (dripNP (PState.mk 32316509077753586139510713445660514514047171580093496865901477602143224540557412340472969236184020377745408638077439397456141948699754273791418869985027499602243785773646750786158629119897527698459159582903277348091197804306308450975276589715725867107713970624879795449576650561541740548716885058158762086544892216649610225386259612728557631324089584429629564796580953596815738250415263306201195741087485005699126594785643303116389941784286240440961262797607507042955863698396615600565460093928732789454585823590558481156627472534706046766537935042182128140653219905279800740326536548828344604762629486927586833500035 0 0 0 0 8 1) 8).1 = [240, 96, 154, 29, 241, 67, 206, 191] := by
  show (dripP (PState.mk 32316509077753586139510713445660514514047171580093496865901477602143224540557412340472969236184020377745408638077439397456141948699754273791418869985027499602243785773646750786158629119897527698459159582903277348091197804306308450975276589715725867107713970624879795449576650561541740548716885058158762086544892216649610225386259612728557631324089584429629564796580953596815738250415263306201195741087485005699126594785643303116389941784286240440961262797607507042955863698396615600565460093928732789454585823590558481156627472534706046766537935042182128140653219905279800740326536548828344604762629486927586833500035 0 0 0 0 8 1)).1 :: (dripNP (dripP (PState.mk 32316509077753586139510713445660514514047171580093496865901477602143224540557412340472969236184020377745408638077439397456141948699754273791418869985027499602243785773646750786158629119897527698459159582903277348091197804306308450975276589715725867107713970624879795449576650561541740548716885058158762086544892216649610225386259612728557631324089584429629564796580953596815738250415263306201195741087485005699126594785643303116389941784286240440961262797607507042955863698396615600565460093928732789454585823590558481156627472534706046766537935042182128140653219905279800740326536548828344604762629486927586833500035 0 0 0 0 8 1)).2 7).1 = [240, 96, 154, 29, 241, 67, 206, 191]
  rw [sSpam_drip1]
  decide

theorem sArc_newP : newP [97, 114, 99, 102, 111, 117, 114] = (PState.mk 32316509077753586139510713445660514514047171580093496865901477602143224540557412340472969236184020377745408638077439397456141948699754273791418869985027499602243785773646750786158629119897527698459159582903277348091197804306308450975276589715725867107713970624879795449544392209196339266751657500327350831040508287958260154813218577961439219904354861863710469807962062565273718118249000713157268968975065967933228547466701214788014332241512106376647074624137742004191950315838314617761433198628553541081051172123900400872144291672783665972383897506351191318954899022066795667312894499469315655285448878639945707849345 0 0 0 0 14 1) := by decide

theorem sArc_w1 : whipP (PState.mk 32316509077753586139510713445660514514047171580093496865901477602143224540557412340472969236184020377745408638077439397456141948699754273791418869985027499602243785773646750786158629119897527698459159582903277348091197804306308450975276589715725867107713970624879795449544392209196339266751657500327350831040508287958260154813218577961439219904354861863710469807962062565273718118249000713157268968975065967933228547466701214788014332241512106376647074624137742004191950315838314617761433198628553541081051172123900400872144291672783665972383897506351191318954899022066795667312894499469315655285448878639945707849345 0 0 0 0 14 1) (2 * N) = (PState.mk 6415824017999592743936123057110866057718750292353134800487927201039983955166038639005768096616436702899328429606019167784718473457059713917914083947460009820177879266488470397203044333578701309455917474530541766536539582374902067408140169006574437341525882175168449752392492672201016966983982288517254694256575723180259234014888441200311667005531232856629388762923554352566121388211828829206200051007816637537902918829632124875476327985555805188074574332657319947718362014135704912144872937382269802320527242693377814601519293505459703131086866017943947863676472178902634843887640343260511357989782534604587977780660 0 84 247 0 14 3) := by
  have h1 : whipLoopP 128 (PState.mk 32316509077753586139510713445660514514047171580093496865901477602143224540557412340472969236184020377745408638077439397456141948699754273791418869985027499602243785773646750786158629119897527698459159582903277348091197804306308450975276589715725867107713970624879795449544392209196339266751657500327350831040508287958260154813218577961439219904354861863710469807962062565273718118249000713157268968975065967933228547466701214788014332241512106376647074624137742004191950315838314617761433198628553541081051172123900400872144291672783665972383897506351191318954899022066795667312894499469315655285448878639945707849345 0 0 0 0 14 1) = (PState.mk 13515876000383086104736392401834158387159336822279054172638574665409281727753946695281506150706645951751247203142381578791700902977426192060650281510876052522979336770872921612197427925644852656864946458385896576539087148079731111454941144344191896993218487875944395390750771604869380107402838016022321716444730186915006944702697774025538202861523406946695982494081149538994047817012046793552981091944754256121633520932501929741189252175713222901393108588913867350301363138435218933437305890610366440965324047267404283164378309335392625039928152438690907405207346457847577645187600990906360463038963750787516389066625 128 57 108 0 14 1) := by decide
  have h2 : whipLoopP 128 (PState.mk 13515876000383086104736392401834158387159336822279054172638574665409281727753946695281506150706645951751247203142381578791700902977426192060650281510876052522979336770872921612197427925644852656864946458385896576539087148079731111454941144344191896993218487875944395390750771604869380107402838016022321716444730186915006944702697774025538202861523406946695982494081149538994047817012046793552981091944754256121633520932501929741189252175713222901393108588913867350301363138435218933437305890610366440965324047267404283164378309335392625039928152438690907405207346457847577645187600990906360463038963750787516389066625 128 57 108 0 14 1) = (PState.mk 20066757324536011585776427478701140408585293471258801497346465128163783225096403715315257509163220253985429360766408310188344326776797532062131959376207219892378509538602331192367366507891762319327648710603000307872890322346935231840998409311247483887926039453034616290578787140502746012015042904340189629929627071921778385249977519934047629976492372037987238618508753590619633123205071645801658190526722792641161025250582622866098892518619130467554178707859701709728688844149448708067607432112539175034595778678107652125106587898906168639687953256771639998737263820322569521706446705406530021150952275329842285053835 0 233 24 0 14 1) := by decide
  have h3 : whipLoopP 128 (PState.mk 20066757324536011585776427478701140408585293471258801497346465128163783225096403715315257509163220253985429360766408310188344326776797532062131959376207219892378509538602331192367366507891762319327648710603000307872890322346935231840998409311247483887926039453034616290578787140502746012015042904340189629929627071921778385249977519934047629976492372037987238618508753590619633123205071645801658190526722792641161025250582622866098892518619130467554178707859701709728688844149448708067607432112539175034595778678107652125106587898906168639687953256771639998737263820322569521706446705406530021150952275329842285053835 0 233 24 0 14 1) = (PState.mk 19940272399480040323754941982571284936032109688973523945645691350513911462380029406332209326961175305482915361318162279837718084080114774793248996534630544027430365701807596880651378206316230197054182299727165601566929209139725931153170547946200695903567359084583245267249346105295504352642613774069488349990640985333722450827584771391818382505573279991472325604804305999653890992647045677444123422707845862880160610476013815856029845900452512920732506439456340493684925203337691941854010390767308026733335848415859452453363710086009540721782953946192849522509553528139133504621940170340680846177777737646799158553995 128 38 25 0 14 1) := by decide
  have h4 : whipLoopP 128 (PState.mk 19940272399480040323754941982571284936032109688973523945645691350513911462380029406332209326961175305482915361318162279837718084080114774793248996534630544027430365701807596880651378206316230197054182299727165601566929209139725931153170547946200695903567359084583245267249346105295504352642613774069488349990640985333722450827584771391818382505573279991472325604804305999653890992647045677444123422707845862880160610476013815856029845900452512920732506439456340493684925203337691941854010390767308026733335848415859452453363710086009540721782953946192849522509553528139133504621940170340680846177777737646799158553995 128 38 25 0 14 1) = (PState.mk 6415824017999592743936123057110866057718750292353134800487927201039983955166038639005768096616436702899328429606019167784718473457059713917914083947460009820177879266488470397203044333578701309455917474530541766536539582374902067408140169006574437341525882175168449752392492672201016966983982288517254694256575723180259234014888441200311667005531232856629388762923554352566121388211828829206200051007816637537902918829632124875476327985555805188074574332657319947718362014135704912144872937382269802320527242693377814601519293505459703131086866017943947863676472178902634843887640343260511357989782534604587977780660 0 84 247 0 14 1) := by decide
  have h : whipLoopP (2 * N) (PState.mk 32316509077753586139510713445660514514047171580093496865901477602143224540557412340472969236184020377745408638077439397456141948699754273791418869985027499602243785773646750786158629119897527698459159582903277348091197804306308450975276589715725867107713970624879795449544392209196339266751657500327350831040508287958260154813218577961439219904354861863710469807962062565273718118249000713157268968975065967933228547466701214788014332241512106376647074624137742004191950315838314617761433198628553541081051172123900400872144291672783665972383897506351191318954899022066795667312894499469315655285448878639945707849345 0 0 0 0 14 1) = (PState.mk 6415824017999592743936123057110866057718750292353134800487927201039983955166038639005768096616436702899328429606019167784718473457059713917914083947460009820177879266488470397203044333578701309455917474530541766536539582374902067408140169006574437341525882175168449752392492672201016966983982288517254694256575723180259234014888441200311667005531232856629388762923554352566121388211828829206200051007816637537902918829632124875476327985555805188074574332657319947718362014135704912144872937382269802320527242693377814601519293505459703131086866017943947863676472178902634843887640343260511357989782534604587977780660 0 84 247 0 14 1) :=
    whipLoopP_chunk 384 128 (whipLoopP_chunk 256 128 (whipLoopP_chunk 128 128 h1 h2) h3) h4
  rw [whipP_eq, h]
  decide

theorem sArc_c1 : crushP (PState.mk 6415824017999592743936123057110866057718750292353134800487927201039983955166038639005768096616436702899328429606019167784718473457059713917914083947460009820177879266488470397203044333578701309455917474530541766536539582374902067408140169006574437341525882175168449752392492672201016966983982288517254694256575723180259234014888441200311667005531232856629388762923554352566121388211828829206200051007816637537902918829632124875476327985555805188074574332657319947718362014135704912144872937382269802320527242693377814601519293505459703131086866017943947863676472178902634843887640343260511357989782534604587977780660 0 84 247 0 14 3) = (PState.mk 22826803663599397728143757263212714416297152884842783562443521973926459072314818757548457174510880391314793643971531263296669941008713583999456661360563951233104769745744689473807160964873973874182978553696883803447809742055212122889970086552783008784140534636746524942878873628836666197372169567599302122836816853886505262482113613330390262888583505497048462504266103347296539948497854021240231982299871996352259815768285804938578519108038631963944805475855224936216779179199901171358407520730953243275932037207624108828367326424670628667212856057940110694137032460648924206602128507780782319657477800655312571444530 0 84 247 0 14 3) := by decide

theorem sArc_w2 : whipP (PState.mk 22826803663599397728143757263212714416297152884842783562443521973926459072314818757548457174510880391314793643971531263296669941008713583999456661360563951233104769745744689473807160964873973874182978553696883803447809742055212122889970086552783008784140534636746524942878873628836666197372169567599302122836816853886505262482113613330390262888583505497048462504266103347296539948497854021240231982299871996352259815768285804938578519108038631963944805475855224936216779179199901171358407520730953243275932037207624108828367326424670628667212856057940110694137032460648924206602128507780782319657477800655312571444530 0 84 247 0 14 3) (2 * N) = (PState.mk 17077750579866251425834534414324193634144100276512806548606940427776507191567806620807376319876938477483365212238238707208197435046617506441017661652959619356330280302996586159834745228796407807476399204280812724370552026557519396363589927204333289124710186674568928355247165769863747468664256651400195871267394158494280634219937412402403069333280248196625598247687826728963868654753375274104760538500629892492763431073168351435710684690652162248686564799762237295648715613049884681911861928737934282671585014803457087825534145929805539822855721227890276357980623273920904759675891892673554623080897228576430382166405 0 93 97 0 14 5) := by
  have h1 : whipLoopP 128 (PState.mk 22826803663599397728143757263212714416297152884842783562443521973926459072314818757548457174510880391314793643971531263296669941008713583999456661360563951233104769745744689473807160964873973874182978553696883803447809742055212122889970086552783008784140534636746524942878873628836666197372169567599302122836816853886505262482113613330390262888583505497048462504266103347296539948497854021240231982299871996352259815768285804938578519108038631963944805475855224936216779179199901171358407520730953243275932037207624108828367326424670628667212856057940110694137032460648924206602128507780782319657477800655312571444530 0 84 247 0 14 3) = (PState.mk 14873789337122137532249475358465322148640070619053503042944705551812505450945994983549301123779182171757664778234460406077308635980260195988917361802662703126387748520832959852213127960243206778897744424351025861330371026241833035849090164136661480386630364082762697233426860813421489096686591706185111273944810090855448413174242387595025120422972361981734192156893895893531376874485144095358527451337132728606544460665458849184829233705361188713110142157059537402659561016243064568022816163509250766616459493981695507280752314951486940189514634038559370849794116813430931257796044250699232779039416249803709354200450 128 188 247 0 14 3) := by decide
  have h2 : whipLoopP 128 (PState.mk 14873789337122137532249475358465322148640070619053503042944705551812505450945994983549301123779182171757664778234460406077308635980260195988917361802662703126387748520832959852213127960243206778897744424351025861330371026241833035849090164136661480386630364082762697233426860813421489096686591706185111273944810090855448413174242387595025120422972361981734192156893895893531376874485144095358527451337132728606544460665458849184829233705361188713110142157059537402659561016243064568022816163509250766616459493981695507280752314951486940189514634038559370849794116813430931257796044250699232779039416249803709354200450 128 188 247 0 14 3) = (PState.mk 14857187421863808298413945089529971560749320194924793244396748737212466421394695525352523286953026928157800595957958828249702075770194944160799753966496702489617912422232672120693892062943917774711652996103745137606476827597188140703904699853480782855196232497075094536163972679501414033378997642598246230540342369868609037788010589440256980957342241141151026258367223887917227639069565144172515424866331131875703090871462557106245637176481820945170763768128222624739227274312642956392241377158573062901392821822167490946940317492163977786232442984464186354495179252487349500062551911465794069333158766628092311956020 0 159 112 0 14 3) := by decide
  have h3 : whipLoopP 128 (PState.mk 14857187421863808298413945089529971560749320194924793244396748737212466421394695525352523286953026928157800595957958828249702075770194944160799753966496702489617912422232672120693892062943917774711652996103745137606476827597188140703904699853480782855196232497075094536163972679501414033378997642598246230540342369868609037788010589440256980957342241141151026258367223887917227639069565144172515424866331131875703090871462557106245637176481820945170763768128222624739227274312642956392241377158573062901392821822167490946940317492163977786232442984464186354495179252487349500062551911465794069333158766628092311956020 0 159 112 0 14 3) = (PState.mk 17129865305172634491307279422229238739068772578754536944742279614288866611613233626188015227912614971180338734355794066574939049855365718252343458970158619245348542877292366015141041468796977022859871776443804030113821113249437180101045243131022626658265863237026401878555805621113236475755726109076741268959204211775273111847260419734015447105720914763900355889091661997962402558757617745264407849085962706355376872720992790339627110224136178536863235987206732205632842179523236530111802891426078298965883034441990372639271401982706902968994053594475306282721112592800744998814185997563618286450163959601560776862260 128 94 40 0 14 3) := by decide
  have h4 : whipLoopP 128 (PState.mk 17129865305172634491307279422229238739068772578754536944742279614288866611613233626188015227912614971180338734355794066574939049855365718252343458970158619245348542877292366015141041468796977022859871776443804030113821113249437180101045243131022626658265863237026401878555805621113236475755726109076741268959204211775273111847260419734015447105720914763900355889091661997962402558757617745264407849085962706355376872720992790339627110224136178536863235987206732205632842179523236530111802891426078298965883034441990372639271401982706902968994053594475306282721112592800744998814185997563618286450163959601560776862260 128 94 40 0 14 3) = (PState.mk 17077750579866251425834534414324193634144100276512806548606940427776507191567806620807376319876938477483365212238238707208197435046617506441017661652959619356330280302996586159834745228796407807476399204280812724370552026557519396363589927204333289124710186674568928355247165769863747468664256651400195871267394158494280634219937412402403069333280248196625598247687826728963868654753375274104760538500629892492763431073168351435710684690652162248686564799762237295648715613049884681911861928737934282671585014803457087825534145929805539822855721227890276357980623273920904759675891892673554623080897228576430382166405 0 93 97 0 14 3) := by decide
  have h : whipLoopP (2 * N) (PState.mk 22826803663599397728143757263212714416297152884842783562443521973926459072314818757548457174510880391314793643971531263296669941008713583999456661360563951233104769745744689473807160964873973874182978553696883803447809742055212122889970086552783008784140534636746524942878873628836666197372169567599302122836816853886505262482113613330390262888583505497048462504266103347296539948497854021240231982299871996352259815768285804938578519108038631963944805475855224936216779179199901171358407520730953243275932037207624108828367326424670628667212856057940110694137032460648924206602128507780782319657477800655312571444530 0 84 247 0 14 3) = (PState.mk 17077750579866251425834534414324193634144100276512806548606940427776507191567806620807376319876938477483365212238238707208197435046617506441017661652959619356330280302996586159834745228796407807476399204280812724370552026557519396363589927204333289124710186674568928355247165769863747468664256651400195871267394158494280634219937412402403069333280248196625598247687826728963868654753375274104760538500629892492763431073168351435710684690652162248686564799762237295648715613049884681911861928737934282671585014803457087825534145929805539822855721227890276357980623273920904759675891892673554623080897228576430382166405 0 93 97 0 14 3) :=
    whipLoopP_chunk 384 128 (whipLoopP_chunk 256 128 (whipLoopP_chunk 128 128 h1 h2) h3) h4
  rw [whipP_eq, h]
  decide

theorem sArc_c2 : crushP (PState.mk 17077750579866251425834534414324193634144100276512806548606940427776507191567806620807376319876938477483365212238238707208197435046617506441017661652959619356330280302996586159834745228796407807476399204280812724370552026557519396363589927204333289124710186674568928355247165769863747468664256651400195871267394158494280634219937412402403069333280248196625598247687826728963868654753375274104760538500629892492763431073168351435710684690652162248686564799762237295648715613049884681911861928737934282671585014803457087825534145929805539822855721227890276357980623273920904759675891892673554623080897228576430382166405 0 93 97 0 14 5) = (PState.mk 17129624321820870490443470990339967429376029347771166078970566430949905044342369621017980865497918902129397453222425828122403169403714906694356462750421503374502331076383094512931696142926009222838109622519032813534461744101124680363438423702927464972275385474117637793906955061263066919495607347643003886181566551797738899484861223634768495420097713613907303595084281452053041689760768018394748212295781366512374816224915381201340921961965678986039552994946301678777200451113454145993267278983737422685906084970304250356025127957725380364299944727201704718761409678005182488524160139144115813512212799881073681385605 0 93 97 0 14 5) := by decide

theorem sArc_w3 : whipP (PState.mk 17129624321820870490443470990339967429376029347771166078970566430949905044342369621017980865497918902129397453222425828122403169403714906694356462750421503374502331076383094512931696142926009222838109622519032813534461744101124680363438423702927464972275385474117637793906955061263066919495607347643003886181566551797738899484861223634768495420097713613907303595084281452053041689760768018394748212295781366512374816224915381201340921961965678986039552994946301678777200451113454145993267278983737422685906084970304250356025127957725380364299944727201704718761409678005182488524160139144115813512212799881073681385605 0 93 97 0 14 5) (2 * N) = (PState.mk 22410073696093958746203710660974239822869214900762867017770706139312511160647284465148139386526866285661879720142910407151660932131012739007544250983338309003770322378854873094326549128157982478666039796326473278258398640309834982536077634643890492801193801509756964696973101173752015880737449076545590649336223865923665276303673786317669046947971138216273255480378811405001590253654876092796189223912897184738233628038573928781055820253232507987665710626184882082846758451696373248033712095561861358628931611138377554354972865096973868721892025921294182697337466775617868474707526637522142808021281976792742788822775 0 173 181 0 14 7) := by
  have h1 : whipLoopP 128 (PState.mk 17129624321820870490443470990339967429376029347771166078970566430949905044342369621017980865497918902129397453222425828122403169403714906694356462750421503374502331076383094512931696142926009222838109622519032813534461744101124680363438423702927464972275385474117637793906955061263066919495607347643003886181566551797738899484861223634768495420097713613907303595084281452053041689760768018394748212295781366512374816224915381201340921961965678986039552994946301678777200451113454145993267278983737422685906084970304250356025127957725380364299944727201704718761409678005182488524160139144115813512212799881073681385605 0 93 97 0 14 5) = (PState.mk 4819305391983428944770063794555720671510559530819449501578633756677950773497143283192033323222399633720111274918641491946056132340299488283857312660775961941802480309168794388145429588564404759251534409553533015859739050301279196602321390293060297435980255145639353074174775532191927727708728713522192471417246002807181625072551219950540727880597322659138135356570386676838558300818951826467577144688322928878585006792181621927265566664742743510612958115272681421574727913368968076377880015776288600611821585666796246415132964517422729475725596131791838226962207256893267797864404594419719501191072063040282719373445 128 181 148 0 14 5) := by decide
  have h2 : whipLoopP 128 (PState.mk 4819305391983428944770063794555720671510559530819449501578633756677950773497143283192033323222399633720111274918641491946056132340299488283857312660775961941802480309168794388145429588564404759251534409553533015859739050301279196602321390293060297435980255145639353074174775532191927727708728713522192471417246002807181625072551219950540727880597322659138135356570386676838558300818951826467577144688322928878585006792181621927265566664742743510612958115272681421574727913368968076377880015776288600611821585666796246415132964517422729475725596131791838226962207256893267797864404594419719501191072063040282719373445 128 181 148 0 14 5) = (PState.mk 4819368832632693668592295367515211203295896302878803277077461093150057658451790300330464154534268252071423822894240654388296978559927818475270907492024688605267868454192102251961126991909108028596097559657093696976810200937257731557364928586167006713480423577177567377159578494619740723062308692676933680944817357588068897653656772234541159236774664565268613211525022439890010664176492640796538707632636797339902265286809118906970219994197967202244806332861179141534732118320899579785701516733782236279379209558834702670491181060402935550182527001011948675360934150868290490377437859811068791484716095408888112291495 0 94 66 0 14 5) := by decide
  have h3 : whipLoopP 128 (PState.mk 4819368832632693668592295367515211203295896302878803277077461093150057658451790300330464154534268252071423822894240654388296978559927818475270907492024688605267868454192102251961126991909108028596097559657093696976810200937257731557364928586167006713480423577177567377159578494619740723062308692676933680944817357588068897653656772234541159236774664565268613211525022439890010664176492640796538707632636797339902265286809118906970219994197967202244806332861179141534732118320899579785701516733782236279379209558834702670491181060402935550182527001011948675360934150868290490377437859811068791484716095408888112291495 0 94 66 0 14 5) = (PState.mk 22368465696721086627513992131721244736264117221769799108017347154234998161492129107256320596037087538517041490981201750853032488750626883447865545166358198036062846400951671115077148649237428695666328540324997639574088898202044215811931977303422642756250667935329856491303044173916967653825100463216261004635581010822945474454136752865735254198910658301491417656217729497748476300727705541449406615496456340378991704952106659911797258942803500591019346622420452771509259492405446335525589760945765489048296016971969648089176105648690145925629541588983604911104889781415331682427882735664325032805931615777591176819420 128 9 233 0 14 5) := by decide
  have h4 : whipLoopP 128 (PState.mk 22368465696721086627513992131721244736264117221769799108017347154234998161492129107256320596037087538517041490981201750853032488750626883447865545166358198036062846400951671115077148649237428695666328540324997639574088898202044215811931977303422642756250667935329856491303044173916967653825100463216261004635581010822945474454136752865735254198910658301491417656217729497748476300727705541449406615496456340378991704952106659911797258942803500591019346622420452771509259492405446335525589760945765489048296016971969648089176105648690145925629541588983604911104889781415331682427882735664325032805931615777591176819420 128 9 233 0 14 5) = (PState.mk 22410073696093958746203710660974239822869214900762867017770706139312511160647284465148139386526866285661879720142910407151660932131012739007544250983338309003770322378854873094326549128157982478666039796326473278258398640309834982536077634643890492801193801509756964696973101173752015880737449076545590649336223865923665276303673786317669046947971138216273255480378811405001590253654876092796189223912897184738233628038573928781055820253232507987665710626184882082846758451696373248033712095561861358628931611138377554354972865096973868721892025921294182697337466775617868474707526637522142808021281976792742788822775 0 173 181 0 14 5) := by decide
  have h : whipLoopP (2 * N) (PState.mk 17129624321820870490443470990339967429376029347771166078970566430949905044342369621017980865497918902129397453222425828122403169403714906694356462750421503374502331076383094512931696142926009222838109622519032813534461744101124680363438423702927464972275385474117637793906955061263066919495607347643003886181566551797738899484861223634768495420097713613907303595084281452053041689760768018394748212295781366512374816224915381201340921961965678986039552994946301678777200451113454145993267278983737422685906084970304250356025127957725380364299944727201704718761409678005182488524160139144115813512212799881073681385605 0 93 97 0 14 5) = (PState.mk 22410073696093958746203710660974239822869214900762867017770706139312511160647284465148139386526866285661879720142910407151660932131012739007544250983338309003770322378854873094326549128157982478666039796326473278258398640309834982536077634643890492801193801509756964696973101173752015880737449076545590649336223865923665276303673786317669046947971138216273255480378811405001590253654876092796189223912897184738233628038573928781055820253232507987665710626184882082846758451696373248033712095561861358628931611138377554354972865096973868721892025921294182697337466775617868474707526637522142808021281976792742788822775 0 173 181 0 14 5) :=
    whipLoopP_chunk 384 128 (whipLoopP_chunk 256 128 (whipLoopP_chunk 128 128 h1 h2) h3) h4
  rw [whipP_eq, h]
  decide

theorem sArc_shuffleP : shuffleP (PState.mk 32316509077753586139510713445660514514047171580093496865901477602143224540557412340472969236184020377745408638077439397456141948699754273791418869985027499602243785773646750786158629119897527698459159582903277348091197804306308450975276589715725867107713970624879795449544392209196339266751657500327350831040508287958260154813218577961439219904354861863710469807962062565273718118249000713157268968975065967933228547466701214788014332241512106376647074624137742004191950315838314617761433198628553541081051172123900400872144291672783665972383897506351191318954899022066795667312894499469315655285448878639945707849345 0 0 0 0 14 1) = (PState.mk 22410073696093958746203710660974239822869214900762867017770706139312511160647284465148139386526866285661879720142910407151660932131012739007544250983338309003770322378854873094326549128157982478666039796326473278258398640309834982536077634643890492801193801509756964696973101173752015880737449076545590649336223865923665276303673786317669046947971138216273255480378811405001590253654876092796189223912897184738233628038573928781055820253232507987665710626184882082846758451696373248033712095561861358628931611138377554354972865096973868721892025921294182697337466775617868474707526637522142808021281976792742788822775 0 173 181 0 0 7) := by
  rw [shuffleP_eq, sArc_w1, sArc_c1, sArc_w2, sArc_c2, sArc_w3]

theorem sArc_drip1 : dripP (PState.mk 32316509077753586139510713445660514514047171580093496865901477602143224540557412340472969236184020377745408638077439397456141948699754273791418869985027499602243785773646750786158629119897527698459159582903277348091197804306308450975276589715725867107713970624879795449544392209196339266751657500327350831040508287958260154813218577961439219904354861863710469807962062565273718118249000713157268968975065967933228547466701214788014332241512106376647074624137742004191950315838314617761433198628553541081051172123900400872144291672783665972383897506351191318954899022066795667312894499469315655285448878639945707849345 0 0 0 0 14 1) = (26, (PState.mk 22410073696093958746203710660974239822869214900762867017770706139312511160647284465148139386526866285661879720142910407151660932131012739007544250983338309003770322378854873094326549128157982478666039796326473278258398640309834982536077634643890492801193801509756964696973101173752015880737449076545590649336223865923665276303673786317669046947971138216273255480378811405001590253654876092796189223912897144958455872578999280271069830972259474763220951775932569627097428994409456376359994860958680759366269207079675579507201410387517476706875311017194979642488538989238855565845252813064973807830741331606405126256375 7 87 106 26 0 7)) := by
  rw [dripP_of_pos (PState.mk 32316509077753586139510713445660514514047171580093496865901477602143224540557412340472969236184020377745408638077439397456141948699754273791418869985027499602243785773646750786158629119897527698459159582903277348091197804306308450975276589715725867107713970624879795449544392209196339266751657500327350831040508287958260154813218577961439219904354861863710469807962062565273718118249000713157268968975065967933228547466701214788014332241512106376647074624137742004191950315838314617761433198628553541081051172123900400872144291672783665972383897506351191318954899022066795667312894499469315655285448878639945707849345 0 0 0 0 14 1) (by decide), sArc_shuffleP]
  decide

theorem sArc_drip8 : (dripNP (PState.mk 32316509077753586139510713445660514514047171580093496865901477602143224540557412340472969236184020377745408638077439397456141948699754273791418869985027499602243785773646750786158629119897527698459159582903277348091197804306308450975276589715725867107713970624879795449544392209196339266751657500327350831040508287958260154813218577961439219904354861863710469807962062565273718118249000713157268968975065967933228547466701214788014332241512106376647074624137742004191950315838314617761433198628553541081051172123900400872144291672783665972383897506351191318954899022066795667312894499469315655285448878639945707849345 0 0 0 0 14 1) 8).1 = [26, 250, 139, 94, 227, 55, 219, 199] := by
  show (dripP (PState.mk 32316509077753586139510713445660514514047171580093496865901477602143224540557412340472969236184020377745408638077439397456141948699754273791418869985027499602243785773646750786158629119897527698459159582903277348091197804306308450975276589715725867107713970624879795449544392209196339266751657500327350831040508287958260154813218577961439219904354861863710469807962062565273718118249000713157268968975065967933228547466701214788014332241512106376647074624137742004191950315838314617761433198628553541081051172123900400872144291672783665972383897506351191318954899022066795667312894499469315655285448878639945707849345 0 0 0 0 14 1)).1 :: (dripNP (dripP (PState.mk 32316509077753586139510713445660514514047171580093496865901477602143224540557412340472969236184020377745408638077439397456141948699754273791418869985027499602243785773646750786158629119897527698459159582903277348091197804306308450975276589715725867107713970624879795449544392209196339266751657500327350831040508287958260154813218577961439219904354861863710469807962062565273718118249000713157268968975065967933228547466701214788014332241512106376647074624137742004191950315838314617761433198628553541081051172123900400872144291672783665972383897506351191318954899022066795667312894499469315655285448878639945707849345 0 0 0 0 14 1)).2 7).1 = [26, 250, 139, 94, 227, 55, 219, 199]
  rw [sArc_drip1]
  decide

theorem hABC_preP : absP (absorb (absorb_stop (absorb initialize_state [65, 66, 67])) [32]) = (PState.mk 32316509077753586139510713445660514514047171580093496865901477602143224540557412340472969236184020377745408638077439397456141948699754273791418869985027499602243785773646750786158629119897527698459159582903277348091197804306308450975276589715725867107713970624879795449576651053772645338545136289030884802666496438866112960264138524588074270145334728584705031500632336438466407921251077879082493382605869947920392023114053642898136156914991573652614474560261523094712123191056615006119647768357762641219037033599445038453085445688945142129668741392519978092770676361121207581015168499992066077145980263692918233138305 0 0 0 0 9 1) := by decide

theorem hABC_w1 : whipP (PState.mk 32316509077753586139510713445660514514047171580093496865901477602143224540557412340472969236184020377745408638077439397456141948699754273791418869985027499602243785773646750786158629119897527698459159582903277348091197804306308450975276589715725867107713970624879795449576651053772645338545136289030884802666496438866112960264138524588074270145334728584705031500632336438466407921251077879082493382605869947920392023114053642898136156914991573652614474560261523094712123191056615006119647768357762641219037033599445038453085445688945142129668741392519978092770676361121207581015168499992066077145980263692918233138305 0 0 0 0 9 1) (2 * N) = (PState.mk 31745730278885121353895823365056113263585341051365333019081574725627420478003321460077061452497434753832984076781407805614524168557756043052922285724815790190657453519053599672900194962951004344829350030676815379492973406108788875429743671325934910031296574051993695655307049985472580847160116184276190009491808588174318477509846890840467651721931452885028301566513551256521147068095483354086613490509955699909483926562303637656716471788497430998718272517720712158191967849866684548263695241300048360364009974005920397683987049695311914127875571950006418729764793253997910649521429645233005113258344940263318360664475 0 107 68 0 9 3) := by
  have h1 : whipLoopP 128 (PState.mk 32316509077753586139510713445660514514047171580093496865901477602143224540557412340472969236184020377745408638077439397456141948699754273791418869985027499602243785773646750786158629119897527698459159582903277348091197804306308450975276589715725867107713970624879795449576651053772645338545136289030884802666496438866112960264138524588074270145334728584705031500632336438466407921251077879082493382605869947920392023114053642898136156914991573652614474560261523094712123191056615006119647768357762641219037033599445038453085445688945142129668741392519978092770676361121207581015168499992066077145980263692918233138305 0 0 0 0 9 1) = (PState.mk 32316507994227516209921326738694292493549230973543121062236441321866292605559558255070578414063264887662903967395907005062790574232976692852762972164675238650390939578525090332038462216044079702651244350609624204771727791650953806227949498195792277030003780059388847102538314460859553461467059087419975599239973254294560679630258683326541247847608279399613743449197598049265293138676666615299381838025298943844546744100928828641582143929147243440112003078228829366918143882407786953056097600147045957015274238975414004979477669834170752556204583943059544197918509906608185399958486166238042239682852054009979701760790 128 219 183 0 9 1) := by decide
  have h2 : whipLoopP 128 (PState.mk 32316507994227516209921326738694292493549230973543121062236441321866292605559558255070578414063264887662903967395907005062790574232976692852762972164675238650390939578525090332038462216044079702651244350609624204771727791650953806227949498195792277030003780059388847102538314460859553461467059087419975599239973254294560679630258683326541247847608279399613743449197598049265293138676666615299381838025298943844546744100928828641582143929147243440112003078228829366918143882407786953056097600147045957015274238975414004979477669834170752556204583943059544197918509906608185399958486166238042239682852054009979701760790 128 219 183 0 9 1) = (PState.mk 2048189659865391695909323369478851194381740581611165019351425220007263024880807345785502127288450621372152564865648838721711720230758950381817324266291998928636405712375820405304565810535596042928174270513767921912551452973911395816952496749064768157938099861040028539394427495741277007088482643190200720651624317022585705720982978448387885239622848897322301187431086991946570172173820865110468938797294689291523055943124142164940701140063597688087797113515102157806860719445909860666436419573417344041902014333079488429035171488470344522824809787094159081704898405265847479822848457181535519519909850410388788805760 0 147 60 0 9 1) := by decide
  have h3 : whipLoopP 128 (PState.mk 2048189659865391695909323369478851194381740581611165019351425220007263024880807345785502127288450621372152564865648838721711720230758950381817324266291998928636405712375820405304565810535596042928174270513767921912551452973911395816952496749064768157938099861040028539394427495741277007088482643190200720651624317022585705720982978448387885239622848897322301187431086991946570172173820865110468938797294689291523055943124142164940701140063597688087797113515102157806860719445909860666436419573417344041902014333079488429035171488470344522824809787094159081704898405265847479822848457181535519519909850410388788805760 0 147 60 0 9 1) = (PState.mk 16313127752248351435419889339762528116076779557451584308466847452218073730130020913959348181626394491438479734802549324624421810840900403110882863611829852595042255259322654481219243742594925499355103109903240567203511831525276113119318784135711108969049030709627410627714720472180720012968352578292923485907342275509553712514197807389753938661163438676194045946764508823275649131353057546037968460387956274261267268584443419656219145537724910319790821016400625607213438760677213696513825636090678200312175650308546920486580947432670114070232442137023196318609808121875501514868974238254771202287623437211519761754620 128 187 65 0 9 1) := by decide
  have h4 : whipLoopP 128 (PState.mk 16313127752248351435419889339762528116076779557451584308466847452218073730130020913959348181626394491438479734802549324624421810840900403110882863611829852595042255259322654481219243742594925499355103109903240567203511831525276113119318784135711108969049030709627410627714720472180720012968352578292923485907342275509553712514197807389753938661163438676194045946764508823275649131353057546037968460387956274261267268584443419656219145537724910319790821016400625607213438760677213696513825636090678200312175650308546920486580947432670114070232442137023196318609808121875501514868974238254771202287623437211519761754620 128 187 65 0 9 1) = (PState.mk 31745730278885121353895823365056113263585341051365333019081574725627420478003321460077061452497434753832984076781407805614524168557756043052922285724815790190657453519053599672900194962951004344829350030676815379492973406108788875429743671325934910031296574051993695655307049985472580847160116184276190009491808588174318477509846890840467651721931452885028301566513551256521147068095483354086613490509955699909483926562303637656716471788497430998718272517720712158191967849866684548263695241300048360364009974005920397683987049695311914127875571950006418729764793253997910649521429645233005113258344940263318360664475 0 107 68 0 9 1) := by decide
  have h : whipLoopP (2 * N) (PState.mk 32316509077753586139510713445660514514047171580093496865901477602143224540557412340472969236184020377745408638077439397456141948699754273791418869985027499602243785773646750786158629119897527698459159582903277348091197804306308450975276589715725867107713970624879795449576651053772645338545136289030884802666496438866112960264138524588074270145334728584705031500632336438466407921251077879082493382605869947920392023114053642898136156914991573652614474560261523094712123191056615006119647768357762641219037033599445038453085445688945142129668741392519978092770676361121207581015168499992066077145980263692918233138305 0 0 0 0 9 1) = (PState.mk 31745730278885121353895823365056113263585341051365333019081574725627420478003321460077061452497434753832984076781407805614524168557756043052922285724815790190657453519053599672900194962951004344829350030676815379492973406108788875429743671325934910031296574051993695655307049985472580847160116184276190009491808588174318477509846890840467651721931452885028301566513551256521147068095483354086613490509955699909483926562303637656716471788497430998718272517720712158191967849866684548263695241300048360364009974005920397683987049695311914127875571950006418729764793253997910649521429645233005113258344940263318360664475 0 107 68 0 9 1) :=
    whipLoopP_chunk 384 128 (whipLoopP_chunk 256 128 (whipLoopP_chunk 128 128 h1 h2) h3) h4
  rw [whipP_eq, h]
  decide

theorem hABC_c1 : crushP (PState.mk 31745730278885121353895823365056113263585341051365333019081574725627420478003321460077061452497434753832984076781407805614524168557756043052922285724815790190657453519053599672900194962951004344829350030676815379492973406108788875429743671325934910031296574051993695655307049985472580847160116184276190009491808588174318477509846890840467651721931452885028301566513551256521147068095483354086613490509955699909483926562303637656716471788497430998718272517720712158191967849866684548263695241300048360364009974005920397683987049695311914127875571950006418729764793253997910649521429645233005113258344940263318360664475 0 107 68 0 9 3) = (PState.mk 31769567544275741698537911642671228673882778147715476577184199921639715086600169912110451685515437864529199517719023428548512654320684188676152759948291789495090255330458645625795978646942620611899589289401003060707915921591021039528709585630369925629014772917299730847226302270174481030190139351893922704868014560770798533859461949943769410630449794729275345407947694904974505404133167691188743836938898772382978237805904893844943868932262050194959345028153485268860407509899824712298922972457416503012780998781132454017704274002338348136216970938010017050576535637404257975201026318507790455433417644631610133346715 0 107 68 0 9 3) := by decide

theorem hABC_w2 : whipP (PState.mk 31769567544275741698537911642671228673882778147715476577184199921639715086600169912110451685515437864529199517719023428548512654320684188676152759948291789495090255330458645625795978646942620611899589289401003060707915921591021039528709585630369925629014772917299730847226302270174481030190139351893922704868014560770798533859461949943769410630449794729275345407947694904974505404133167691188743836938898772382978237805904893844943868932262050194959345028153485268860407509899824712298922972457416503012780998781132454017704274002338348136216970938010017050576535637404257975201026318507790455433417644631610133346715 0 107 68 0 9 3) (2 * N) = (PState.mk 1188894103779895824315000094333640469252701715672659675383544110746374399776727377680525617615452140705600249678099453244416862355749678480106933702867108294473996117144673901071091936864689276570308214277262814983236026865908345364808793186541589514543386082803782706337963283428587088317126416508233686746420037014974247625785098980824608465260469682967736503439927520247877886511059297512458327896497864325342004155191342018508455319520767536498534002365335514625470986191776048505803743708193024136581257518390954221483814414164240681238695309073156060275134151029691509579307642122580134922857664775221612402380 0 160 86 0 9 5) := by
  have h1 : whipLoopP 128 (PState.mk 31769567544275741698537911642671228673882778147715476577184199921639715086600169912110451685515437864529199517719023428548512654320684188676152759948291789495090255330458645625795978646942620611899589289401003060707915921591021039528709585630369925629014772917299730847226302270174481030190139351893922704868014560770798533859461949943769410630449794729275345407947694904974505404133167691188743836938898772382978237805904893844943868932262050194959345028153485268860407509899824712298922972457416503012780998781132454017704274002338348136216970938010017050576535637404257975201026318507790455433417644631610133346715 0 107 68 0 9 3) = (PState.mk 27603597055449383550062626128520011470381226280876176026250321713613033205059161538013814257938493961922538734695451538123221451002572520324481752583527355333992287343368895339549942594045746015389920977911218256912120202429290313211073051303922679797075592427420669306488119350333319541594185321276418869419154275354423748431926972924264272944895512688695344308113229664432253932723783667389219699749455420782713178493508399000450027018298518650822851096518231258657947405524926326244001646714663822625448678199422579289119025172482129356153798023416831808047242730561226603250563983210441467632594434194532169447835 128 179 21 0 9 3) := by decide
  have h2 : whipLoopP 128 (PState.mk 27603597055449383550062626128520011470381226280876176026250321713613033205059161538013814257938493961922538734695451538123221451002572520324481752583527355333992287343368895339549942594045746015389920977911218256912120202429290313211073051303922679797075592427420669306488119350333319541594185321276418869419154275354423748431926972924264272944895512688695344308113229664432253932723783667389219699749455420782713178493508399000450027018298518650822851096518231258657947405524926326244001646714663822625448678199422579289119025172482129356153798023416831808047242730561226603250563983210441467632594434194532169447835 128 179 21 0 9 3) = (PState.mk 27618011137042177777674960955531344883400562939753198723733799404627169333314860723181932420143072231160511937249170110040222749081695311087072903530671239687797568173814893909238197612861054696833280507851785352664520948711187913062217429854703369660948392976337277489102205725137087095303690487160515475668911762139464043952089187418505596943622728425159605256958060237189751842438419548069692509788898550358211935095320973764906407438791316488527159078262922001074771902010799552642952904368720344950058422717751030407721833607983404942734416864388027455422867022992901884797979911724580615951986614358822015767810 0 29 72 0 9 3) := by decide
  have h3 : whipLoopP 128 (PState.mk 27618011137042177777674960955531344883400562939753198723733799404627169333314860723181932420143072231160511937249170110040222749081695311087072903530671239687797568173814893909238197612861054696833280507851785352664520948711187913062217429854703369660948392976337277489102205725137087095303690487160515475668911762139464043952089187418505596943622728425159605256958060237189751842438419548069692509788898550358211935095320973764906407438791316488527159078262922001074771902010799552642952904368720344950058422717751030407721833607983404942734416864388027455422867022992901884797979911724580615951986614358822015767810 0 29 72 0 9 3) = (PState.mk 1234269333851686433335423796056223722487526689829228416168044502640026865685708233266757891438618403463675814518986864669058141221005144550462010748271976251618447885256290285839456774694467051639439623168927790987354126806170251742345535020530803115926920391785120297107100776957914221773524528806841153915871483687972012528913248089844076299886663600989880690708840486695313428387517743186004643369216170690333287076540700110742012127365824159850051301117806793887240340580388238431727465932578203645604477011572210930127728949403000458668803999912248648068901796795305781305397304951526611276385977189385177961730 128 185 83 0 9 3) := by decide
  have h4 : whipLoopP 128 (PState.mk 1234269333851686433335423796056223722487526689829228416168044502640026865685708233266757891438618403463675814518986864669058141221005144550462010748271976251618447885256290285839456774694467051639439623168927790987354126806170251742345535020530803115926920391785120297107100776957914221773524528806841153915871483687972012528913248089844076299886663600989880690708840486695313428387517743186004643369216170690333287076540700110742012127365824159850051301117806793887240340580388238431727465932578203645604477011572210930127728949403000458668803999912248648068901796795305781305397304951526611276385977189385177961730 128 185 83 0 9 3) = (PState.mk 1188894103779895824315000094333640469252701715672659675383544110746374399776727377680525617615452140705600249678099453244416862355749678480106933702867108294473996117144673901071091936864689276570308214277262814983236026865908345364808793186541589514543386082803782706337963283428587088317126416508233686746420037014974247625785098980824608465260469682967736503439927520247877886511059297512458327896497864325342004155191342018508455319520767536498534002365335514625470986191776048505803743708193024136581257518390954221483814414164240681238695309073156060275134151029691509579307642122580134922857664775221612402380 0 160 86 0 9 3) := by decide
  have h : whipLoopP (2 * N) (PState.mk 31769567544275741698537911642671228673882778147715476577184199921639715086600169912110451685515437864529199517719023428548512654320684188676152759948291789495090255330458645625795978646942620611899589289401003060707915921591021039528709585630369925629014772917299730847226302270174481030190139351893922704868014560770798533859461949943769410630449794729275345407947694904974505404133167691188743836938898772382978237805904893844943868932262050194959345028153485268860407509899824712298922972457416503012780998781132454017704274002338348136216970938010017050576535637404257975201026318507790455433417644631610133346715 0 107 68 0 9 3) = (PState.mk 1188894103779895824315000094333640469252701715672659675383544110746374399776727377680525617615452140705600249678099453244416862355749678480106933702867108294473996117144673901071091936864689276570308214277262814983236026865908345364808793186541589514543386082803782706337963283428587088317126416508233686746420037014974247625785098980824608465260469682967736503439927520247877886511059297512458327896497864325342004155191342018508455319520767536498534002365335514625470986191776048505803743708193024136581257518390954221483814414164240681238695309073156060275134151029691509579307642122580134922857664775221612402380 0 160 86 0 9 3) :=
    whipLoopP_chunk 384 128 (whipLoopP_chunk 256 128 (whipLoopP_chunk 128 128 h1 h2) h3) h4
  rw [whipP_eq, h]
  decide

theorem hABC_c2 : crushP (PState.mk 1188894103779895824315000094333640469252701715672659675383544110746374399776727377680525617615452140705600249678099453244416862355749678480106933702867108294473996117144673901071091936864689276570308214277262814983236026865908345364808793186541589514543386082803782706337963283428587088317126416508233686746420037014974247625785098980824608465260469682967736503439927520247877886511059297512458327896497864325342004155191342018508455319520767536498534002365335514625470986191776048505803743708193024136581257518390954221483814414164240681238695309073156060275134151029691509579307642122580134922857664775221612402380 0 160 86 0 9 5) = (PState.mk 25805363572164312448372152771534088357510197711234168116284829405126012903567565073759334715293610635390513826796004799383020068533843608875655748537677638169991853036983156573351650218791180232022301011742054709872235302327144541428815963561398813937128855605569157408169139677306336675445922824295187890192353695556692155208736168537459080805986846400179812895914200303607895564946040310491477780024648995238591385206880597323546855206186553136936453329114559837758136031833696235966420524058402923404967170951656260555916284905313115884113383673729365517359823114464669818687276672554063824688944801416806642505225 0 160 86 0 9 5) := by decide

theorem hABC_w3 : whipP (PState.mk 25805363572164312448372152771534088357510197711234168116284829405126012903567565073759334715293610635390513826796004799383020068533843608875655748537677638169991853036983156573351650218791180232022301011742054709872235302327144541428815963561398813937128855605569157408169139677306336675445922824295187890192353695556692155208736168537459080805986846400179812895914200303607895564946040310491477780024648995238591385206880597323546855206186553136936453329114559837758136031833696235966420524058402923404967170951656260555916284905313115884113383673729365517359823114464669818687276672554063824688944801416806642505225 0 160 86 0 9 5) (2 * N) = (PState.mk 29042548756959478046086219426323631726375489841022087577393913211939348835118018529504461334370130178464406610192252648884937367453355659509135740979906931112481646077208967406505601891427139505128621407081133695416568079363859527350236507585164649738288806520170282605549787041036157709298020914658079141007453085582590648062982254562025037910153066945645105277154604595418135564590670947678116159340843377284475678686304364013927008229915097543368060992655935155100506809361191257244455889076705127283692974154736011681594990375770296956420954469573061504763113696225225301706109528558642247339071246397126640318380 0 51 10 0 9 7) := by
  have h1 : whipLoopP 128 (PState.mk 25805363572164312448372152771534088357510197711234168116284829405126012903567565073759334715293610635390513826796004799383020068533843608875655748537677638169991853036983156573351650218791180232022301011742054709872235302327144541428815963561398813937128855605569157408169139677306336675445922824295187890192353695556692155208736168537459080805986846400179812895914200303607895564946040310491477780024648995238591385206880597323546855206186553136936453329114559837758136031833696235966420524058402923404967170951656260555916284905313115884113383673729365517359823114464669818687276672554063824688944801416806642505225 0 160 86 0 9 5) = (PState.mk 2607595160340507308120070163315786542929181037853665963099243976798479843701518777159247125164951850085731299757314769203579928778521086810090143891464383694213309477132451269602101406171136779116626974399358744015861425495001380599996974497066534015619588699087472939580825756434844083368879035231980234855553034256847973841123264947937349819209285833243882755440962735975269452694466160063875115678659995274345879588009130304424635615362251300729933665633964053670064385410353570516903687660635088352264557072694295064417746350108891870709882541900398261143681261782953501207149718141351228072863775558843281593865 128 85 118 0 9 5) := by decide
  have h2 : whipLoopP 128 (PState.mk 2607595160340507308120070163315786542929181037853665963099243976798479843701518777159247125164951850085731299757314769203579928778521086810090143891464383694213309477132451269602101406171136779116626974399358744015861425495001380599996974497066534015619588699087472939580825756434844083368879035231980234855553034256847973841123264947937349819209285833243882755440962735975269452694466160063875115678659995274345879588009130304424635615362251300729933665633964053670064385410353570516903687660635088352264557072694295064417746350108891870709882541900398261143681261782953501207149718141351228072863775558843281593865 128 85 118 0 9 5) = (PState.mk 2607415828483559621400427922924623633892519454840981709716037726303308832633473252793068350142597095655234511732877075031971871661577854878931111789743784356231903009324054972429442348011848949690998593043429445920606598232486824021436247232727572783275657564467524554272400282679160087932002394089794470336819407487416908894097011643421057770004483860193861595954237390641722972535115135579088800755341436074545264977520115068722362810686855517330060214372531451392273863855517767176836101943838755525710602996570395534247745615586912878669368030114462929795248934158453140407991123037022437869961609509779640073130 0 176 110 0 9 5) := by decide
  have h3 : whipLoopP 128 (PState.mk 2607415828483559621400427922924623633892519454840981709716037726303308832633473252793068350142597095655234511732877075031971871661577854878931111789743784356231903009324054972429442348011848949690998593043429445920606598232486824021436247232727572783275657564467524554272400282679160087932002394089794470336819407487416908894097011643421057770004483860193861595954237390641722972535115135579088800755341436074545264977520115068722362810686855517330060214372531451392273863855517767176836101943838755525710602996570395534247745615586912878669368030114462929795248934158453140407991123037022437869961609509779640073130 0 176 110 0 9 5) = (PState.mk 29108090622153261401783122241542361478500475966516035952253033229358321211324216526780364364376987366054461040927851453111300343587185008166816656447781711826961604346823779069025330013647700264676478314440921950862146174541761976146176564098016989242401204855685286235084409086866770127518757887922262564733627177032045384003724591989465870137262865643346773606465469072012111506768100493741279201457710836283086727015584268675788816680548115634345676628704069429375274208961175189911196469393792161689374850054072172989463838809063401327683280029528934648255583991348104108813335590946988716693383812325312227089010 128 245 139 0 9 5) := by decide
  have h4 : whipLoopP 128 (PState.mk 29108090622153261401783122241542361478500475966516035952253033229358321211324216526780364364376987366054461040927851453111300343587185008166816656447781711826961604346823779069025330013647700264676478314440921950862146174541761976146176564098016989242401204855685286235084409086866770127518757887922262564733627177032045384003724591989465870137262865643346773606465469072012111506768100493741279201457710836283086727015584268675788816680548115634345676628704069429375274208961175189911196469393792161689374850054072172989463838809063401327683280029528934648255583991348104108813335590946988716693383812325312227089010 128 245 139 0 9 5) = (PState.mk 29042548756959478046086219426323631726375489841022087577393913211939348835118018529504461334370130178464406610192252648884937367453355659509135740979906931112481646077208967406505601891427139505128621407081133695416568079363859527350236507585164649738288806520170282605549787041036157709298020914658079141007453085582590648062982254562025037910153066945645105277154604595418135564590670947678116159340843377284475678686304364013927008229915097543368060992655935155100506809361191257244455889076705127283692974154736011681594990375770296956420954469573061504763113696225225301706109528558642247339071246397126640318380 0 51 10 0 9 5) := by decide
  have h : whipLoopP (2 * N) (PState.mk 25805363572164312448372152771534088357510197711234168116284829405126012903567565073759334715293610635390513826796004799383020068533843608875655748537677638169991853036983156573351650218791180232022301011742054709872235302327144541428815963561398813937128855605569157408169139677306336675445922824295187890192353695556692155208736168537459080805986846400179812895914200303607895564946040310491477780024648995238591385206880597323546855206186553136936453329114559837758136031833696235966420524058402923404967170951656260555916284905313115884113383673729365517359823114464669818687276672554063824688944801416806642505225 0 160 86 0 9 5) = (PState.mk 29042548756959478046086219426323631726375489841022087577393913211939348835118018529504461334370130178464406610192252648884937367453355659509135740979906931112481646077208967406505601891427139505128621407081133695416568079363859527350236507585164649738288806520170282605549787041036157709298020914658079141007453085582590648062982254562025037910153066945645105277154604595418135564590670947678116159340843377284475678686304364013927008229915097543368060992655935155100506809361191257244455889076705127283692974154736011681594990375770296956420954469573061504763113696225225301706109528558642247339071246397126640318380 0 51 10 0 9 5) :=
    whipLoopP_chunk 384 128 (whipLoopP_chunk 256 128 (whipLoopP_chunk 128 128 h1 h2) h3) h4
  rw [whipP_eq, h]
  decide

theorem hABC_shuffleP : shuffleP (PState.mk 32316509077753586139510713445660514514047171580093496865901477602143224540557412340472969236184020377745408638077439397456141948699754273791418869985027499602243785773646750786158629119897527698459159582903277348091197804306308450975276589715725867107713970624879795449576651053772645338545136289030884802666496438866112960264138524588074270145334728584705031500632336438466407921251077879082493382605869947920392023114053642898136156914991573652614474560261523094712123191056615006119647768357762641219037033599445038453085445688945142129668741392519978092770676361121207581015168499992066077145980263692918233138305 0 0 0 0 9 1) = (PState.mk 29042548756959478046086219426323631726375489841022087577393913211939348835118018529504461334370130178464406610192252648884937367453355659509135740979906931112481646077208967406505601891427139505128621407081133695416568079363859527350236507585164649738288806520170282605549787041036157709298020914658079141007453085582590648062982254562025037910153066945645105277154604595418135564590670947678116159340843377284475678686304364013927008229915097543368060992655935155100506809361191257244455889076705127283692974154736011681594990375770296956420954469573061504763113696225225301706109528558642247339071246397126640318380 0 51 10 0 0 7) := by
  rw [shuffleP_eq, hABC_w1, hABC_c1, hABC_w2, hABC_c2, hABC_w3]

theorem hABC_sq : ((squeezeP (PState.mk 32316509077753586139510713445660514514047171580093496865901477602143224540557412340472969236184020377745408638077439397456141948699754273791418869985027499602243785773646750786158629119897527698459159582903277348091197804306308450975276589715725867107713970624879795449576651053772645338545136289030884802666496438866112960264138524588074270145334728584705031500632336438466407921251077879082493382605869947920392023114053642898136156914991573652614474560261523094712123191056615006119647768357762641219037033599445038453085445688945142129668741392519978092770676361121207581015168499992066077145980263692918233138305 0 0 0 0 9 1) 32).1).take 8 = [2, 143, 162, 180, 139, 147, 74, 24] := by
  rw [squeezeP_of_pos (PState.mk 32316509077753586139510713445660514514047171580093496865901477602143224540557412340472969236184020377745408638077439397456141948699754273791418869985027499602243785773646750786158629119897527698459159582903277348091197804306308450975276589715725867107713970624879795449576651053772645338545136289030884802666496438866112960264138524588074270145334728584705031500632336438466407921251077879082493382605869947920392023114053642898136156914991573652614474560261523094712123191056615006119647768357762641219037033599445038453085445688945142129668741392519978092770676361121207581015168499992066077145980263692918233138305 0 0 0 0 9 1) 32 (by decide), hABC_shuffleP]
  decide

theorem hSpam_preP : absP (absorb (absorb_stop (absorb initialize_state [115, 112, 97, 109])) [32]) = (PState.mk 32316509077753586139510713445660514514047171580093496865901477602143224540557412340472969236184020377745408638077439397456141948699754273791418869985027499602243785773646750786158629119897527698459159582903277348091197804306308450975276589715725867107713970624879795449576650561541740548716885058158760672782743165803189899148730323767810639984750664758846570815839113784682876263719386226197778926310656142512979641748532553446446787573054553848505468182937999346000619914237505868427921159454549951021435663102585532293320367833415254012501838377510150320108486474354930446080988365595172321145028579232003060172675 0 0 0 0 11 1) := by decide

theorem hSpam_w1 : whipP (PState.mk 32316509077753586139510713445660514514047171580093496865901477602143224540557412340472969236184020377745408638077439397456141948699754273791418869985027499602243785773646750786158629119897527698459159582903277348091197804306308450975276589715725867107713970624879795449576650561541740548716885058158760672782743165803189899148730323767810639984750664758846570815839113784682876263719386226197778926310656142512979641748532553446446787573054553848505468182937999346000619914237505868427921159454549951021435663102585532293320367833415254012501838377510150320108486474354930446080988365595172321145028579232003060172675 0 0 0 0 11 1) (2 * N) = (PState.mk 27857138912141237687603951538311028467329731141701153263073785030725143138392669348040284706647040983060517026727938492042350526713419701452729699537887252229518444806787573557281413161065932749806627763599914837435316899663335378223412467472048051889924786318983832050364462215735947292057478290108117793758914892999919720629441981565584481079789708808998716897969815640475305598503638367786436884929176110557209938146626112107571745086356514050068898756028235810412683106143126778970663878285472346331852483884759560434970080871401846965409745833138097477489260589087424529822797093129104994346274718499241604751430 0 62 68 0 11 3) := by
  have h1 : whipLoopP 128 (PState.mk 32316509077753586139510713445660514514047171580093496865901477602143224540557412340472969236184020377745408638077439397456141948699754273791418869985027499602243785773646750786158629119897527698459159582903277348091197804306308450975276589715725867107713970624879795449576650561541740548716885058158760672782743165803189899148730323767810639984750664758846570815839113784682876263719386226197778926310656142512979641748532553446446787573054553848505468182937999346000619914237505868427921159454549951021435663102585532293320367833415254012501838377510150320108486474354930446080988365595172321145028579232003060172675 0 0 0 0 11 1) = (PState.mk 16942557382699209189860056110553388052294203896175665941757712930689939866191095368948453849493844129479499770341994997811546024640316329967587643064438731607000645476714795499472736579550649978377320629765432158485303336895446290502228069277157805022523890937586694382681511139182892303359991203841243419818596655196102434147352439963117148478047674570682166727048203647105806185577258011642878608108759742639363354749190285397500237425981658335935857933866395120398839874307780748333765632813891018521731664358016378516821491218335720355285647737215953099432721237498005064460774606217293169298942222396996714496350 128 250 212 0 11 1) := by decide
  have h2 : whipLoopP 128 (PState.mk 16942557382699209189860056110553388052294203896175665941757712930689939866191095368948453849493844129479499770341994997811546024640316329967587643064438731607000645476714795499472736579550649978377320629765432158485303336895446290502228069277157805022523890937586694382681511139182892303359991203841243419818596655196102434147352439963117148478047674570682166727048203647105806185577258011642878608108759742639363354749190285397500237425981658335935857933866395120398839874307780748333765632813891018521731664358016378516821491218335720355285647737215953099432721237498005064460774606217293169298942222396996714496350 128 250 212 0 11 1) = (PState.mk 12194519070807420075109707195180955081993455143742177409441347920626905237782485800250229980170357994812150886499960083203058973966420731068896785479618176338836727904045470011109237397128411947004975071353061582733370819049810132219142779436662146129256523756848282575406233463954731814769972475402826174905943305568124230387420074383605617433573104181102264116372454458449196432745275402848599885588211871388573822677130041413462976136398029001686110851156170628017352605395771762195656960830944044519849574786542515727642963960359308632978962577757388788864135799663975750213332789141214127920729816517130077655 0 108 129 0 11 1) := by decide
  have h3 : whipLoopP 128 (PState.mk 12194519070807420075109707195180955081993455143742177409441347920626905237782485800250229980170357994812150886499960083203058973966420731068896785479618176338836727904045470011109237397128411947004975071353061582733370819049810132219142779436662146129256523756848282575406233463954731814769972475402826174905943305568124230387420074383605617433573104181102264116372454458449196432745275402848599885588211871388573822677130041413462976136398029001686110851156170628017352605395771762195656960830944044519849574786542515727642963960359308632978962577757388788864135799663975750213332789141214127920729816517130077655 0 108 129 0 11 1) = (PState.mk 12257310103570747631018586168022680689477054886265971834745257343814269800259908823225200296838097537535969151582330112635734747911904789745591475246795558970575007238522126038239916624250397379909340910167524613768830530136035007610027820933781038840201833087194616922345809398168832150358213050980270856787456600641750362152846265901281905779658438542289146856825023350720149012130109710319355719956865459712557561493627192353170122112124451977480511247003808323271392851386338887509246188621320772320973036491107780646672751714281421044309532751502835977751667438430258766511133068724023150132692253209336010361815 128 18 229 0 11 1) := by decide
  have h4 : whipLoopP 128 (PState.mk 12257310103570747631018586168022680689477054886265971834745257343814269800259908823225200296838097537535969151582330112635734747911904789745591475246795558970575007238522126038239916624250397379909340910167524613768830530136035007610027820933781038840201833087194616922345809398168832150358213050980270856787456600641750362152846265901281905779658438542289146856825023350720149012130109710319355719956865459712557561493627192353170122112124451977480511247003808323271392851386338887509246188621320772320973036491107780646672751714281421044309532751502835977751667438430258766511133068724023150132692253209336010361815 128 18 229 0 11 1) = (PState.mk 27857138912141237687603951538311028467329731141701153263073785030725143138392669348040284706647040983060517026727938492042350526713419701452729699537887252229518444806787573557281413161065932749806627763599914837435316899663335378223412467472048051889924786318983832050364462215735947292057478290108117793758914892999919720629441981565584481079789708808998716897969815640475305598503638367786436884929176110557209938146626112107571745086356514050068898756028235810412683106143126778970663878285472346331852483884759560434970080871401846965409745833138097477489260589087424529822797093129104994346274718499241604751430 0 62 68 0 11 1) := by decide
  have h : whipLoopP (2 * N) (PState.mk 32316509077753586139510713445660514514047171580093496865901477602143224540557412340472969236184020377745408638077439397456141948699754273791418869985027499602243785773646750786158629119897527698459159582903277348091197804306308450975276589715725867107713970624879795449576650561541740548716885058158760672782743165803189899148730323767810639984750664758846570815839113784682876263719386226197778926310656142512979641748532553446446787573054553848505468182937999346000619914237505868427921159454549951021435663102585532293320367833415254012501838377510150320108486474354930446080988365595172321145028579232003060172675 0 0 0 0 11 1) = (PState.mk 27857138912141237687603951538311028467329731141701153263073785030725143138392669348040284706647040983060517026727938492042350526713419701452729699537887252229518444806787573557281413161065932749806627763599914837435316899663335378223412467472048051889924786318983832050364462215735947292057478290108117793758914892999919720629441981565584481079789708808998716897969815640475305598503638367786436884929176110557209938146626112107571745086356514050068898756028235810412683106143126778970663878285472346331852483884759560434970080871401846965409745833138097477489260589087424529822797093129104994346274718499241604751430 0 62 68 0 11 1) :=
    whipLoopP_chunk 384 128 (whipLoopP_chunk 256 128 (whipLoopP_chunk 128 128 h1 h2) h3) h4
  rw [whipP_eq, h]
  decide

theorem hSpam_c1 : crushP (PState.mk 27857138912141237687603951538311028467329731141701153263073785030725143138392669348040284706647040983060517026727938492042350526713419701452729699537887252229518444806787573557281413161065932749806627763599914837435316899663335378223412467472048051889924786318983832050364462215735947292057478290108117793758914892999919720629441981565584481079789708808998716897969815640475305598503638367786436884929176110557209938146626112107571745086356514050068898756028235810412683106143126778970663878285472346331852483884759560434970080871401846965409745833138097477489260589087424529822797093129104994346274718499241604751430 0 62 68 0 11 3) = (PState.mk 27857138916367621914936490495303834841300806256140408622933150711354310982875330629714465072916412482344813692443567779542202557419124259595177487648497109101258765615126687068650815936704011064887847920268099713569506755958774636479927481941947270689481262111840081201231889223781111416611552834800180578933544259615065658635032020791837317960431561101729385581060068716407332377801907695416208490589760452185008770975514061878900504818232310115505194090421844573058401041487003258055402824695085407865710659922517554391614365079349536524016903929089133610722904807664678499917658620956200810790065495690634139607110 0 62 68 0 11 3) := by decide

theorem hSpam_w2 : whipP (PState.mk 27857138916367621914936490495303834841300806256140408622933150711354310982875330629714465072916412482344813692443567779542202557419124259595177487648497109101258765615126687068650815936704011064887847920268099713569506755958774636479927481941947270689481262111840081201231889223781111416611552834800180578933544259615065658635032020791837317960431561101729385581060068716407332377801907695416208490589760452185008770975514061878900504818232310115505194090421844573058401041487003258055402824695085407865710659922517554391614365079349536524016903929089133610722904807664678499917658620956200810790065495690634139607110 0 62 68 0 11 3) (2 * N) = (PState.mk 6854761482788331414765298100588332182454274319288273932489139497788585191273117161237213041673979966380464970639005391295940084408910542837093769621411903663131626940212128598054906144339322536745111772168118099915723372530867391316311177289037415128353445462861996909576835979074547396266866034468287441245579238594506993575462266583150853631462267293995573525972510156129839231455557975754989217144541424595811332619209075382327120099093550870475127906161436649457068574190114357083606605050818420060522528221311000136984231924961823035631296231806651932662094965600877824101649314404497425520243607149110579984120 0 111 91 0 11 5) := by
  have h1 : whipLoopP 128 (PState.mk 27857138916367621914936490495303834841300806256140408622933150711354310982875330629714465072916412482344813692443567779542202557419124259595177487648497109101258765615126687068650815936704011064887847920268099713569506755958774636479927481941947270689481262111840081201231889223781111416611552834800180578933544259615065658635032020791837317960431561101729385581060068716407332377801907695416208490589760452185008770975514061878900504818232310115505194090421844573058401041487003258055402824695085407865710659922517554391614365079349536524016903929089133610722904807664678499917658620956200810790065495690634139607110 0 62 68 0 11 3) = (PState.mk 2945659624693086855882921332480037728093608832449773868545437801421455400764266741227877493017350525646003996378035119069283215748883759618824246012569907525980410888612724849649248864190138570596075163000078004514663462448263020699330879082004410486437156241855597073650126436903079235677481451838619790090582111089993048396183062494183856788266019873068565046042081769600170923462102531558056170780026995169242856049352774615984867102577512861946234627118430991097051091047884187428262406964795071054007586216070704972496540358545577329425309041782883091992033622536974860181250289618426213025186529795520326080070 128 56 130 0 11 3) := by decide
  have h2 : whipLoopP 128 (PState.mk 2945659624693086855882921332480037728093608832449773868545437801421455400764266741227877493017350525646003996378035119069283215748883759618824246012569907525980410888612724849649248864190138570596075163000078004514663462448263020699330879082004410486437156241855597073650126436903079235677481451838619790090582111089993048396183062494183856788266019873068565046042081769600170923462102531558056170780026995169242856049352774615984867102577512861946234627118430991097051091047884187428262406964795071054007586216070704972496540358545577329425309041782883091992033622536974860181250289618426213025186529795520326080070 128 56 130 0 11 3) = (PState.mk 17161677765175299347469302745949761572149628104627362589525788611233105298147731543917267750591833324669696343430908992151247921655261218764057013803319463851717073400303864814811543810892343544592788538917457320207475677134393221935198826605055809110160437370054531202785014479693081818815191276730139367965969935558258401337470883178488507194127370994725617350039221047925722281297362790799937379237559545758742246532463571112954829947988893558241056666297257583293979490716052384768334571823771979600725940688789548965868448567762381930525818222170699945996700664564709491764972801992447620708685942387616275565060 0 39 104 0 11 3) := by decide
  have h3 : whipLoopP 128 (PState.mk 17161677765175299347469302745949761572149628104627362589525788611233105298147731543917267750591833324669696343430908992151247921655261218764057013803319463851717073400303864814811543810892343544592788538917457320207475677134393221935198826605055809110160437370054531202785014479693081818815191276730139367965969935558258401337470883178488507194127370994725617350039221047925722281297362790799937379237559545758742246532463571112954829947988893558241056666297257583293979490716052384768334571823771979600725940688789548965868448567762381930525818222170699945996700664564709491764972801992447620708685942387616275565060 0 39 104 0 11 3) = (PState.mk 6936303231138521837587399548809298047493287624980500612357926175770948986700149594560721440036048697926427153768588965399655124633821713792905731811675334675288455741530285350138749033611760961916127501914842227355540506034541416760592279413357793677230298557185082433242637769569850380785144674158209094375776083330510153090122609321209849582337215283383393648593946846946859650885143834705421856928050543443324191088010078015636880773691674508638118207153981761485122451130543925223614931300633519820141244682826141000492755588107591974938330240003736601135980701845116946751917730675084191174103178465573460563460 128 57 248 0 11 3) := by decide
  have h4 : whipLoopP 128 (PState.mk 6936303231138521837587399548809298047493287624980500612357926175770948986700149594560721440036048697926427153768588965399655124633821713792905731811675334675288455741530285350138749033611760961916127501914842227355540506034541416760592279413357793677230298557185082433242637769569850380785144674158209094375776083330510153090122609321209849582337215283383393648593946846946859650885143834705421856928050543443324191088010078015636880773691674508638118207153981761485122451130543925223614931300633519820141244682826141000492755588107591974938330240003736601135980701845116946751917730675084191174103178465573460563460 128 57 248 0 11 3) = (PState.mk 6854761482788331414765298100588332182454274319288273932489139497788585191273117161237213041673979966380464970639005391295940084408910542837093769621411903663131626940212128598054906144339322536745111772168118099915723372530867391316311177289037415128353445462861996909576835979074547396266866034468287441245579238594506993575462266583150853631462267293995573525972510156129839231455557975754989217144541424595811332619209075382327120099093550870475127906161436649457068574190114357083606605050818420060522528221311000136984231924961823035631296231806651932662094965600877824101649314404497425520243607149110579984120 0 111 91 0 11 3) := by decide
  have h : whipLoopP (2 * N) (PState.mk 27857138916367621914936490495303834841300806256140408622933150711354310982875330629714465072916412482344813692443567779542202557419124259595177487648497109101258765615126687068650815936704011064887847920268099713569506755958774636479927481941947270689481262111840081201231889223781111416611552834800180578933544259615065658635032020791837317960431561101729385581060068716407332377801907695416208490589760452185008770975514061878900504818232310115505194090421844573058401041487003258055402824695085407865710659922517554391614365079349536524016903929089133610722904807664678499917658620956200810790065495690634139607110 0 62 68 0 11 3) = (PState.mk 6854761482788331414765298100588332182454274319288273932489139497788585191273117161237213041673979966380464970639005391295940084408910542837093769621411903663131626940212128598054906144339322536745111772168118099915723372530867391316311177289037415128353445462861996909576835979074547396266866034468287441245579238594506993575462266583150853631462267293995573525972510156129839231455557975754989217144541424595811332619209075382327120099093550870475127906161436649457068574190114357083606605050818420060522528221311000136984231924961823035631296231806651932662094965600877824101649314404497425520243607149110579984120 0 111 91 0 11 3) :=
    whipLoopP_chunk 384 128 (whipLoopP_chunk 256 128 (whipLoopP_chunk 128 128 h1 h2) h3) h4
  rw [whipP_eq, h]
  decide

theorem hSpam_c2 : crushP (PState.mk 6854761482788331414765298100588332182454274319288273932489139497788585191273117161237213041673979966380464970639005391295940084408910542837093769621411903663131626940212128598054906144339322536745111772168118099915723372530867391316311177289037415128353445462861996909576835979074547396266866034468287441245579238594506993575462266583150853631462267293995573525972510156129839231455557975754989217144541424595811332619209075382327120099093550870475127906161436649457068574190114357083606605050818420060522528221311000136984231924961823035631296231806651932662094965600877824101649314404497425520243607149110579984120 0 111 91 0 11 5) = (PState.mk 31365703663258534074850340109214869894978684074650602791749642315422712218900887399159392896008226133347116773769494899875803385172335894007516803106731771867961359132942280910208754695307342844247646360722714152784161122352330179958869503230486369113069815142256375057799118521011676573805599726128067755180562266534344301787554792815645537069674003594721114437224170182426991476668555347623300044640582351492614308020965295948706786797496159326522050960863549490478948978911397882967810345837870012463117687383429257664126063507957493367499978990549566698552377080110229336675560052083302184605409614158969872075830 0 111 91 0 11 5) := by decide

theorem hSpam_w3 : whipP (PState.mk 31365703663258534074850340109214869894978684074650602791749642315422712218900887399159392896008226133347116773769494899875803385172335894007516803106731771867961359132942280910208754695307342844247646360722714152784161122352330179958869503230486369113069815142256375057799118521011676573805599726128067755180562266534344301787554792815645537069674003594721114437224170182426991476668555347623300044640582351492614308020965295948706786797496159326522050960863549490478948978911397882967810345837870012463117687383429257664126063507957493367499978990549566698552377080110229336675560052083302184605409614158969872075830 0 111 91 0 11 5) (2 * N) = (PState.mk 11485835086356819460377573393363958606238182042987785414967082535048291407705133363686233596178733440405426419430022469576557028238383007902404609375341087636771294025948468470120554922999553024322465690865726872572116242901286264550935899756639993501063916692548152285684121051766425089681399106318702080093534555132874191188977022163076416958895421450300114285310582679736184733122790971868563629454311579292812820381363700423647493802296073695152802561800551593904337478626950410618965993562113731610217018505965757679930233691100919954169291434678329931032690328411223832090547543509062121831634222221637413543545 0 193 177 0 11 7) := by
  have h1 : whipLoopP 128 (PState.mk 31365703663258534074850340109214869894978684074650602791749642315422712218900887399159392896008226133347116773769494899875803385172335894007516803106731771867961359132942280910208754695307342844247646360722714152784161122352330179958869503230486369113069815142256375057799118521011676573805599726128067755180562266534344301787554792815645537069674003594721114437224170182426991476668555347623300044640582351492614308020965295948706786797496159326522050960863549490478948978911397882967810345837870012463117687383429257664126063507957493367499978990549566698552377080110229336675560052083302184605409614158969872075830 0 111 91 0 11 5) = (PState.mk 13748063344805125749613545408911850045240084704849530947597778188385941015366683144384988029593386079227382997508026182149751921101868125657170695823808607696599971852279118066965755323904906562536845705327306464647347295666124595670344962975736145128059870271095477595610028012490623637725337693699844399304184257086009242762194013483583371834900602697112007429087165720909108924011869266380279966019064929328525761299926357436653174890324018699134967869226009731374552023536660564812719659805738623306004225782639722614473541583981000030077364318580512083863518754488049506634292622020918722479351767859293159431065 128 87 223 0 11 5) := by decide
  have h2 : whipLoopP 128 (PState.mk 13748063344805125749613545408911850045240084704849530947597778188385941015366683144384988029593386079227382997508026182149751921101868125657170695823808607696599971852279118066965755323904906562536845705327306464647347295666124595670344962975736145128059870271095477595610028012490623637725337693699844399304184257086009242762194013483583371834900602697112007429087165720909108924011869266380279966019064929328525761299926357436653174890324018699134967869226009731374552023536660564812719659805738623306004225782639722614473541583981000030077364318580512083863518754488049506634292622020918722479351767859293159431065 128 87 223 0 11 5) = (PState.mk 15037325029032921979978565761584377735880119420007815517906170367177434924654529260221214571796531862709722365583007362702080334090539263918669414808708631660382439397762008238960932669264957538232895460924016394787983018845885174619008070877744002981869961164362263686268420660851103563644952252874988171112495200844145359785557304136505419303534405315446839923127298410481678382465426737106238688526795073428363283430370750489081637193968305806220545286296451451312454375123505314117606870218034001182117554633673991581889810157557588297170498106591981821432210334415730440234049906727444542598919614632727658593090 0 123 124 0 11 5) := by decide
  have h3 : whipLoopP 128 (PState.mk 15037325029032921979978565761584377735880119420007815517906170367177434924654529260221214571796531862709722365583007362702080334090539263918669414808708631660382439397762008238960932669264957538232895460924016394787983018845885174619008070877744002981869961164362263686268420660851103563644952252874988171112495200844145359785557304136505419303534405315446839923127298410481678382465426737106238688526795073428363283430370750489081637193968305806220545286296451451312454375123505314117606870218034001182117554633673991581889810157557588297170498106591981821432210334415730440234049906727444542598919614632727658593090 0 123 124 0 11 5) = (PState.mk 11485886465091538281674149356936777112857519270542019233110432483118743623498630498596426386513079382319387882168043544494284370747803018468033194423264063165043786082209477208839473975004184443195167582304755206641363647612539618088169159214429192894640532135568235238354190487007165612683192408181880829105322661761546934028050246054467190307041810793452078754339008012351208755048027817461358823003194321893753074301934653650900452068900029248086539541573757195391263105625849711536278732055611287290138078408644840711830412894139319513361101272369070316794769694619498789695906178474242778459107863644068670765890 128 178 200 0 11 5) := by decide
  have h4 : whipLoopP 128 (PState.mk 11485886465091538281674149356936777112857519270542019233110432483118743623498630498596426386513079382319387882168043544494284370747803018468033194423264063165043786082209477208839473975004184443195167582304755206641363647612539618088169159214429192894640532135568235238354190487007165612683192408181880829105322661761546934028050246054467190307041810793452078754339008012351208755048027817461358823003194321893753074301934653650900452068900029248086539541573757195391263105625849711536278732055611287290138078408644840711830412894139319513361101272369070316794769694619498789695906178474242778459107863644068670765890 128 178 200 0 11 5) = (PState.mk 11485835086356819460377573393363958606238182042987785414967082535048291407705133363686233596178733440405426419430022469576557028238383007902404609375341087636771294025948468470120554922999553024322465690865726872572116242901286264550935899756639993501063916692548152285684121051766425089681399106318702080093534555132874191188977022163076416958895421450300114285310582679736184733122790971868563629454311579292812820381363700423647493802296073695152802561800551593904337478626950410618965993562113731610217018505965757679930233691100919954169291434678329931032690328411223832090547543509062121831634222221637413543545 0 193 177 0 11 5) := by decide
  have h : whipLoopP (2 * N) (PState.mk 31365703663258534074850340109214869894978684074650602791749642315422712218900887399159392896008226133347116773769494899875803385172335894007516803106731771867961359132942280910208754695307342844247646360722714152784161122352330179958869503230486369113069815142256375057799118521011676573805599726128067755180562266534344301787554792815645537069674003594721114437224170182426991476668555347623300044640582351492614308020965295948706786797496159326522050960863549490478948978911397882967810345837870012463117687383429257664126063507957493367499978990549566698552377080110229336675560052083302184605409614158969872075830 0 111 91 0 11 5) = (PState.mk 11485835086356819460377573393363958606238182042987785414967082535048291407705133363686233596178733440405426419430022469576557028238383007902404609375341087636771294025948468470120554922999553024322465690865726872572116242901286264550935899756639993501063916692548152285684121051766425089681399106318702080093534555132874191188977022163076416958895421450300114285310582679736184733122790971868563629454311579292812820381363700423647493802296073695152802561800551593904337478626950410618965993562113731610217018505965757679930233691100919954169291434678329931032690328411223832090547543509062121831634222221637413543545 0 193 177 0 11 5) :=
    whipLoopP_chunk 384 128 (whipLoopP_chunk 256 128 (whipLoopP_chunk 128 128 h1 h2) h3) h4
  rw [whipP_eq, h]
  decide

theorem hSpam_shuffleP : shuffleP (PState.mk 32316509077753586139510713445660514514047171580093496865901477602143224540557412340472969236184020377745408638077439397456141948699754273791418869985027499602243785773646750786158629119897527698459159582903277348091197804306308450975276589715725867107713970624879795449576650561541740548716885058158760672782743165803189899148730323767810639984750664758846570815839113784682876263719386226197778926310656142512979641748532553446446787573054553848505468182937999346000619914237505868427921159454549951021435663102585532293320367833415254012501838377510150320108486474354930446080988365595172321145028579232003060172675 0 0 0 0 11 1) = (PState.mk 11485835086356819460377573393363958606238182042987785414967082535048291407705133363686233596178733440405426419430022469576557028238383007902404609375341087636771294025948468470120554922999553024322465690865726872572116242901286264550935899756639993501063916692548152285684121051766425089681399106318702080093534555132874191188977022163076416958895421450300114285310582679736184733122790971868563629454311579292812820381363700423647493802296073695152802561800551593904337478626950410618965993562113731610217018505965757679930233691100919954169291434678329931032690328411223832090547543509062121831634222221637413543545 0 193 177 0 0 7) := by
  rw [shuffleP_eq, hSpam_w1, hSpam_c1, hSpam_w2, hSpam_c2, hSpam_w3]

theorem hSpam_sq : ((squeezeP (PState.mk 32316509077753586139510713445660514514047171580093496865901477602143224540557412340472969236184020377745408638077439397456141948699754273791418869985027499602243785773646750786158629119897527698459159582903277348091197804306308450975276589715725867107713970624879795449576650561541740548716885058158760672782743165803189899148730323767810639984750664758846570815839113784682876263719386226197778926310656142512979641748532553446446787573054553848505468182937999346000619914237505868427921159454549951021435663102585532293320367833415254012501838377510150320108486474354930446080988365595172321145028579232003060172675 0 0 0 0 11 1) 32).1).take 8 = [172, 187, 160, 129, 63, 48, 13, 58] := by
  rw [squeezeP_of_pos (PState.mk 32316509077753586139510713445660514514047171580093496865901477602143224540557412340472969236184020377745408638077439397456141948699754273791418869985027499602243785773646750786158629119897527698459159582903277348091197804306308450975276589715725867107713970624879795449576650561541740548716885058158760672782743165803189899148730323767810639984750664758846570815839113784682876263719386226197778926310656142512979641748532553446446787573054553848505468182937999346000619914237505868427921159454549951021435663102585532293320367833415254012501838377510150320108486474354930446080988365595172321145028579232003060172675 0 0 0 0 11 1) 32 (by decide), hSpam_shuffleP]
  decide

theorem hArc_preP : absP (absorb (absorb_stop (absorb initialize_state [97, 114, 99, 102, 111, 117, 114])) [32]) = (PState.mk 32316509077753586139510713445660514514047171580093496865901477602143224540557412340472969236184020377745408638077439397456141948699754273791418869985027499602243785773646750786158629119897527698459159582903277348091197804306308450975276589715725867107713970624879795449544392209196339266751657500327350878145641270069010116634975422725333217369567438786863825822119658407124492109471871339892290236744137118057788604047774115478356244451914114799952172516182026835090832326766287052508337532743841755491830189910047015301605736550674961463310165629852972468852564214899109778928484078543698669238487918173105212786305 0 0 0 0 17 1) := by decide

theorem hArc_w1 : whipP (PState.mk 32316509077753586139510713445660514514047171580093496865901477602143224540557412340472969236184020377745408638077439397456141948699754273791418869985027499602243785773646750786158629119897527698459159582903277348091197804306308450975276589715725867107713970624879795449544392209196339266751657500327350878145641270069010116634975422725333217369567438786863825822119658407124492109471871339892290236744137118057788604047774115478356244451914114799952172516182026835090832326766287052508337532743841755491830189910047015301605736550674961463310165629852972468852564214899109778928484078543698669238487918173105212786305 0 0 0 0 17 1) (2 * N) = (PState.mk 23878779571548248728350970388360210113304382470598218100853846859986193943023817446165349540562916983215269746630688134483895404056279443586796460605628782692591089178463372374661719864024862115460629995849184435092965747568128391411840792685627080441247094120252002149498057754862051179248282943601591558327986916639863850923866114031804648667375900513838436207637317197726608986366714924115551242600036598104350891164659859897288465023760679728127811708114688845423262821118185616351098103217753261043363510973604722091474948298770258468350933663579169147262554645479221640475427312885636526185830502037771224560210 0 250 137 0 17 3) := by
  have h1 : whipLoopP 128 (PState.mk 32316509077753586139510713445660514514047171580093496865901477602143224540557412340472969236184020377745408638077439397456141948699754273791418869985027499602243785773646750786158629119897527698459159582903277348091197804306308450975276589715725867107713970624879795449544392209196339266751657500327350878145641270069010116634975422725333217369567438786863825822119658407124492109471871339892290236744137118057788604047774115478356244451914114799952172516182026835090832326766287052508337532743841755491830189910047015301605736550674961463310165629852972468852564214899109778928484078543698669238487918173105212786305 0 0 0 0 17 1) = (PState.mk 32316507499130827071262669279899455240378917682483554166841784723490709079311885602534038545742264086284361673200694750488161116131227082575864240167378692411607211416489557177563136216045682104785803753095610991431482190248687350271175839709319842432073818425958897833852853538341230230594037656681556187635651939642299740582357144982780928784210513260772134253808713421474016768829664791565893203139582579000893995468605435227175326570419087526189471942025176549164905916840780557693674101697194621962758254072684203582022896457030356174991849438354635337819267502886862674252057918538742033001847403684061646582145 128 43 236 0 17 1) := by decide
  have h2 : whipLoopP 128 (PState.mk 32316507499130827071262669279899455240378917682483554166841784723490709079311885602534038545742264086284361673200694750488161116131227082575864240167378692411607211416489557177563136216045682104785803753095610991431482190248687350271175839709319842432073818425958897833852853538341230230594037656681556187635651939642299740582357144982780928784210513260772134253808713421474016768829664791565893203139582579000893995468605435227175326570419087526189471942025176549164905916840780557693674101697194621962758254072684203582022896457030356174991849438354635337819267502886862674252057918538742033001847403684061646582145 128 43 236 0 17 1) = (PState.mk 13575895270259777145600828912978154083414526458959073966068084660006901843173706498492367976868841314838796270112287415970709308529721679286834449641780946217474936468438718369457542491016482594492469482302623827759440291846736973972942167775649024089608946382194017578260859703447687868676731387108951717767651692928251754957885336655361907049130623068099047481877482079363916966364822451330457505316397608305726902683216576069302458091887365672242505515596504978462454319680535752852349889319016666686965001562929278707755745531864408212553630411631549908940016868219995553673014508943161583149592064453793903440345 0 82 180 0 17 1) := by decide
  have h3 : whipLoopP 128 (PState.mk 13575895270259777145600828912978154083414526458959073966068084660006901843173706498492367976868841314838796270112287415970709308529721679286834449641780946217474936468438718369457542491016482594492469482302623827759440291846736973972942167775649024089608946382194017578260859703447687868676731387108951717767651692928251754957885336655361907049130623068099047481877482079363916966364822451330457505316397608305726902683216576069302458091887365672242505515596504978462454319680535752852349889319016666686965001562929278707755745531864408212553630411631549908940016868219995553673014508943161583149592064453793903440345 0 82 180 0 17 1) = (PState.mk 1961645851270388932511968805484391856696776168376895715127453803269550058569247349233154705156734379430648540651260613877813349204431289628701107423293373603149606405616180444556848959748232831155892270409250705404669388265932116120104206296167189133361259624540306113085326076155736387868962430876627613386014869213797388903486953254456750054351752798486555130931052523265942791147808556464865926854085352316210858233484735696208093343318645960492282186178466797196708656722113631072060591235331129731991410545804546487498216694821680977317477913795033108479688899382373498723515476005848244223956508042048716354265 128 255 113 0 17 1) := by decide
  have h4 : whipLoopP 128 (PState.mk 1961645851270388932511968805484391856696776168376895715127453803269550058569247349233154705156734379430648540651260613877813349204431289628701107423293373603149606405616180444556848959748232831155892270409250705404669388265932116120104206296167189133361259624540306113085326076155736387868962430876627613386014869213797388903486953254456750054351752798486555130931052523265942791147808556464865926854085352316210858233484735696208093343318645960492282186178466797196708656722113631072060591235331129731991410545804546487498216694821680977317477913795033108479688899382373498723515476005848244223956508042048716354265 128 255 113 0 17 1) = (PState.mk 23878779571548248728350970388360210113304382470598218100853846859986193943023817446165349540562916983215269746630688134483895404056279443586796460605628782692591089178463372374661719864024862115460629995849184435092965747568128391411840792685627080441247094120252002149498057754862051179248282943601591558327986916639863850923866114031804648667375900513838436207637317197726608986366714924115551242600036598104350891164659859897288465023760679728127811708114688845423262821118185616351098103217753261043363510973604722091474948298770258468350933663579169147262554645479221640475427312885636526185830502037771224560210 0 250 137 0 17 1) := by decide
  have h : whipLoopP (2 * N) (PState.mk 32316509077753586139510713445660514514047171580093496865901477602143224540557412340472969236184020377745408638077439397456141948699754273791418869985027499602243785773646750786158629119897527698459159582903277348091197804306308450975276589715725867107713970624879795449544392209196339266751657500327350878145641270069010116634975422725333217369567438786863825822119658407124492109471871339892290236744137118057788604047774115478356244451914114799952172516182026835090832326766287052508337532743841755491830189910047015301605736550674961463310165629852972468852564214899109778928484078543698669238487918173105212786305 0 0 0 0 17 1) = (PState.mk 23878779571548248728350970388360210113304382470598218100853846859986193943023817446165349540562916983215269746630688134483895404056279443586796460605628782692591089178463372374661719864024862115460629995849184435092965747568128391411840792685627080441247094120252002149498057754862051179248282943601591558327986916639863850923866114031804648667375900513838436207637317197726608986366714924115551242600036598104350891164659859897288465023760679728127811708114688845423262821118185616351098103217753261043363510973604722091474948298770258468350933663579169147262554645479221640475427312885636526185830502037771224560210 0 250 137 0 17 1) :=
    whipLoopP_chunk 384 128 (whipLoopP_chunk 256 128 (whipLoopP_chunk 128 128 h1 h2) h3) h4
  rw [whipP_eq, h]
  decide

theorem hArc_c1 : crushP (PState.mk 23878779571548248728350970388360210113304382470598218100853846859986193943023817446165349540562916983215269746630688134483895404056279443586796460605628782692591089178463372374661719864024862115460629995849184435092965747568128391411840792685627080441247094120252002149498057754862051179248282943601591558327986916639863850923866114031804648667375900513838436207637317197726608986366714924115551242600036598104350891164659859897288465023760679728127811708114688845423262821118185616351098103217753261043363510973604722091474948298770258468350933663579169147262554645479221640475427312885636526185830502037771224560210 0 250 137 0 17 3) = (PState.mk 23883949610315636097361526692134263535721062826452217998054567349414496988046149305928733371123247659324336702820367191161575731120532241553092458971336355894015051729045362680873928374269264082225199007500441058797010070639297322023066930119850842860718524572751729625903905149031885970297012157708702996694956319983908655933504737245220128413754112083986250369021625004805277349751235149774807535850051441731880401168855117570347216465268222370809731979355255724415682427837171473277333157080394081989450823800309927791540449259363797337010473076846520008518313277002822282025204163239872576657557982333008416811090 0 250 137 0 17 3) := by decide

theorem hArc_w2 : whipP (PState.mk 23883949610315636097361526692134263535721062826452217998054567349414496988046149305928733371123247659324336702820367191161575731120532241553092458971336355894015051729045362680873928374269264082225199007500441058797010070639297322023066930119850842860718524572751729625903905149031885970297012157708702996694956319983908655933504737245220128413754112083986250369021625004805277349751235149774807535850051441731880401168855117570347216465268222370809731979355255724415682427837171473277333157080394081989450823800309927791540449259363797337010473076846520008518313277002822282025204163239872576657557982333008416811090 0 250 137 0 17 3) (2 * N) = (PState.mk 6032008635651651121954998016589643986376576449696086823299084870442764748932429725377599260810711616049912983185361705316713629524261225691755516509672104698440825952212154406381401052068709737774504807238045959743272729918200820462596643526246967979521952025134378618262421294781559868634165506536299969311661662278271128620181950611873145062361834173786438686951285383228320361920397204797233416698848701300821863413346242512396474886605137518189068812856634549376064353600172657109538280658564046017318497277049425089176271355152802687849838668802005023665414629725893825498247031279273250284876697019664907434300 0 169 238 0 17 5) := by
  have h1 : whipLoopP 128 (PState.mk 23883949610315636097361526692134263535721062826452217998054567349414496988046149305928733371123247659324336702820367191161575731120532241553092458971336355894015051729045362680873928374269264082225199007500441058797010070639297322023066930119850842860718524572751729625903905149031885970297012157708702996694956319983908655933504737245220128413754112083986250369021625004805277349751235149774807535850051441731880401168855117570347216465268222370809731979355255724415682427837171473277333157080394081989450823800309927791540449259363797337010473076846520008518313277002822282025204163239872576657557982333008416811090 0 250 137 0 17 3) = (PState.mk 10582037144633080621152181782195036292187184031514354161669588134535917487519596940515818068757553984536881091840483374100337844417493331848196913861501988165936717578001684629920070476633849261788113166058958979303908173434490957778043780968096457381404256729137449627223220363130566728393630709037686967507291776599137399409763360535458012253054114709021944487177745628803442443051353435423690442749824622224093674623265936044625449569080531645967840028433102210312234878766890011444579399011680022822956874697309075434986776528104343645189098402130832251733150456798084910450194768222920466552068662379586898720850 128 1 15 0 17 3) := by decide
  have h2 : whipLoopP 128 (PState.mk 10582037144633080621152181782195036292187184031514354161669588134535917487519596940515818068757553984536881091840483374100337844417493331848196913861501988165936717578001684629920070476633849261788113166058958979303908173434490957778043780968096457381404256729137449627223220363130566728393630709037686967507291776599137399409763360535458012253054114709021944487177745628803442443051353435423690442749824622224093674623265936044625449569080531645967840028433102210312234878766890011444579399011680022822956874697309075434986776528104343645189098402130832251733150456798084910450194768222920466552068662379586898720850 128 1 15 0 17 3) = (PState.mk 10481494461540336235827936865184063867159927534392082862127465744916389491684975913304199168841348490191335170432643686983820271449232404423638848106342263108086064724934643115029353091732484243941657387748133701627001962479286489018466596898308655585180374395324840920303348224424619041356884690548394936789329864731163767453955885676132142512899245953166512172400659388226477685641125608427237288195545339645428063784551459953095057957454036427833826711359914055933729237207144929710372075601853134226242492529673524189035241696777996584798670490586599723172183101775381983921528044335924305887369359047945260981235 0 113 189 0 17 3) := by decide
  have h3 : whipLoopP 128 (PState.mk 10481494461540336235827936865184063867159927534392082862127465744916389491684975913304199168841348490191335170432643686983820271449232404423638848106342263108086064724934643115029353091732484243941657387748133701627001962479286489018466596898308655585180374395324840920303348224424619041356884690548394936789329864731163767453955885676132142512899245953166512172400659388226477685641125608427237288195545339645428063784551459953095057957454036427833826711359914055933729237207144929710372075601853134226242492529673524189035241696777996584798670490586599723172183101775381983921528044335924305887369359047945260981235 0 113 189 0 17 3) = (PState.mk 6030115138397519804064261443982087564017509237749803068138189339563315539993923271374792756891557220105237546886745321897727518572805118322356254959605119660969910355471466853335076689956470275799938518071700871326282177472458136347210640482184587011433814491106917509141367804226118545409793204601097033494704657605475031279460892102187615030454853980457430782587970364662333713547777424015113681726032448150373898436537335531341795742417735850164875525773475457893133115293177933732129611176845160727115940089439462959170097702992168752147136150598771884621047112438105680215660100281206303920220890349239425850355 128 231 234 0 17 3) := by decide
  have h4 : whipLoopP 128 (PState.mk 6030115138397519804064261443982087564017509237749803068138189339563315539993923271374792756891557220105237546886745321897727518572805118322356254959605119660969910355471466853335076689956470275799938518071700871326282177472458136347210640482184587011433814491106917509141367804226118545409793204601097033494704657605475031279460892102187615030454853980457430782587970364662333713547777424015113681726032448150373898436537335531341795742417735850164875525773475457893133115293177933732129611176845160727115940089439462959170097702992168752147136150598771884621047112438105680215660100281206303920220890349239425850355 128 231 234 0 17 3) = (PState.mk 6032008635651651121954998016589643986376576449696086823299084870442764748932429725377599260810711616049912983185361705316713629524261225691755516509672104698440825952212154406381401052068709737774504807238045959743272729918200820462596643526246967979521952025134378618262421294781559868634165506536299969311661662278271128620181950611873145062361834173786438686951285383228320361920397204797233416698848701300821863413346242512396474886605137518189068812856634549376064353600172657109538280658564046017318497277049425089176271355152802687849838668802005023665414629725893825498247031279273250284876697019664907434300 0 169 238 0 17 3) := by decide
  have h : whipLoopP (2 * N) (PState.mk 23883949610315636097361526692134263535721062826452217998054567349414496988046149305928733371123247659324336702820367191161575731120532241553092458971336355894015051729045362680873928374269264082225199007500441058797010070639297322023066930119850842860718524572751729625903905149031885970297012157708702996694956319983908655933504737245220128413754112083986250369021625004805277349751235149774807535850051441731880401168855117570347216465268222370809731979355255724415682427837171473277333157080394081989450823800309927791540449259363797337010473076846520008518313277002822282025204163239872576657557982333008416811090 0 250 137 0 17 3) = (PState.mk 6032008635651651121954998016589643986376576449696086823299084870442764748932429725377599260810711616049912983185361705316713629524261225691755516509672104698440825952212154406381401052068709737774504807238045959743272729918200820462596643526246967979521952025134378618262421294781559868634165506536299969311661662278271128620181950611873145062361834173786438686951285383228320361920397204797233416698848701300821863413346242512396474886605137518189068812856634549376064353600172657109538280658564046017318497277049425089176271355152802687849838668802005023665414629725893825498247031279273250284876697019664907434300 0 169 238 0 17 3) :=
    whipLoopP_chunk 384 128 (whipLoopP_chunk 256 128 (whipLoopP_chunk 128 128 h1 h2) h3) h4
  rw [whipP_eq, h]
  decide

theorem hArc_c2 : crushP (PState.mk 6032008635651651121954998016589643986376576449696086823299084870442764748932429725377599260810711616049912983185361705316713629524261225691755516509672104698440825952212154406381401052068709737774504807238045959743272729918200820462596643526246967979521952025134378618262421294781559868634165506536299969311661662278271128620181950611873145062361834173786438686951285383228320361920397204797233416698848701300821863413346242512396474886605137518189068812856634549376064353600172657109538280658564046017318497277049425089176271355152802687849838668802005023665414629725893825498247031279273250284876697019664907434300 0 169 238 0 17 5) = (PState.mk 7697556417396029965381179859588675035999161754923180855637595408528548316083294998209377056502173067015559693921628351609584300133348445391954576328722195310069715420975562160830925892818008048947241306717730269017381794830904674278402771044819202324607372767338238631263795193342381623850054192411455850523541910633002296756237360704015178086954459507558317573052407208246527339516666352412056741120922553850393311287083999490221147404239744402787610604686820117267333305517293366645792036154813361446848817762631521567704065046019875532623908326502261132418618644814684159686907532683066535380103832860625588963375 0 169 238 0 17 5) := by decide

theorem hArc_w3 : whipP (PState.mk 7697556417396029965381179859588675035999161754923180855637595408528548316083294998209377056502173067015559693921628351609584300133348445391954576328722195310069715420975562160830925892818008048947241306717730269017381794830904674278402771044819202324607372767338238631263795193342381623850054192411455850523541910633002296756237360704015178086954459507558317573052407208246527339516666352412056741120922553850393311287083999490221147404239744402787610604686820117267333305517293366645792036154813361446848817762631521567704065046019875532623908326502261132418618644814684159686907532683066535380103832860625588963375 0 169 238 0 17 5) (2 * N) = (PState.mk 23078890551564007962042070397901001012550728769600635945893472604562005329869655528128514797057204930248214415675040660852554808570187131482866093585127909922674101661565426436294398010619885567060482416963722914589478569074159569459831703101422817460223347509088294011809674706285828820912045171156279708446035234462599094100857398909824517798705607511801676813708777614558073577133867851756730358517374653490815715059645335589300989299204659940760437770653477093942653593932055368900900391348789123585049861278236640889880306372475179606475172617676586617178825486835753857942427687662240101736029793994205175552240 0 8 46 0 17 7) := by
  have h1 : whipLoopP 128 (PState.mk 7697556417396029965381179859588675035999161754923180855637595408528548316083294998209377056502173067015559693921628351609584300133348445391954576328722195310069715420975562160830925892818008048947241306717730269017381794830904674278402771044819202324607372767338238631263795193342381623850054192411455850523541910633002296756237360704015178086954459507558317573052407208246527339516666352412056741120922553850393311287083999490221147404239744402787610604686820117267333305517293366645792036154813361446848817762631521567704065046019875532623908326502261132418618644814684159686907532683066535380103832860625588963375 0 169 238 0 17 5) = (PState.mk 3294995531684804090336798795005881558501250552482323940081574453748626841778496801764030778874167246745879453856563905468558941516691255397844559027546212800223303764274889421057710921583952528297403235382344346742465756635079033397696068697231432280471378793840817555749295605103457082029875581216167737314533760595630961405101520788260224043021821153190388289525714458940894015224214457574835235167139783194188063005495879369135021005122768861287396779418944599526990813722133439057331978355309985282494502703143694704196982652329664690026479115276727310595103633279682313065952257609911124893932094732069936089135 128 151 190 0 17 5) := by decide
  have h2 : whipLoopP 128 (PState.mk 3294995531684804090336798795005881558501250552482323940081574453748626841778496801764030778874167246745879453856563905468558941516691255397844559027546212800223303764274889421057710921583952528297403235382344346742465756635079033397696068697231432280471378793840817555749295605103457082029875581216167737314533760595630961405101520788260224043021821153190388289525714458940894015224214457574835235167139783194188063005495879369135021005122768861287396779418944599526990813722133439057331978355309985282494502703143694704196982652329664690026479115276727310595103633279682313065952257609911124893932094732069936089135 128 151 190 0 17 5) = (PState.mk 26648946313260702723784335570526555126077919063855157335556657396584868569379689254779029236729574976575453792694887876899473047311168024534757999223011322735142253234371739745188762689687856362559190257574016108910884250977516254488450749786299788763424224645939879477851157466053024328185309131927620105794309956945677092473534931134874393375226154934005973940586340979174327440321429511925175673229702938933986348479627530090708940835848724445119054116730448615814084807632521029187753464702670206995017995185154699246619920438524026784331550772784219471562977946225187460378468671231068164710539522137083565733730 0 108 117 0 17 5) := by decide
  have h3 : whipLoopP 128 (PState.mk 26648946313260702723784335570526555126077919063855157335556657396584868569379689254779029236729574976575453792694887876899473047311168024534757999223011322735142253234371739745188762689687856362559190257574016108910884250977516254488450749786299788763424224645939879477851157466053024328185309131927620105794309956945677092473534931134874393375226154934005973940586340979174327440321429511925175673229702938933986348479627530090708940835848724445119054116730448615814084807632521029187753464702670206995017995185154699246619920438524026784331550772784219471562977946225187460378468671231068164710539522137083565733730 0 108 117 0 17 5) = (PState.mk 23078769318632602803221604030592057552122862861274294495847192356150414346829317018818103729685623235460286400398189346621757873883742239767479197778023990919012813545761613490199252753540194489108385520484717013422545661066125736731439498498699611217035491583838065603195680053849738747414019881483774221325653511499027201946254146800437308637504253245575291691340888026879995344711527594809897236366394136085672803543276581994851247932208979243564247282638731717560581431285944730653123171605202275815343948860229384511449351567334213671009706544683895393908348410050810366794548679918924296925105580681060059044450 128 88 98 0 17 5) := by decide
  have h4 : whipLoopP 128 (PState.mk 23078769318632602803221604030592057552122862861274294495847192356150414346829317018818103729685623235460286400398189346621757873883742239767479197778023990919012813545761613490199252753540194489108385520484717013422545661066125736731439498498699611217035491583838065603195680053849738747414019881483774221325653511499027201946254146800437308637504253245575291691340888026879995344711527594809897236366394136085672803543276581994851247932208979243564247282638731717560581431285944730653123171605202275815343948860229384511449351567334213671009706544683895393908348410050810366794548679918924296925105580681060059044450 128 88 98 0 17 5) = (PState.mk 23078890551564007962042070397901001012550728769600635945893472604562005329869655528128514797057204930248214415675040660852554808570187131482866093585127909922674101661565426436294398010619885567060482416963722914589478569074159569459831703101422817460223347509088294011809674706285828820912045171156279708446035234462599094100857398909824517798705607511801676813708777614558073577133867851756730358517374653490815715059645335589300989299204659940760437770653477093942653593932055368900900391348789123585049861278236640889880306372475179606475172617676586617178825486835753857942427687662240101736029793994205175552240 0 8 46 0 17 5) := by decide
  have h : whipLoopP (2 * N) (PState.mk 7697556417396029965381179859588675035999161754923180855637595408528548316083294998209377056502173067015559693921628351609584300133348445391954576328722195310069715420975562160830925892818008048947241306717730269017381794830904674278402771044819202324607372767338238631263795193342381623850054192411455850523541910633002296756237360704015178086954459507558317573052407208246527339516666352412056741120922553850393311287083999490221147404239744402787610604686820117267333305517293366645792036154813361446848817762631521567704065046019875532623908326502261132418618644814684159686907532683066535380103832860625588963375 0 169 238 0 17 5) = (PState.mk 23078890551564007962042070397901001012550728769600635945893472604562005329869655528128514797057204930248214415675040660852554808570187131482866093585127909922674101661565426436294398010619885567060482416963722914589478569074159569459831703101422817460223347509088294011809674706285828820912045171156279708446035234462599094100857398909824517798705607511801676813708777614558073577133867851756730358517374653490815715059645335589300989299204659940760437770653477093942653593932055368900900391348789123585049861278236640889880306372475179606475172617676586617178825486835753857942427687662240101736029793994205175552240 0 8 46 0 17 5) :=
    whipLoopP_chunk 384 128 (whipLoopP_chunk 256 128 (whipLoopP_chunk 128 128 h1 h2) h3) h4
  rw [whipP_eq, h]
  decide

theorem hArc_shuffleP : shuffleP (PState.mk 32316509077753586139510713445660514514047171580093496865901477602143224540557412340472969236184020377745408638077439397456141948699754273791418869985027499602243785773646750786158629119897527698459159582903277348091197804306308450975276589715725867107713970624879795449544392209196339266751657500327350878145641270069010116634975422725333217369567438786863825822119658407124492109471871339892290236744137118057788604047774115478356244451914114799952172516182026835090832326766287052508337532743841755491830189910047015301605736550674961463310165629852972468852564214899109778928484078543698669238487918173105212786305 0 0 0 0 17 1) = (PState.mk 23078890551564007962042070397901001012550728769600635945893472604562005329869655528128514797057204930248214415675040660852554808570187131482866093585127909922674101661565426436294398010619885567060482416963722914589478569074159569459831703101422817460223347509088294011809674706285828820912045171156279708446035234462599094100857398909824517798705607511801676813708777614558073577133867851756730358517374653490815715059645335589300989299204659940760437770653477093942653593932055368900900391348789123585049861278236640889880306372475179606475172617676586617178825486835753857942427687662240101736029793994205175552240 0 8 46 0 0 7) := by
  rw [shuffleP_eq, hArc_w1, hArc_c1, hArc_w2, hArc_c2, hArc_w3]

theorem hArc_sq : ((squeezeP (PState.mk 32316509077753586139510713445660514514047171580093496865901477602143224540557412340472969236184020377745408638077439397456141948699754273791418869985027499602243785773646750786158629119897527698459159582903277348091197804306308450975276589715725867107713970624879795449544392209196339266751657500327350878145641270069010116634975422725333217369567438786863825822119658407124492109471871339892290236744137118057788604047774115478356244451914114799952172516182026835090832326766287052508337532743841755491830189910047015301605736550674961463310165629852972468852564214899109778928484078543698669238487918173105212786305 0 0 0 0 17 1) 32).1).take 8 = [255, 140, 242, 104, 9, 76, 135, 185] := by
  rw [squeezeP_of_pos (PState.mk 32316509077753586139510713445660514514047171580093496865901477602143224540557412340472969236184020377745408638077439397456141948699754273791418869985027499602243785773646750786158629119897527698459159582903277348091197804306308450975276589715725867107713970624879795449544392209196339266751657500327350878145641270069010116634975422725333217369567438786863825822119658407124492109471871339892290236744137118057788604047774115478356244451914114799952172516182026835090832326766287052508337532743841755491830189910047015301605736550674961463310165629852972468852564214899109778928484078543698669238487918173105212786305 0 0 0 0 17 1) 32 (by decide), hArc_shuffleP]
  decide

/-! ### The engine's equations used by the remaining claims -/

theorem a_update (t : Spritz) : (update t).a = t.a := rfl

theorem a_output (t : Spritz) : ((output t).2).a = t.a := rfl

theorem a_shuffle (t : Spritz) : (shuffle t).a = 0 := rfl

theorem drip_of_pos (sp : Spritz) (h : 0 < sp.a) :
    drip sp = output (update (shuffle sp)) := by
  show output (update (if 0 < sp.a then shuffle sp else sp)) = _
  rw [if_pos h]

theorem drip_of_zero (sp : Spritz) (h : ¬ 0 < sp.a) :
    drip sp = output (update sp) := by
  show output (update (if 0 < sp.a then shuffle sp else sp)) = _
  rw [if_neg h]

theorem a_drip (sp : Spritz) : ((drip sp).2).a = 0 := by
  by_cases hc : 0 < sp.a
  · rw [drip_of_pos sp hc, a_output, a_update, a_shuffle]
  · rw [drip_of_zero sp hc, a_output, a_update]; omega

theorem a_dripN : ∀ (r : Nat) (sp : Spritz),
    ((dripN sp r).2).a = if r = 0 then sp.a else 0
  | 0, _ => rfl
  | r + 1, sp => by
    rw [dripN_succ]
    dsimp only
    rw [a_dripN r]
    by_cases hr : r = 0
    · rw [if_pos hr, if_neg (by omega), a_drip]
    · rw [if_neg hr, if_neg (by omega)]

theorem squeeze_eq (sp : Spritz) (r : Nat) :
    squeeze sp r = dripN (if 0 < sp.a then shuffle sp else sp) r := rfl

theorem a_pend (sp : Spritz) : (if 0 < sp.a then shuffle sp else sp).a = 0 := by
  by_cases hc : 0 < sp.a
  · rw [if_pos hc, a_shuffle]
  · rw [if_neg hc]; omega

theorem drip_pend (sp : Spritz) :
    drip (if 0 < sp.a then shuffle sp else sp) = drip sp := by
  by_cases hc : 0 < sp.a
  · rw [if_pos hc, drip_of_pos sp hc]
    show output (update (if 0 < (shuffle sp).a then shuffle (shuffle sp) else shuffle sp)) = _
    rw [a_shuffle, if_neg (by omega)]
  · rw [if_neg hc]

theorem dripN_add : ∀ (r s : Nat) (sp : Spritz),
    dripN sp (r + s) =
      ((dripN sp r).1 ++ (dripN (dripN sp r).2 s).1, (dripN (dripN sp r).2 s).2)
  | 0, s, sp => by rw [Nat.zero_add]; rfl
  | r + 1, s, sp => by
    rw [Nat.succ_add, dripN_succ, dripN_succ]
    dsimp only
    rw [dripN_add r s]
    dsimp only
    rw [List.cons_append]

theorem length_dripN : ∀ (r : Nat) (sp : Spritz), ((dripN sp r).1).length = r
  | 0, _ => rfl
  | r + 1, sp => by
    rw [dripN_succ]
    dsimp only
    rw [List.length_cons, length_dripN r]

theorem squeeze_fst_eq_dripN (sp : Spritz) : ∀ (n : Nat), (squeeze sp n).1 = (dripN sp n).1
  | 0 => rfl
  | n + 1 => by
    rw [squeeze_eq, dripN_succ, dripN_succ, drip_pend]

/-! ### xor_key_stream equations -/

theorem xorLoop_cons (sp : Spritz) (v : Nat) (rest : List Nat) :
    xorLoop sp (v :: rest) =
      ((v ^^^ (drip sp).1) :: (xorLoop (drip sp).2 rest).1, (xorLoop (drip sp).2 rest).2) := rfl

theorem xorLoop_eq_zipWith : ∀ (l : List Nat) (sp : Spritz),
    xorLoop sp l = (List.zipWith (· ^^^ ·) l (dripN sp l.length).1, (dripN sp l.length).2)
  | [], _ => rfl
  | v :: rest, sp => by
    rw [xorLoop_cons, List.length_cons, dripN_succ]
    dsimp only
    rw [xorLoop_eq_zipWith rest, List.zipWith_cons_cons]

theorem xorLoop_roundtrip : ∀ (l : List Nat) (sp : Spritz),
    (xorLoop sp (xorLoop sp l).1).1 = l
  | [], _ => rfl
  | v :: rest, sp => by
    rw [xorLoop_cons]
    dsimp only
    rw [xorLoop_cons]
    dsimp only
    rw [Nat.xor_assoc, Nat.xor_self, Nat.xor_zero, xorLoop_roundtrip rest]

/-! ### Splitting a squeeze (C5) -/

theorem squeeze_split (sp : Spritz) (r s : Nat) :
    (squeeze sp (r + s)).1 = (squeeze sp r).1 ++ (squeeze ((squeeze sp r).2) s).1 ∧
    (squeeze sp (r + s)).2 = (squeeze ((squeeze sp r).2) s).2 := by
  have ha2 : ((dripN (if 0 < sp.a then shuffle sp else sp) r).2).a = 0 := by
    rw [a_dripN]
    by_cases hr : r = 0
    · rw [if_pos hr]; exact a_pend sp
    · rw [if_neg hr]
  have hsq2 : squeeze ((dripN (if 0 < sp.a then shuffle sp else sp) r).2) s
      = dripN ((dripN (if 0 < sp.a then shuffle sp else sp) r).2) s := by
    rw [squeeze_eq, ha2, if_neg (Nat.lt_irrefl 0)]
  constructor
  · rw [squeeze_eq sp (r + s), squeeze_eq sp r, hsq2, dripN_add r s]
  · rw [squeeze_eq sp (r + s), squeeze_eq sp r, hsq2, dripN_add r s]

/-! ### Swaps preserve the permutation property (C3) -/

theorem sget_eq_getElem (S : List Nat) (n : Nat) (h : n < S.length) : sget S n = S[n] := by
  rw [sget, List.getD_eq_getElem?_getD, List.getElem?_eq_getElem h]
  rfl

theorem count_set_swap (l : List Nat) (n : Nat) (h : n < l.length) (b x : Nat) :
    (l.set n b).count x + (if l[n] = x then 1 else 0) =
      l.count x + (if b = x then 1 else 0) := by
  conv_rhs => rw [← List.take_append_drop n l, List.drop_eq_getElem_cons h]
  rw [List.set_eq_take_cons_drop b h]
  simp only [List.count_append, List.count_cons]
  by_cases h1 : l[n] = x <;> by_cases h2 : b = x <;> simp [h1, h2] <;> omega

theorem sswap_perm {S : List Nat} {x y : Nat} (hx : x < S.length) (hy : y < S.length) :
    (sswap S x y).Perm S := by
  rw [List.perm_iff_count]
  intro a
  have hy' : y < (S.set x (sget S y)).length := by simpa using hy
  have e1 := count_set_swap S x hx (sget S y) a
  have e2 := count_set_swap (S.set x (sget S y)) y hy' (sget S x) a
  have egy : (S.set x (sget S y))[y] = sget S y := by
    by_cases hxy : x = y
    · subst hxy; exact List.getElem_set_self hy'
    · rw [List.getElem_set_ne hxy, ← sget_eq_getElem S y hy]
  rw [egy, sget_eq_getElem S x hx] at e2
  rw [show sswap S x y = (S.set x (sget S y)).set y (sget S x) from rfl,
    sget_eq_getElem S x hx]
  exact Nat.add_right_cancel (e2.trans e1)

/-! ### The run-time invariant is preserved by every operation (C3, C7) -/

theorem odd_add_two {w : Nat} (h : w % 2 = 1) : ((w + 2) % 256) % 2 = 1 := by
  rw [Nat.mod_mod_of_dvd _ (by norm_num : (2 : Nat) ∣ 256)]
  omega

theorem inv_init : Inv initialize_state :=
  ⟨List.Perm.refl _, (by norm_num : (0 : Nat) < 256), rfl⟩

theorem inv_update {sp : Spritz} (h : Inv sp) : Inv (update sp) := by
  obtain ⟨hS, ha, hw⟩ := h
  have hlen : sp.S.length = 256 := by rw [hS.length_eq, List.length_range]
  refine ⟨?_, ?_, ?_⟩
  · simp only [update]
    exact (sswap_perm (by rw [hlen]; exact Nat.mod_lt _ (by norm_num))
      (by rw [hlen]; exact Nat.mod_lt _ (by norm_num))).trans hS
  · simp only [update]; exact ha
  · simp only [update]; exact hw

theorem inv_whipLoop : ∀ (r : Nat) {sp : Spritz}, Inv sp → Inv (whipLoop r sp)
  | 0, _, h => h
  | r + 1, _, h => inv_whipLoop r (inv_update h)

theorem inv_whip {sp : Spritz} (r : Nat) (h : Inv sp) : Inv (whip sp r) := by
  obtain ⟨hS, ha, hw⟩ := inv_whipLoop r h
  exact ⟨hS, ha, odd_add_two hw⟩

theorem crushFrom_perm : ∀ (fuel v : Nat) {S : List Nat}, S.length = 256 →
    v + fuel ≤ 256 → (crushFrom S v fuel).Perm S
  | 0, _, _, _, _ => List.Perm.refl _
  | fuel + 1, v, S, hlen, hv => by
    show (crushFrom (if sget S (wsub (N - 1) v) < sget S v
      then sswap S v (wsub (N - 1) v) else S) (v + 1) fuel).Perm S
    by_cases hc : sget S (wsub (N - 1) v) < sget S v
    · rw [if_pos hc]
      exact (crushFrom_perm fuel (v + 1) (by rw [sswap_length]; exact hlen)
        (by omega)).trans
        (sswap_perm (by omega) (by rw [hlen]; exact Nat.mod_lt _ (by norm_num)))
    · rw [if_neg hc]
      exact crushFrom_perm fuel (v + 1) hlen (by omega)

theorem inv_crush {sp : Spritz} (h : Inv sp) : Inv (crush sp) := by
  obtain ⟨hS, ha, hw⟩ := h
  have hlen : sp.S.length = 256 := by rw [hS.length_eq, List.length_range]
  refine ⟨?_, ?_, ?_⟩
  · simp only [crush]
    exact (crushFrom_perm (N / 2) 0 hlen (by norm_num [N])).trans hS
  · simp only [crush]; exact ha
  · simp only [crush]; exact hw

theorem inv_seta {t : Spritz} {n : Nat} (hn : n < 256) (h : Inv t) : Inv { t with a := n } :=
  ⟨h.1, hn, h.2.2⟩

theorem inv_shuffle {sp : Spritz} (h : Inv sp) : Inv (shuffle sp) := by
  simp only [shuffle]
  exact inv_seta (by norm_num)
    (inv_whip (2 * N) (inv_crush (inv_whip (2 * N) (inv_crush (inv_whip (2 * N) h)))))

theorem inv_nibble_tail {t : Spritz} (h : Inv t) (x : Nat) : Inv (absorb_nibble_tail t x) := by
  obtain ⟨hS, ha, hw⟩ := h
  have hlen : t.S.length = 256 := by rw [hS.length_eq, List.length_range]
  refine ⟨?_, ?_, ?_⟩
  · simp only [absorb_nibble_tail]
    exact (sswap_perm (by omega) (by rw [hlen]; exact Nat.mod_lt _ (by norm_num))).trans hS
  · simp only [absorb_nibble_tail]; exact Nat.mod_lt _ (by norm_num)
  · simp only [absorb_nibble_tail]; exact hw

theorem inv_absorb_nibble {sp : Spritz} (h : Inv sp) (x : Nat) : Inv (absorb_nibble sp x) := by
  rw [absorb_nibble_eq_tail]
  by_cases hc : sp.a = N / 2
  · rw [if_pos hc]; exact inv_nibble_tail (inv_shuffle h) x
  · rw [if_neg hc]; exact inv_nibble_tail h x

theorem inv_absorb_byte {sp : Spritz} (h : Inv sp) (b : Nat) : Inv (absorb_byte sp b) :=
  inv_absorb_nibble (inv_absorb_nibble h _) _

theorem inv_absorb : ∀ (I : List Nat) {sp : Spritz}, Inv sp → Inv (absorb sp I)
  | [], _, h => h
  | b :: I, sp, h => by
    show Inv (absorb (absorb_byte sp b) I)
    exact inv_absorb I (inv_absorb_byte h b)

theorem inv_inca {t : Spritz} (h : Inv t) : Inv { t with a := (t.a + 1) % 256 } :=
  ⟨h.1, Nat.mod_lt _ (by norm_num), h.2.2⟩

theorem inv_absorb_stop {sp : Spritz} (h : Inv sp) : Inv (absorb_stop sp) := by
  simp only [absorb_stop]
  by_cases hc : sp.a = N / 2
  · rw [if_pos hc]; exact inv_inca (inv_shuffle h)
  · rw [if_neg hc]; exact inv_inca h

theorem inv_output {t : Spritz} (h : Inv t) : Inv (output t).2 :=
  ⟨h.1, h.2.1, h.2.2⟩

theorem inv_drip {sp : Spritz} (h : Inv sp) : Inv (drip sp).2 := by
  by_cases hc : 0 < sp.a
  · rw [drip_of_pos sp hc]; exact inv_output (inv_update (inv_shuffle h))
  · rw [drip_of_zero sp hc]; exact inv_output (inv_update h)

theorem inv_dripN : ∀ (r : Nat) {sp : Spritz}, Inv sp → Inv (dripN sp r).2
  | 0, _, h => h
  | r + 1, sp, h => by
    rw [dripN_succ]
    exact inv_dripN r (inv_drip h)

theorem inv_squeeze (r : Nat) {sp : Spritz} (h : Inv sp) : Inv (squeeze sp r).2 := by
  rw [squeeze_eq]
  by_cases hc : 0 < sp.a
  · rw [if_pos hc]; exact inv_dripN r (inv_shuffle h)
  · rw [if_neg hc]; exact inv_dripN r h

theorem inv_xorLoop : ∀ (l : List Nat) {sp : Spritz}, Inv sp → Inv ((xorLoop sp l).2)
  | [], _, h => h
  | v :: rest, sp, h => by
    rw [xorLoop_cons]
    exact inv_xorLoop rest (inv_drip h)

theorem reachable_inv {sp : Spritz} (h : Reachable sp) : Inv sp := by
  induction h with
  | init => exact inv_init
  | ofNew key => exact inv_absorb key inv_init
  | ofAbsorb I _ ih => exact inv_absorb I ih
  | ofStop _ ih => exact inv_absorb_stop ih
  | ofDrip _ ih => exact inv_drip ih
  | ofSqueeze r _ ih => exact inv_squeeze r ih
  | ofXor dst src hr hx ih =>
    rename_i sp1 sp2 out
    by_cases hlen : dst.length = src.length
    · simp only [xor_key_stream, if_pos hlen] at hx
      have h2 : (out, sp2) = xorLoop sp1 src := (Option.some.inj hx).symm
      have h3 : sp2 = (xorLoop sp1 src).2 := by rw [← h2]
      rw [h3]
      exact inv_xorLoop src ih
    · simp only [xor_key_stream, if_neg hlen] at hx
      exact Option.noConfusion hx

/-! ### The bounds-checked operations never fail on well-formed states (C8) -/

theorem getElem?_eq_sget (S : List Nat) (n : Nat) (h : n < S.length) :
    S[n]? = some (sget S n) := by
  rw [List.getElem?_eq_getElem h, sget_eq_getElem S n h]

theorem sswapC_eq {S : List Nat} (x y : Nat) (hx : x < S.length) (hy : y < S.length) :
    sswapC S x y = some (sswap S x y) := by
  simp only [sswapC, getElem?_eq_sget S x hx, getElem?_eq_sget S y hy, Option.some_bind]
  rfl

theorem updateC_eq {sp : Spritz} (h : Wf sp) : updateC sp = some (update sp) := by
  obtain ⟨hlen, hbytes, -⟩ := h
  have hidx : ∀ t : Nat, t % 256 < sp.S.length := fun t => by
    rw [hlen]; exact Nat.mod_lt _ (by norm_num)
  simp only [updateC]
  rw [getElem?_eq_sget _ _ (hidx _)]
  simp only [Option.some_bind]
  rw [getElem?_eq_sget _ _ (hidx _)]
  simp only [Option.some_bind]
  rw [getElem?_eq_sget _ _ (hidx _)]
  simp only [Option.some_bind]
  rw [sswapC_eq _ _ (hidx _) (hidx _)]
  simp only [Option.some_bind]
  rfl

theorem outputC_eq {sp : Spritz} (h : Wf sp) : outputC sp = some (output sp) := by
  obtain ⟨hlen, hbytes, -⟩ := h
  have hidx : ∀ t : Nat, t % 256 < sp.S.length := fun t => by
    rw [hlen]; exact Nat.mod_lt _ (by norm_num)
  simp only [outputC]
  rw [getElem?_eq_sget _ _ (hidx _)]
  simp only [Option.some_bind]
  rw [getElem?_eq_sget _ _ (hidx _)]
  simp only [Option.some_bind]
  rw [getElem?_eq_sget _ _ (hidx _)]
  simp only [Option.some_bind]
  rfl

theorem whipLoopC_eq : ∀ (n : Nat) {sp : Spritz}, Wf sp →
    whipLoopC n sp = some (whipLoop n sp)
  | 0, _, _ => rfl
  | n + 1, sp, h => by
    simp only [whipLoopC, whipLoop]
    rw [updateC_eq h]
    simp only [Option.some_bind]
    exact whipLoopC_eq n (wf_update h)

theorem whipC_eq {sp : Spritz} (r : Nat) (h : Wf sp) : whipC sp r = some (whip sp r) := by
  simp only [whipC, whip]
  rw [whipLoopC_eq r h]
  simp only [Option.some_bind]

theorem crushFromC_eq : ∀ (fuel v : Nat) {S : List Nat}, S.length = 256 → v + fuel ≤ 256 →
    crushFromC S v fuel = some (crushFrom S v fuel)
  | 0, _, _, _, _ => rfl
  | fuel + 1, v, S, hlen, hv => by
    have hvlt : v < S.length := by rw [hlen]; omega
    have hidx : wsub (N - 1) v < S.length := by
      rw [hlen]
      simp only [wsub]
      exact Nat.mod_lt _ (by norm_num)
    simp only [crushFromC, crushFrom]
    rw [getElem?_eq_sget _ _ hvlt]
    simp only [Option.some_bind]
    rw [getElem?_eq_sget _ _ hidx]
    simp only [Option.some_bind]
    by_cases hc : sget S (wsub (N - 1) v) < sget S v
    · rw [if_pos hc, if_pos hc, sswapC_eq _ _ hvlt hidx]
      simp only [Option.some_bind]
      exact crushFromC_eq fuel (v + 1) (by rw [sswap_length]; exact hlen) (by omega)
    · rw [if_neg hc, if_neg hc]
      simp only [Option.some_bind]
      exact crushFromC_eq fuel (v + 1) hlen (by omega)

theorem crushC_eq {sp : Spritz} (h : Wf sp) : crushC sp = some (crush sp) := by
  obtain ⟨hlen, -, -⟩ := h
  simp only [crushC, crush]
  rw [crushFromC_eq (N / 2) 0 hlen (by decide)]
  simp only [Option.some_bind]

theorem shuffleC_eq {sp : Spritz} (h : Wf sp) : shuffleC sp = some (shuffle sp) := by
  simp only [shuffleC, shuffle]
  rw [whipC_eq _ h]
  simp only [Option.some_bind]
  rw [crushC_eq (wf_whip _ h)]
  simp only [Option.some_bind]
  rw [whipC_eq _ (wf_crush (wf_whip _ h))]
  simp only [Option.some_bind]
  rw [crushC_eq (wf_whip _ (wf_crush (wf_whip _ h)))]
  simp only [Option.some_bind]
  rw [whipC_eq _ (wf_crush (wf_whip _ (wf_crush (wf_whip _ h))))]
  simp only [Option.some_bind]

theorem nibble_tailC_eq {t : Spritz} (h : Wf t) (x : Nat) :
    ((sswapC t.S t.a ((x + N / 2) % 256)).bind fun S =>
      some { t with S := S, a := (t.a + 1) % 256 }) = some (absorb_nibble_tail t x) := by
  obtain ⟨hlen, -, ha⟩ := h
  rw [sswapC_eq t.a ((x + N / 2) % 256) (by rw [hlen]; exact ha)
    (by rw [hlen]; exact Nat.mod_lt _ (by norm_num))]
  simp only [Option.some_bind]
  rfl

theorem absorb_nibbleC_eq {sp : Spritz} (h : Wf sp) (x : Nat) :
    absorb_nibbleC sp x = some (absorb_nibble sp x) := by
  rw [absorb_nibble_eq_tail]
  simp only [absorb_nibbleC]
  by_cases hc : sp.a = N / 2
  · rw [if_pos hc, if_pos hc, shuffleC_eq h, Option.some_bind]
    exact nibble_tailC_eq (wf_shuffle h) x
  · rw [if_neg hc, if_neg hc, Option.some_bind]
    exact nibble_tailC_eq h x

theorem absorb_byteC_eq {sp : Spritz} (h : Wf sp) (b : Nat) :
    absorb_byteC sp b = some (absorb_byte sp b) := by
  simp only [absorb_byteC, absorb_byte]
  rw [absorb_nibbleC_eq h, Option.some_bind]
  exact absorb_nibbleC_eq (wf_absorb_nibble h _) _

theorem absorbC_eq : ∀ (I : List Nat) {sp : Spritz}, Wf sp → absorbC sp I = some (absorb sp I)
  | [], _, _ => rfl
  | b :: I, sp, h => by
    show ((absorb_byteC sp b).bind fun t => absorbC t I) =
      some (absorb (absorb_byte sp b) I)
    rw [absorb_byteC_eq h b, Option.some_bind]
    exact absorbC_eq I (wf_absorb_byte h b)

theorem absorb_stopC_eq {sp : Spritz} (h : Wf sp) :
    absorb_stopC sp = some (absorb_stop sp) := by
  simp only [absorb_stopC, absorb_stop]
  by_cases hc : sp.a = N / 2
  · rw [if_pos hc, if_pos hc, shuffleC_eq h]
    simp only [Option.some_bind]
  · rw [if_neg hc, if_neg hc]
    simp only [Option.some_bind]

theorem drip_tailC_eq {t : Spritz} (h : Wf t) :
    ((updateC t).bind fun u => outputC u) = some (output (update t)) := by
  rw [updateC_eq h]
  simp only [Option.some_bind]
  exact outputC_eq (wf_update h)

theorem dripC_eq {sp : Spritz} (h : Wf sp) : dripC sp = some (drip sp) := by
  simp only [dripC, drip]
  by_cases hc : 0 < sp.a
  · rw [if_pos hc, if_pos hc, shuffleC_eq h, Option.some_bind]
    exact drip_tailC_eq (wf_shuffle h)
  · rw [if_neg hc, if_neg hc, Option.some_bind]
    exact drip_tailC_eq h

theorem dripNC_eq : ∀ (r : Nat) {sp : Spritz}, Wf sp → dripNC sp r = some (dripN sp r)
  | 0, _, _ => rfl
  | r + 1, sp, h => by
    simp only [dripNC, dripN]
    rw [dripC_eq h, Option.some_bind, dripNC_eq r (wf_drip h), Option.some_bind]

theorem squeezeC_eq {sp : Spritz} (h : Wf sp) (r : Nat) :
    squeezeC sp r = some (squeeze sp r) := by
  simp only [squeezeC, squeeze]
  by_cases hc : 0 < sp.a
  · rw [if_pos hc, if_pos hc, shuffleC_eq h, Option.some_bind]
    exact dripNC_eq r (wf_shuffle h)
  · rw [if_neg hc, if_neg hc, Option.some_bind]
    exact dripNC_eq r h

theorem xor_key_stream_self (sp : Spritz) (l : List Nat) :
    xor_key_stream sp l l = some (xorLoop sp l) := by
  show (if l.length = l.length then some (xorLoop sp l) else none) = some (xorLoop sp l)
  exact if_pos rfl

/-! ## The claims -/

/-- C1: for every listed known-answer vector: constructing an engine from key
"ABC" (resp. "spam", "arcfour") and drawing 8 successive keystream bytes via
`drip` yields exactly `77 9a 8e 01 f9 e9 cb c0` (resp.
`f0 60 9a 1d f1 43 ce bf`; `1a fa 8b 5e e3 37 db c7`), and the first 8 bytes
of `hash256` of "ABC" (resp. "spam", "arcfour") are exactly
`02 8f a2 b4 8b 93 4a 18` (resp. `ac bb a0 81 3f 30 0d 3a`;
`ff 8c f2 68 09 4c 87 b9`). -/
theorem C1_known_answer_vectors :
    (dripN (new [65, 66, 67]) 8).1 = [0x77, 0x9a, 0x8e, 0x01, 0xf9, 0xe9, 0xcb, 0xc0] ∧
    (dripN (new [115, 112, 97, 109]) 8).1 = [0xf0, 0x60, 0x9a, 0x1d, 0xf1, 0x43, 0xce, 0xbf] ∧
    (dripN (new [97, 114, 99, 102, 111, 117, 114]) 8).1 =
      [0x1a, 0xfa, 0x8b, 0x5e, 0xe3, 0x37, 0xdb, 0xc7] ∧
    (hash256 [65, 66, 67]).take 8 = [0x02, 0x8f, 0xa2, 0xb4, 0x8b, 0x93, 0x4a, 0x18] ∧
    (hash256 [115, 112, 97, 109]).take 8 = [0xac, 0xbb, 0xa0, 0x81, 0x3f, 0x30, 0x0d, 0x3a] ∧
    (hash256 [97, 114, 99, 102, 111, 117, 114]).take 8 =
      [0xff, 0x8c, 0xf2, 0x68, 0x09, 0x4c, 0x87, 0xb9] := by
  refine ⟨?_, ?_, ?_, ?_, ?_, ?_⟩
  · rw [dripN_bytes_packed, sABC_newP]; exact sABC_drip8
  · rw [dripN_bytes_packed, sSpam_newP]; exact sSpam_drip8
  · rw [dripN_bytes_packed, sArc_newP]; exact sArc_drip8
  · rw [hash256_def,
      squeeze_bytes_packed (wf_absorb _ (wf_absorb_stop (wf_absorb _ wf_initialize_state))) 32,
      hABC_preP]
    exact hABC_sq
  · rw [hash256_def,
      squeeze_bytes_packed (wf_absorb _ (wf_absorb_stop (wf_absorb _ wf_initialize_state))) 32,
      hSpam_preP]
    exact hSpam_sq
  · rw [hash256_def,
      squeeze_bytes_packed (wf_absorb _ (wf_absorb_stop (wf_absorb _ wf_initialize_state))) 32,
      hArc_preP]
    exact hArc_sq

/-- C2 (amended): what `update` actually performs on every engine state:
`i` becomes `i + w`; `j` becomes `k + S[j + S[i]]` — the new `j` reads the
table at `j + S[i]`, not at `i` as the spec sentence `j = k + S[i]` says —
`k` becomes `i + k + S[j]` (using the new `i` and new `j`), then `S[i]` and
`S[j]` are swapped; `z`, `a`, `w` are unchanged (all sums mod 256). -/
theorem C2_update_formula (sp : Spritz) :
    (update sp).i = (sp.i + sp.w) % 256 ∧
    (update sp).j =
      (sp.k + sget sp.S ((sp.j + sget sp.S ((sp.i + sp.w) % 256)) % 256)) % 256 ∧
    (update sp).k = ((sp.i + sp.w) % 256 + sp.k + sget sp.S ((update sp).j)) % 256 ∧
    (update sp).S = sswap sp.S ((sp.i + sp.w) % 256) ((update sp).j) ∧
    (update sp).z = sp.z ∧ (update sp).a = sp.a ∧ (update sp).w = sp.w :=
  ⟨rfl, rfl, rfl, rfl, rfl, rfl, rfl⟩

/-- C2 (counterexample): on the engine state with the identity table and
`j = 5` (all other registers as after initialization), `update` does not
perform the spec's sentence `j = k + S[i]`: the code computes
`j = k + S[j + S[i]]` and the two disagree here. -/
theorem C2_counterexample : update cexC2 ≠ update_spec cexC2 := by decide

/-- C3: for every reachable engine state (any sequence of construct, absorb,
absorb_stop, drip, squeeze, xor_key_stream), the table `S` is a bijection on
`{0..255}`: it is a permutation of `0, 1, ..., 255`, so every value below 256
appears in it exactly once. -/
theorem C3_table_is_permutation {sp : Spritz} (h : Reachable sp) :
    sp.S.Perm (List.range 256) ∧ ∀ v, v < 256 → sp.S.count v = 1 := by
  have hp := (reachable_inv h).1
  refine ⟨hp, fun v hv => ?_⟩
  rw [hp.count_eq]
  exact List.count_eq_one_of_mem (List.nodup_range 256) (List.mem_range.mpr hv)

/-- C3 witness: the claim instantiated at the freshly initialized engine. -/
theorem C3_witness :
    initialize_state.S.Perm (List.range 256) ∧
      ∀ v, v < 256 → initialize_state.S.count v = 1 :=
  C3_table_is_permutation Reachable.init

/-- C4: on buffers of different lengths `xor_key_stream` fails before any
byte is processed (the embedding returns `none`, untouched state and
destination); on equal lengths it writes exactly `src[i] ^ drip()` for every
position in order — the output is `src` zipped by xor with the keystream
bytes of `src.length` successive drips. -/
theorem C4_xor_key_stream_length (sp : Spritz) (dst src : List Nat) :
    (dst.length ≠ src.length → xor_key_stream sp dst src = none) ∧
    (dst.length = src.length →
      xor_key_stream sp dst src =
        some (List.zipWith (· ^^^ ·) src (dripN sp src.length).1,
          (dripN sp src.length).2)) := by
  constructor
  · intro hne
    simp only [xor_key_stream, if_neg hne]
  · intro he
    simp only [xor_key_stream, if_pos he]
    rw [xorLoop_eq_zipWith]

/-- C4 witness: the claim instantiated at the fresh engine with a mismatched
pair `[] / [0]` and a matched pair `[0] / [0]`. -/
theorem C4_witness :
    ([] : List Nat).length ≠ [0].length ∧
    xor_key_stream initialize_state [] [0] = none ∧
    ([0] : List Nat).length = [0].length ∧
    xor_key_stream initialize_state [0] [0] =
      some (List.zipWith (· ^^^ ·) [0] (dripN initialize_state [0].length).1,
        (dripN initialize_state [0].length).2) :=
  ⟨by decide, (C4_xor_key_stream_length initialize_state [] [0]).1 (by decide),
    rfl, (C4_xor_key_stream_length initialize_state [0] [0]).2 rfl⟩

/-- C5: drawing `n = r + s` bytes in one `squeeze` call yields the same byte
sequence and the same final engine state as drawing `r` bytes and then `s`
bytes in two successive calls; and one `squeeze(n)` produces the same bytes
as `n` successive `drip()` calls. -/
theorem C5_streaming_equivalence (sp : Spritz) (n r s : Nat) (hn : n = r + s) :
    (squeeze sp n).1 = (squeeze sp r).1 ++ (squeeze (squeeze sp r).2 s).1 ∧
    (squeeze sp n).2 = (squeeze (squeeze sp r).2 s).2 ∧
    (squeeze sp n).1 = (dripN sp n).1 := by
  subst hn
  exact ⟨(squeeze_split sp r s).1, (squeeze_split sp r s).2,
    squeeze_fst_eq_dripN sp (r + s)⟩

/-- C5 witness: the split 8 = 3 + 5 at the freshly initialized engine. -/
theorem C5_witness :
    (8 : Nat) = 3 + 5 ∧
    ((squeeze initialize_state 8).1 =
        (squeeze initialize_state 3).1 ++
          (squeeze (squeeze initialize_state 3).2 5).1 ∧
      (squeeze initialize_state 8).2 = (squeeze (squeeze initialize_state 3).2 5).2 ∧
      (squeeze initialize_state 8).1 = (dripN initialize_state 8).1) :=
  ⟨rfl, C5_streaming_equivalence initialize_state 8 3 5 rfl⟩

/-- C6: for every message `hash256` returns exactly 32 bytes, and it is the
composition: initialize a fresh engine, absorb the message, absorb_stop,
absorb the single length byte 32, then squeeze 32 bytes. -/
theorem C6_hash256_length_and_composition (msg : List Nat) :
    (hash256 msg).length = 32 ∧
    hash256 msg =
      (squeeze (absorb (absorb_stop (absorb initialize_state msg)) [32]) 32).1 := by
  constructor
  · rw [hash256_def, squeeze_fst_eq_dripN]
    exact length_dripN 32 _
  · exact hash256_def msg

/-- C7: for every reachable engine state the stride `w` is odd: it starts at
1 and only `whip` changes it, by adding 2 mod 256, which preserves oddness. -/
theorem C7_w_odd {sp : Spritz} (h : Reachable sp) : sp.w % 2 = 1 :=
  (reachable_inv h).2.2

/-- C7 witness: the claim instantiated at the freshly initialized engine. -/
theorem C7_witness : initialize_state.w % 2 = 1 := C7_w_odd Reachable.init

/-- C8: on a well-formed engine state (256-cell byte table, byte counter `a`
— exactly what the Rust types give) no internal operation can fail: every
bounds-checked variant, in which each table access is fallible, returns
`some` of the corresponding total operation's result, for every input. -/
theorem C8_no_internal_failure {sp : Spritz} (h : Wf sp) :
    (∀ x, absorb_nibbleC sp x = some (absorb_nibble sp x)) ∧
    (∀ b, absorb_byteC sp b = some (absorb_byte sp b)) ∧
    (∀ I, absorbC sp I = some (absorb sp I)) ∧
    absorb_stopC sp = some (absorb_stop sp) ∧
    shuffleC sp = some (shuffle sp) ∧
    crushC sp = some (crush sp) ∧
    (∀ r, whipC sp r = some (whip sp r)) ∧
    updateC sp = some (update sp) ∧
    outputC sp = some (output sp) ∧
    dripC sp = some (drip sp) ∧
    (∀ r, squeezeC sp r = some (squeeze sp r)) :=
  ⟨absorb_nibbleC_eq h, absorb_byteC_eq h, fun I => absorbC_eq I h,
    absorb_stopC_eq h, shuffleC_eq h, crushC_eq h, fun r => whipC_eq r h,
    updateC_eq h, outputC_eq h, dripC_eq h, squeezeC_eq h⟩

/-- C8 witness: the freshly initialized engine is well-formed, and on it the
bounds-checked operations all succeed. -/
theorem C8_witness :
    Wf initialize_state ∧
    ((∀ x, absorb_nibbleC initialize_state x = some (absorb_nibble initialize_state x)) ∧
      (∀ b, absorb_byteC initialize_state b = some (absorb_byte initialize_state b)) ∧
      (∀ I, absorbC initialize_state I = some (absorb initialize_state I)) ∧
      absorb_stopC initialize_state = some (absorb_stop initialize_state) ∧
      shuffleC initialize_state = some (shuffle initialize_state) ∧
      crushC initialize_state = some (crush initialize_state) ∧
      (∀ r, whipC initialize_state r = some (whip initialize_state r)) ∧
      updateC initialize_state = some (update initialize_state) ∧
      outputC initialize_state = some (output initialize_state) ∧
      dripC initialize_state = some (drip initialize_state) ∧
      (∀ r, squeezeC initialize_state r = some (squeeze initialize_state r))) :=
  ⟨wf_initialize_state, C8_no_internal_failure wf_initialize_state⟩

/-- C9: when `a < N/2`, `absorb_stop` only increments `a` by one — the table
`S` and the registers `i, j, k, z, w` are untouched; when `a = N/2` it first
runs `shuffle` and then increments the (then zeroed) counter. -/
theorem C9_absorb_stop_frame (sp : Spritz) :
    (sp.a < N / 2 →
      (absorb_stop sp).S = sp.S ∧ (absorb_stop sp).i = sp.i ∧
      (absorb_stop sp).j = sp.j ∧ (absorb_stop sp).k = sp.k ∧
      (absorb_stop sp).z = sp.z ∧ (absorb_stop sp).w = sp.w ∧
      (absorb_stop sp).a = sp.a + 1) ∧
    (sp.a = N / 2 →
      absorb_stop sp = { shuffle sp with a := ((shuffle sp).a + 1) % 256 }) := by
  constructor
  · intro h
    replace h : sp.a < 128 := h
    have hne : ¬ sp.a = N / 2 := fun he => by
      rw [he] at h
      exact absurd h (by decide)
    have hstop : absorb_stop sp = { sp with a := (sp.a + 1) % 256 } := by
      simp only [absorb_stop, if_neg hne]
    rw [hstop]
    exact ⟨rfl, rfl, rfl, rfl, rfl, rfl, Nat.mod_eq_of_lt (by omega)⟩
  · intro he
    simp only [absorb_stop, if_pos he]

/-- C9 witness: the frame part of the claim instantiated at the freshly
initialized engine, whose counter 0 is below N/2. -/
theorem C9_witness :
    initialize_state.a < N / 2 ∧
    ((absorb_stop initialize_state).S = initialize_state.S ∧
      (absorb_stop initialize_state).i = initialize_state.i ∧
      (absorb_stop initialize_state).j = initialize_state.j ∧
      (absorb_stop initialize_state).k = initialize_state.k ∧
      (absorb_stop initialize_state).z = initialize_state.z ∧
      (absorb_stop initialize_state).w = initialize_state.w ∧
      (absorb_stop initialize_state).a = initialize_state.a + 1) :=
  ⟨by decide, (C9_absorb_stop_frame initialize_state).1 (by decide)⟩

/-- C10: encrypt-then-decrypt round-trip: running the keystream xor of a
fresh engine built from `key` over the plaintext produces a ciphertext, and
running the keystream xor of a second fresh engine built from the same `key`
over that ciphertext returns exactly the original plaintext. -/
theorem C10_encrypt_decrypt_roundtrip (key pt : List Nat) :
    ∃ ct : List Nat, ∃ st1 st2 : Spritz,
      xor_key_stream (new key) pt pt = some (ct, st1) ∧
      xor_key_stream (new key) ct ct = some (pt, st2) := by
  refine ⟨(xorLoop (new key) pt).1, (xorLoop (new key) pt).2,
    (xorLoop (new key) ((xorLoop (new key) pt).1)).2, ?_, ?_⟩
  · rw [xor_key_stream_self]
  · rw [xor_key_stream_self]
    exact congrArg some (Prod.ext (xorLoop_roundtrip pt (new key)) rfl)

end Spritz
